import Mathlib

/-!
Cowboys playoff page: the display refresh pipeline of `script.js`.

A shallow embedding of `src/script.js` and theorems about it.

* JavaScript values are the values `JSON.parse` can deliver (plus `undefined`),
  with the conversions the script relies on: `ToBoolean`, `ToNumber`,
  `ToString`, property access, `toFixed`, `Math.round`.
* A finite JavaScript number is its exact rational value; the product `x * 100`
  is rounded to binary64 (round to nearest, ties to even). Negative zero is
  identified with zero: the script only ever tests a number for truthiness,
  prints it, or rounds it, and none of these tells the two zeros apart.
* What the browser supplies and is no code of the script is a parameter, the
  `Host`: the parsing of a string as a number, the digits of a number that is
  not a small integer, the text of a date.
* The page is a map from the fifteen element ids the script looks up to the
  element, if the page has one.
* An asynchronous function is run to completion against the outcomes of the
  requests it awaits, with no other handler running in between; every
  observable effect (request, assignment to an element, timer, console line) is
  appended to a trace. A timer is recorded when it is scheduled and its
  callback is run by `fireTimer`.
-/

namespace Cowboys

/-! ## Numbers -/

/-- A JavaScript number. -/
inductive JSNumber where
  | nan
  | posInf
  | negInf
  | fin (q : ℚ)
  deriving DecidableEq

/-- Fuel-driven worker of `natLog2`. -/
def log2Aux : Nat → Nat → Nat
  | 0, _ => 0
  | fuel + 1, n => if n < 2 then 0 else log2Aux fuel (n / 2) + 1

/-- The position of the leading bit of `n` (and `0` for `n = 0`). -/
def natLog2 (n : Nat) : Nat := log2Aux n n

/-- For positive `a`, the integer `k` with `2 ^ k ≤ a < 2 ^ (k + 1)`. -/
def binade (a : ℚ) : Int :=
  let k : Int := (natLog2 a.num.natAbs : Int) - (natLog2 a.den : Int)
  if (2 : ℚ) ^ k ≤ a then k else k - 1

/-- Round to the nearest integer, ties to the even one. -/
def roundHalfEven (x : ℚ) : Int :=
  let f : Int := ⌊x⌋
  let r : ℚ := x - f
  if r < 1 / 2 then f
  else if 1 / 2 < r then f + 1
  else if f % 2 = 0 then f else f + 1

/-- The binary64 value nearest to the real `q` (ties to even): 53 significant
bits, subnormals below `2 ^ (-1022)`, overflow to an infinity. -/
def roundToDouble (q : ℚ) : JSNumber :=
  if q = 0 then .fin 0
  else
    let a : ℚ := |q|
    let e : Int := max (binade a - 52) (-1074)
    let m : Int := roundHalfEven (a / (2 : ℚ) ^ e)
    let v : ℚ := (m : ℚ) * (2 : ℚ) ^ e
    if (2 : ℚ) ^ (1024 : Int) ≤ v then (if 0 < q then .posInf else .negInf)
    else .fin (if 0 < q then v else -v)

/-- The number a decimal literal `n / d` of the source denotes. -/
def lit (n d : Nat) : JSNumber := roundToDouble ((n : ℚ) / (d : ℚ))

/-- Sign of a number, for products with an infinity: `1`, `0` or `-1`. -/
def JSNumber.sign : JSNumber → Int
  | .nan => 0
  | .posInf => 1
  | .negInf => -1
  | .fin q => if 0 < q then 1 else if q < 0 then -1 else 0

/-- JavaScript `a * b` on numbers. -/
def JSNumber.mul : JSNumber → JSNumber → JSNumber
  | .nan, _ => .nan
  | _, .nan => .nan
  | .fin a, .fin b => roundToDouble (a * b)
  | a, b =>
    if a.sign * b.sign = 0 then .nan
    else if 0 < a.sign * b.sign then .posInf else .negInf

/-- JavaScript `Math.round`: the nearest integer, a tie going up. -/
def mathRound : JSNumber → JSNumber
  | .fin q => .fin ((⌊q + 1 / 2⌋ : Int) : ℚ)
  | x => x

/-- The last `f` decimal digits of `m`, most significant first. -/
def fracDigits : Nat → Nat → List Char
  | 0, _ => []
  | f + 1, m => fracDigits f (m / 10) ++ [Nat.digitChar (m % 10)]

/-- Fixed notation with `f` decimals of a real of magnitude below `10 ^ 21`:
the integer `n` nearest to `|q| * 10 ^ f` (the larger one on a tie), printed
with a point before its last `f` digits. -/
def toFixedDigits (q : ℚ) (f : Nat) : String :=
  let n : Nat := (⌊|q| * (10 : ℚ) ^ f + 1 / 2⌋ : Int).toNat
  let whole : String := Nat.repr (n / 10 ^ f)
  let m : String := if f = 0 then whole else whole ++ "." ++ String.mk (fracDigits f (n % 10 ^ f))
  if q < 0 then "-" ++ m else m

/-- What the script needs from the browser and is not JavaScript of this
repository: number parsing and the digits of a number that is not a small
integer, date parsing and formatting. -/
structure Host where
  /-- The number a string converts to (`StringToNumber`). -/
  stringToNumber : String → JSNumber
  /-- The text `Number::toString` gives a finite number that is not an integer
  of magnitude at most `2 ^ 53`. -/
  shortestDecimal : ℚ → String
  /-- The text of `new Date(v).toLocaleDateString(..)` with the options of
  `updateHistoryDisplay`, for a primitive `v`. -/
  localeDate : String ⊕ JSNumber → String
  /-- The text of `new Date(ms).toISOString()`. -/
  isoString : Int → String

/-- The decimal digits of an integer of magnitude at most `2 ^ 53`, which is
what `Number::toString` prints for it; `none` for any other real. -/
def safeIntegerText (q : ℚ) : Option String :=
  if q.den = 1 ∧ q.num.natAbs ≤ 2 ^ 53 then
    some (if q.num < 0 then "-" ++ Nat.repr q.num.natAbs else Nat.repr q.num.natAbs)
  else none

/-- JavaScript `Number::toString`. -/
def numberToString (h : Host) : JSNumber → String
  | .nan => "NaN"
  | .posInf => "Infinity"
  | .negInf => "-Infinity"
  | .fin q => (safeIntegerText q).getD (h.shortestDecimal q)

/-- The fixed notation `x.toFixed(f)` gives a finite number of magnitude below
`10 ^ 21`; `none` for any other number. -/
def fixedNotation (x : JSNumber) (f : Nat) : Option String :=
  match x with
  | .fin q => if |q| < (10 : ℚ) ^ 21 then some (toFixedDigits q f) else none
  | _ => none

/-- JavaScript `x.toFixed(f)` on a number, for `f ≤ 100`: fixed notation, and
the text of `Number::toString` for a number that has none. -/
def toFixed (h : Host) (x : JSNumber) (f : Nat) : String :=
  (fixedNotation x f).getD (numberToString h x)

/-! ## Values -/

/-- A JavaScript value that `JSON.parse` can deliver, or `undefined`. An object
is the list of its own properties; a key is looked up from the front. -/
inductive JSValue where
  | undefined
  | null
  | bool (b : Bool)
  | num (n : JSNumber)
  | str (s : String)
  | arr (xs : List JSValue)
  | obj (props : List (String × JSValue))

/-- What a JavaScript `throw` or a rejected promise carries. -/
inductive JSError where
  /-- A `TypeError` of the runtime (a property of `null`, a call of a
  non-function, an object with no primitive value). -/
  | typeError
  /-- The script's own `new Error(msg)`. -/
  | error (msg : String)
  /-- The rejection of `fetch`. -/
  | network
  /-- The rejection of `response.json()`. -/
  | badJson
  deriving DecidableEq

deriving instance DecidableEq for Except

/-- JavaScript `ToBoolean`. -/
def truthy : JSValue → Bool
  | .undefined => false
  | .null => false
  | .bool b => b
  | .num (.fin q) => decide (q ≠ 0)
  | .num .nan => false
  | .num _ => true
  | .str s => decide (s ≠ "")
  | .arr _ => true
  | .obj _ => true

/-- The own property `k` of an object. -/
def ownProp (k : String) : List (String × JSValue) → Option JSValue
  | [] => none
  | (k', v) :: rest => if k' = k then some v else ownProp k rest

/-- The length of a string in UTF-16 code units. -/
def utf16Length (s : String) : Nat :=
  (s.data.map fun c => if c.val < 0x10000 then 1 else 2).sum

/-- JavaScript `v.k` for the property names this script reads (`prediction`,
`season`, `length`, `wins`, ..): none is an array index, and none is defined by
the prototype of an object, a string, a number or a boolean. -/
def getProp (v : JSValue) (k : String) : Except JSError JSValue :=
  match v with
  | .undefined => .error .typeError
  | .null => .error .typeError
  | .obj props => .ok ((ownProp k props).getD .undefined)
  | .arr xs => .ok (if k = "length" then .num (.fin (xs.length : ℚ)) else .undefined)
  | .str s => .ok (if k = "length" then .num (.fin (utf16Length s : ℚ)) else .undefined)
  | _ => .ok .undefined

mutual
/-- JavaScript `ToString`. An object of `JSON.parse` prints as
`[object Object]` unless it has an own `toString`, which is then not callable
and leaves the object without a primitive value; an array joins its elements
with commas, `null` and `undefined` printing as nothing. -/
def toStringJS (h : Host) : JSValue → Except JSError String
  | .undefined => .ok "undefined"
  | .null => .ok "null"
  | .bool b => .ok (if b then "true" else "false")
  | .num n => .ok (numberToString h n)
  | .str s => .ok s
  | .arr xs => (joinElems h xs).map fun parts => ",".intercalate parts
  | .obj props =>
    if (props.any fun p => p.1 == "toString") then .error .typeError
    else .ok "[object Object]"
/-- The text of one element inside `Array.prototype.join`. -/
def joinElem (h : Host) : JSValue → Except JSError String
  | .undefined => .ok ""
  | .null => .ok ""
  | v => toStringJS h v
/-- The texts of the elements inside `Array.prototype.join`. -/
def joinElems (h : Host) : List JSValue → Except JSError (List String)
  | [] => .ok []
  | x :: xs =>
    match joinElem h x, joinElems h xs with
    | .ok a, .ok parts => .ok (a :: parts)
    | .error e, _ => .error e
    | _, .error e => .error e
end

/-- JavaScript `ToNumber`. -/
def toNumber (h : Host) (v : JSValue) : Except JSError JSNumber :=
  match v with
  | .undefined => .ok .nan
  | .null => .ok (.fin 0)
  | .bool b => .ok (.fin (if b then 1 else 0))
  | .num n => .ok n
  | .str s => .ok (h.stringToNumber s)
  | v => (toStringJS h v).map h.stringToNumber

/-- The text of `new Date(v).toLocaleDateString('en-US', ..)`: the date is
built from the string `v` is or prints as, else from the number it converts
to. -/
def dateText (h : Host) (v : JSValue) : Except JSError String :=
  match v with
  | .str s => .ok (h.localeDate (.inl s))
  | .arr xs => (toStringJS h (.arr xs)).map fun s => h.localeDate (.inl s)
  | .obj props => (toStringJS h (.obj props)).map fun s => h.localeDate (.inl s)
  | v => (toNumber h v).map fun n => h.localeDate (.inr n)

/-- The expression `Math.round(n * 100)` on a number. -/
def roundTimes100 (n : JSNumber) : JSNumber := mathRound (n.mul (.fin 100))

/-- The expression `Math.round(v.k * 100)`. -/
def roundedPercent (h : Host) (v : JSValue) (k : String) : Except JSError JSNumber := do
  let x ← getProp v k
  let n ← toNumber h x
  pure (roundTimes100 n)

/-! ## The page, the state of the script and its effects -/

/-- The ids the script passes to `document.getElementById`. -/
inductive ElemId where
  | playoff_prob | division_prob | conference_prob | superbowl_prob | confidence
  | playoff_bar | division_bar | conference_bar | superbowl_bar
  | record | win_pct | off_rating | def_rating
  | history_list | generate_btn
  deriving DecidableEq

/-- The properties of a page element the script assigns. Each element is
assigned through one content property only (`textContent` or `innerHTML`), so
the two are kept as separate fields. -/
structure Elem where
  textContent : String
  innerHTML : String
  styleWidth : String
  disabled : Bool
  deriving DecidableEq

/-- One assignment to a property of an element. -/
inductive DomWrite where
  | textContent (s : String)
  | innerHTML (s : String)
  | styleWidth (s : String)
  | disabled (b : Bool)
  deriving DecidableEq

/-- The element after an assignment. -/
def Elem.assign (e : Elem) : DomWrite → Elem
  | .textContent s => { e with textContent := s }
  | .innerHTML s => { e with innerHTML := s }
  | .styleWidth s => { e with styleWidth := s }
  | .disabled b => { e with disabled := b }

/-- The page: the element each id names, if the page has one. -/
abbrev Dom := ElemId → Option Elem

/-- The two callbacks the script hands to `setTimeout`, with the values they
close over. -/
inductive TimerAction where
  | bars (playoffProb divisionProb conferenceProb superbowlProb : JSNumber)
  | resetButton
  deriving DecidableEq

/-- An observable effect. -/
inductive Event where
  | request (method url : String)
  | write (id : ElemId) (w : DomWrite)
  | setTimeout (action : TimerAction) (delay : Nat)
  | consoleError (label : String) (e : JSError)
  | consoleLog (msg : String)
  | addEventListener (id : ElemId) (type : String)
  deriving DecidableEq

/-- The two module-level variables, the page, and the effects so far (oldest
first). -/
structure State where
  currentPrediction : JSValue
  predictionHistory : JSValue
  dom : Dom
  trace : List Event

/-- How a call ends: it returns, or it throws (an `async` function: its
promise is rejected). -/
inductive Outcome (α : Type) where
  | done (a : α)
  | thrown (e : JSError)
  deriving DecidableEq

/-- A computation of the script: from a state to how it ends and the state it
leaves. -/
def Eff (α : Type) : Type := State → Outcome α × State

/-- Sequencing: a throw skips what follows it. -/
def Eff.bind {α β : Type} (m : Eff α) (f : α → Eff β) : Eff β := fun s =>
  match m s with
  | (.done a, s1) => f a s1
  | (.thrown e, s1) => (.thrown e, s1)

instance : Monad Eff where
  pure a := fun s => (.done a, s)
  bind := Eff.bind

/-- JavaScript `throw e`. -/
def Eff.throw {α : Type} (e : JSError) : Eff α := fun s => (.thrown e, s)

/-- JavaScript `try { body } catch (error) { handler }`. -/
def Eff.tryCatch {α : Type} (body : Eff α) (handler : JSError → Eff α) : Eff α := fun s =>
  match body s with
  | (.done a, s1) => (.done a, s1)
  | (.thrown e, s1) => handler e s1

/-- An expression that may throw and has no other effect. -/
def Eff.eval {α : Type} (x : Except JSError α) : Eff α := fun s =>
  match x with
  | .ok a => (.done a, s)
  | .error e => (.thrown e, s)

/-- Append an effect to the trace. -/
def emit (ev : Event) : Eff Unit := fun s =>
  (.done (), { s with trace := s.trace ++ [ev] })

/-- Whether `document.getElementById(id)` finds an element. -/
def present (id : ElemId) : Eff Bool := fun s => (.done (s.dom id).isSome, s)

/-- The guarded assignment `if (el) el.prop = value`. -/
def assignIfPresent (id : ElemId) (w : DomWrite) : Eff Unit := fun s =>
  match s.dom id with
  | none => (.done (), s)
  | some e =>
    (.done (), { s with dom := Function.update s.dom id (some (e.assign w)),
                        trace := s.trace ++ [.write id w] })

/-- The unguarded assignment `el.prop = value`: a `TypeError` when
`getElementById` gave `null`. -/
def assign (id : ElemId) (w : DomWrite) : Eff Unit := fun s =>
  match s.dom id with
  | none => (.thrown .typeError, s)
  | some e =>
    (.done (), { s with dom := Function.update s.dom id (some (e.assign w)),
                        trace := s.trace ++ [.write id w] })

/-- The assignment `currentPrediction = v`. -/
def setCurrentPrediction (v : JSValue) : Eff Unit := fun s =>
  (.done (), { s with currentPrediction := v })

/-- The assignment `predictionHistory = v`. -/
def setPredictionHistory (v : JSValue) : Eff Unit := fun s =>
  (.done (), { s with predictionHistory := v })

/-- The reading of `predictionHistory`. -/
def getPredictionHistory : Eff JSValue := fun s => (.done s.predictionHistory, s)

/-- The reading of `currentPrediction`. -/
def getCurrentPrediction : Eff JSValue := fun s => (.done s.currentPrediction, s)

/-- A resolved `fetch`: the `ok` flag and what `response.json()` settles to. -/
structure Response where
  ok : Bool
  json : Except JSError JSValue

/-- JavaScript `await fetch(url, ..)` against the outcome `r` of the request. -/
def fetch (method url : String) (r : Except JSError Response) : Eff Response := do
  emit (.request method url)
  Eff.eval r

/-- The constant `API_URL`. -/
def API_URL : String := "http://localhost:3001/api"

/-! ## Display update functions -/

/-- The template `${n}%` on a number. -/
def percentText (h : Host) (n : JSNumber) : String := numberToString h n ++ "%"

/-- The callback of a timer, run when the timer fires. -/
def fireTimer (h : Host) : TimerAction → Eff Unit
  | .bars playoffProb divisionProb conferenceProb superbowlProb => do
    assignIfPresent .playoff_bar (.styleWidth (percentText h playoffProb))
    assignIfPresent .division_bar (.styleWidth (percentText h divisionProb))
    assignIfPresent .conference_bar (.styleWidth (percentText h conferenceProb))
    assignIfPresent .superbowl_bar (.styleWidth (percentText h superbowlProb))
  | .resetButton => do
    assign .generate_btn (.textContent "GENERATE NEW PREDICTION")
    assign .generate_btn (.disabled false)

/-- The function `updatePredictionDisplay`. -/
def updatePredictionDisplay (h : Host) (prediction : JSValue) : Eff Unit := do
  if !truthy prediction then return
  let playoffProb ← Eff.eval (roundedPercent h prediction "playoff_probability")
  let divisionProb ← Eff.eval (roundedPercent h prediction "division_probability")
  let conferenceProb ← Eff.eval (roundedPercent h prediction "conference_probability")
  let superbowlProb ← Eff.eval (roundedPercent h prediction "superbowl_probability")
  let confidence ← Eff.eval (roundedPercent h prediction "confidence_score")
  assignIfPresent .playoff_prob (.textContent (percentText h playoffProb))
  assignIfPresent .division_prob (.textContent (percentText h divisionProb))
  assignIfPresent .conference_prob (.textContent (percentText h conferenceProb))
  assignIfPresent .superbowl_prob (.textContent (percentText h superbowlProb))
  assignIfPresent .confidence (.textContent (percentText h confidence))
  emit (.setTimeout (.bars playoffProb divisionProb conferenceProb superbowlProb) 100)

/-- The template `${season.wins}-${season.losses}-${season.ties}`. -/
def recordText (h : Host) (season : JSValue) : Except JSError String := do
  let wins ← getProp season "wins" >>= toStringJS h
  let losses ← getProp season "losses" >>= toStringJS h
  let ties ← getProp season "ties" >>= toStringJS h
  pure (wins ++ "-" ++ losses ++ "-" ++ ties)

/-- The method call `x.toFixed(digits)`: only a number has the method. -/
def callToFixed (h : Host) (x : JSValue) (digits : Nat) : Except JSError String :=
  match x with
  | .num n => .ok (toFixed h n digits)
  | _ => .error .typeError

/-- The expression `season.k ? season.k.toFixed(digits) : fallback`. -/
def fixedOrDefault (h : Host) (season : JSValue) (k : String) (digits : Nat)
    (fallback : String) : Except JSError String := do
  let x ← getProp season k
  if truthy x then callToFixed h x digits else pure fallback

/-- The function `updateStatsDisplay`. -/
def updateStatsDisplay (h : Host) (data : JSValue) : Eff Unit := do
  if !truthy data then return
  let season ← Eff.eval (getProp data "season")
  if !truthy season then return
  let record ← Eff.eval (recordText h season)
  let winPct ← Eff.eval (fixedOrDefault h season "win_percentage" 3 ".000")
  let offRating ← Eff.eval (fixedOrDefault h season "offensive_rating" 1 "0.0")
  let defRating ← Eff.eval (fixedOrDefault h season "defensive_rating" 1 "0.0")
  assignIfPresent .record (.textContent record)
  assignIfPresent .win_pct (.textContent winPct)
  assignIfPresent .off_rating (.textContent offRating)
  assignIfPresent .def_rating (.textContent defRating)

/-- The template of one history card, around its five texts. -/
def historyCard (date playoff division conference superbowl : String) : String :=
  "\n            <div class=\"history-item\">\n                <div class=\"history-date\">"
  ++ date ++
  "</div>\n                <div class=\"history-predictions\">\n                    <div class=\"history-pred\">\n                        <div class=\"history-pred-label\">PLAYOFFS</div>\n                        <div class=\"history-pred-value\">"
  ++ playoff ++
  "%</div>\n                    </div>\n                    <div class=\"history-pred\">\n                        <div class=\"history-pred-label\">DIVISION</div>\n                        <div class=\"history-pred-value\">"
  ++ division ++
  "%</div>\n                    </div>\n                    <div class=\"history-pred\">\n                        <div class=\"history-pred-label\">CONFERENCE</div>\n                        <div class=\"history-pred-value\">"
  ++ conference ++
  "%</div>\n                    </div>\n                    <div class=\"history-pred\">\n                        <div class=\"history-pred-label\">SUPER BOWL</div>\n                        <div class=\"history-pred-value\">"
  ++ superbowl ++
  "%</div>\n                    </div>\n                </div>\n            </div>\n        "

/-- The callback of `history.map`: the card of one record. -/
def historyItem (h : Host) (pred : JSValue) : Except JSError String := do
  let date ← getProp pred "created_at" >>= dateText h
  let playoff ← roundedPercent h pred "playoff_probability"
  let division ← roundedPercent h pred "division_probability"
  let conference ← roundedPercent h pred "conference_probability"
  let superbowl ← roundedPercent h pred "superbowl_probability"
  pure (historyCard date (numberToString h playoff) (numberToString h division)
    (numberToString h conference) (numberToString h superbowl))

/-- The expression `history.map(pred => ..).join('')`: only an array has
`map`. -/
def historyCards (h : Host) (history : JSValue) : Except JSError String :=
  match history with
  | .arr preds => (preds.mapM (historyItem h)).map String.join
  | _ => .error .typeError

/-- The test `history.length === 0`. -/
def lengthIsZero (history : JSValue) : Except JSError Bool := do
  let n ← getProp history "length"
  match n with
  | .num (.fin q) => pure (decide (q = 0))
  | _ => pure false

/-- The placeholder of an empty history. -/
def noHistory : String := "<div class=\"loading\">No prediction history available</div>"

/-- The test `!history || history.length === 0`. -/
def historyIsEmpty (history : JSValue) : Except JSError Bool :=
  if !truthy history then pure true else lengthIsZero history

/-- The function `updateHistoryDisplay`. -/
def updateHistoryDisplay (h : Host) (history : JSValue) : Eff Unit := do
  if !(← present .history_list) then return
  if (← Eff.eval (historyIsEmpty history)) then
    assign .history_list (.innerHTML noHistory)
    return
  let cards ← Eff.eval (historyCards h history)
  assign .history_list (.innerHTML cards)

/-! ## Wiring -/

/-- The function `setupEventListeners`: `generateNewPrediction` becomes the
click handler of the trigger button, when the page has the button. -/
def setupEventListeners : Eff Unit := do
  if (← present .generate_btn) then
    emit (.addEventListener .generate_btn "click")

/-! ## Requests -/

/-- The function `loadCurrentPrediction`, against the outcome of its request. -/
def loadCurrentPrediction (h : Host) (r : Except JSError Response) : Eff Unit :=
  Eff.tryCatch (do
      let response ← fetch "GET" (API_URL ++ "/predictions/current") r
      if !response.ok then Eff.throw (.error "Failed to fetch prediction")
      let data ← Eff.eval response.json
      setCurrentPrediction (← Eff.eval (getProp data "prediction"))
      updatePredictionDisplay h (← getCurrentPrediction))
    (fun error => do
      emit (.consoleError "Error loading prediction:" error)
      Eff.throw error)

/-- The function `loadSeasonStats`, against the outcome of its request. -/
def loadSeasonStats (h : Host) (r : Except JSError Response) : Eff Unit :=
  Eff.tryCatch (do
      let response ← fetch "GET" (API_URL ++ "/teams/1/current") r
      if !response.ok then Eff.throw (.error "Failed to fetch stats")
      let data ← Eff.eval response.json
      updateStatsDisplay h data)
    (fun error => do
      emit (.consoleError "Error loading stats:" error)
      Eff.throw error)

/-- The function `loadPredictionHistory`, against the outcome of its request. -/
def loadPredictionHistory (h : Host) (r : Except JSError Response) : Eff Unit :=
  Eff.tryCatch (do
      let response ← fetch "GET" (API_URL ++ "/predictions/history?limit=10") r
      if !response.ok then Eff.throw (.error "Failed to fetch history")
      let data ← Eff.eval response.json
      setPredictionHistory (← Eff.eval (getProp data "predictions"))
      updateHistoryDisplay h (← getPredictionHistory))
    (fun error => do
      emit (.consoleError "Error loading history:" error)
      Eff.throw error)

/-- The function `generateNewPrediction`, against the outcomes of its POST and
of the history request that follows a successful POST. -/
def generateNewPrediction (h : Host) (post history : Except JSError Response) : Eff Unit := do
  assign .generate_btn (.disabled true)
  assign .generate_btn (.textContent "GENERATING...")
  Eff.tryCatch (do
      let response ← fetch "POST" (API_URL ++ "/predictions/generate") post
      if !response.ok then Eff.throw (.error "Failed to generate prediction")
      let data ← Eff.eval response.json
      setCurrentPrediction (← Eff.eval (getProp data "prediction"))
      updatePredictionDisplay h (← getCurrentPrediction)
      loadPredictionHistory h history
      assign .generate_btn (.textContent "PREDICTION UPDATED")
      emit (.setTimeout .resetButton 2000))
    (fun error => do
      emit (.consoleError "Error generating prediction:" error)
      assign .generate_btn (.textContent "ERROR - TRY AGAIN")
      emit (.setTimeout .resetButton 2000))

/-! ## Mock data and start-up -/

/-- The object `mockPrediction`. -/
def mockPrediction : JSValue :=
  .obj [("playoff_probability", .num (lit 42 100)),
        ("division_probability", .num (lit 28 100)),
        ("conference_probability", .num (lit 12 100)),
        ("superbowl_probability", .num (lit 6 100)),
        ("confidence_score", .num (lit 73 100))]

/-- The object `mockStats`. -/
def mockStats : JSValue :=
  .obj [("season", .obj [("wins", .num (.fin 3)),
                         ("losses", .num (.fin 3)),
                         ("ties", .num (.fin 0)),
                         ("win_percentage", .num (lit 500 1000)),
                         ("offensive_rating", .num (lit 785 10)),
                         ("defensive_rating", .num (lit 823 10))])]

/-- One record of `mockHistory`. -/
def mockRecord (created_at : String) (playoff division conference superbowl : Nat) : JSValue :=
  .obj [("created_at", .str created_at),
        ("playoff_probability", .num (lit playoff 100)),
        ("division_probability", .num (lit division 100)),
        ("conference_probability", .num (lit conference 100)),
        ("superbowl_probability", .num (lit superbowl 100))]

/-- The array `mockHistory`; `clock k` is the k-th reading of the clock
(`new Date()`, then three times `Date.now()`), in milliseconds. -/
def mockHistory (h : Host) (clock : Nat → Int) : JSValue :=
  .arr [mockRecord (h.isoString (clock 0)) 42 28 12 6,
        mockRecord (h.isoString (clock 1 - 86400000)) 45 31 14 7,
        mockRecord (h.isoString (clock 2 - 172800000)) 38 25 10 5,
        mockRecord (h.isoString (clock 3 - 259200000)) 35 22 8 4]

/-- The function `showMockData`. -/
def showMockData (h : Host) (clock : Nat → Int) : Eff Unit := do
  emit (.consoleLog "Using mock data for demonstration - API not available")
  updatePredictionDisplay h mockPrediction
  updateStatsDisplay h mockStats
  updateHistoryDisplay h (mockHistory h clock)

/-- The function `initializeApp`, against the outcomes of its three requests. -/
def initializeApp (h : Host) (clock : Nat → Int)
    (prediction stats history : Except JSError Response) : Eff Unit :=
  Eff.tryCatch (do
      loadCurrentPrediction h prediction
      loadSeasonStats h stats
      loadPredictionHistory h history)
    (fun error => do
      emit (.consoleError "Error initializing app:" error)
      showMockData h clock)


/-! ## Reading the state -/

/-- The state after the guarded assignment `if (el) el.prop = value`. -/
def State.put (s : State) (id : ElemId) (w : DomWrite) : State :=
  (assignIfPresent id w s).2

/-- The state after one more effect on the trace. -/
def State.log (s : State) (ev : Event) : State :=
  { s with trace := s.trace ++ [ev] }

/-- The `textContent` of an element, if the page has it. -/
def State.text (s : State) (id : ElemId) : Option String :=
  (s.dom id).map Elem.textContent

/-- The `innerHTML` of an element, if the page has it. -/
def State.html (s : State) (id : ElemId) : Option String :=
  (s.dom id).map Elem.innerHTML

/-- The `disabled` flag of an element, if the page has it. -/
def State.isDisabled (s : State) (id : ElemId) : Option Bool :=
  (s.dom id).map Elem.disabled

/-- The page has the element. -/
def State.has (s : State) (id : ElemId) : Prop := (s.dom id).isSome = true

/-- The later state has the same elements as the earlier one. -/
def SamePage (s t : State) : Prop := ∀ id, (t.dom id).isSome = (s.dom id).isSome

/-- The two module-level variables are the same in both states. -/
def SameSlots (s t : State) : Prop :=
  t.currentPrediction = s.currentPrediction ∧ t.predictionHistory = s.predictionHistory

/-- The event is the scheduling of the button reset. -/
def Event.isReset : Event → Bool
  | .setTimeout .resetButton _ => true
  | _ => false

/-- The event is a request. -/
def Event.isRequest : Event → Bool
  | .request _ _ => true
  | _ => false

/-- The later trace extends the earlier one by events none of which schedules
the button reset. -/
def NoReset (s t : State) : Prop :=
  ∃ evs : List Event, t.trace = s.trace ++ evs ∧ ∀ ev ∈ evs, ev.isReset = false

/-- A relation between a state and a later one that is kept by every
assignment to an element and by every effect other than the scheduling of the
button reset. -/
structure Frame (R : State → State → Prop) : Prop where
  refl : ∀ s, R s s
  trans : ∀ a b c, R a b → R b c → R a c
  write : ∀ (s : State) id w e, s.dom id = some e →
    R s { s with dom := Function.update s.dom id (some (e.assign w)),
                 trace := s.trace ++ [.write id w] }
  log : ∀ (s : State) ev, ev.isReset = false → R s { s with trace := s.trace ++ [ev] }

/-- Every run of the computation relates the state before to the state after. -/
def Respects (R : State → State → Prop) {α : Type} (m : Eff α) : Prop :=
  ∀ s, R s (m s).2

/-- The page without the elements outside `keep`. -/
def restrictDom (keep : ElemId → Bool) (d : Dom) : Dom :=
  fun id => if keep id then d id else none

/-- The event is not an assignment to an element outside `keep`. -/
def Event.within (keep : ElemId → Bool) : Event → Bool
  | .write id _ => keep id
  | _ => true

/-- The state on the page without the elements outside `keep`: those elements
are gone, and so are the assignments to them in the trace. -/
def State.restrict (keep : ElemId → Bool) (s : State) : State :=
  { s with dom := restrictDom keep s.dom, trace := s.trace.filter (Event.within keep) }

/-! ## What the display functions compute, apart from their effects -/

/-- The five rounded percentages `updatePredictionDisplay` computes. -/
def predictionPercents (h : Host) (prediction : JSValue) :
    Except JSError (JSNumber × JSNumber × JSNumber × JSNumber × JSNumber) := do
  let playoffProb ← roundedPercent h prediction "playoff_probability"
  let divisionProb ← roundedPercent h prediction "division_probability"
  let conferenceProb ← roundedPercent h prediction "conference_probability"
  let superbowlProb ← roundedPercent h prediction "superbowl_probability"
  let confidence ← roundedPercent h prediction "confidence_score"
  pure (playoffProb, divisionProb, conferenceProb, superbowlProb, confidence)

/-- The state after the assignments and the timer of `updatePredictionDisplay`. -/
def State.showPercents (s : State) (h : Host)
    (x : JSNumber × JSNumber × JSNumber × JSNumber × JSNumber) : State :=
  (((((s.put .playoff_prob (.textContent (percentText h x.1))).put
    .division_prob (.textContent (percentText h x.2.1))).put
    .conference_prob (.textContent (percentText h x.2.2.1))).put
    .superbowl_prob (.textContent (percentText h x.2.2.2.1))).put
    .confidence (.textContent (percentText h x.2.2.2.2))).log
    (.setTimeout (.bars x.1 x.2.1 x.2.2.1 x.2.2.2.1) 100)

/-- The four texts `updateStatsDisplay` computes from a season. -/
def statsTexts (h : Host) (season : JSValue) :
    Except JSError (String × String × String × String) := do
  let record ← recordText h season
  let winPct ← fixedOrDefault h season "win_percentage" 3 ".000"
  let offRating ← fixedOrDefault h season "offensive_rating" 1 "0.0"
  let defRating ← fixedOrDefault h season "defensive_rating" 1 "0.0"
  pure (record, winPct, offRating, defRating)

/-- The state after the four assignments of `updateStatsDisplay`. -/
def State.showStats (s : State) (x : String × String × String × String) : State :=
  (((s.put .record (.textContent x.1)).put
    .win_pct (.textContent x.2.1)).put
    .off_rating (.textContent x.2.2.1)).put
    .def_rating (.textContent x.2.2.2)

/-- The markup `updateHistoryDisplay` computes for the history container. -/
def historyMarkup (h : Host) (history : JSValue) : Except JSError String := do
  if (← historyIsEmpty history) then pure noHistory else historyCards h history

/-! ## Outcomes of a request -/

/-- What the three lines after a `fetch` yield: the decoded body, or the error
thrown (the rejection of `fetch`, the script's error for a status that is not
ok, or the rejection of `response.json()`). -/
def responseData (msg : String) (r : Except JSError Response) : Except JSError JSValue :=
  match r with
  | .error e => .error e
  | .ok response => if response.ok = false then .error (.error msg) else response.json

/-- The request fails: transport failure, a status that is not ok, or a body
that does not decode. -/
def requestFails : Except JSError Response → Bool
  | .error _ => true
  | .ok ⟨false, _⟩ => true
  | .ok ⟨true, .error _⟩ => true
  | .ok ⟨true, .ok _⟩ => false

/-- The state after the `catch` block of `generateNewPrediction`. -/
def State.showError (s : State) (e : JSError) : State :=
  (((s.log (.consoleError "Error generating prediction:" e)).put
    .generate_btn (.textContent "ERROR - TRY AGAIN")).log
    (.setTimeout .resetButton 2000))

/-- The state after the first three effects of `generateNewPrediction`. -/
def State.startGenerate (s : State) : State :=
  ((s.put .generate_btn (.disabled true)).put
    .generate_btn (.textContent "GENERATING...")).log
    (.request "POST" (API_URL ++ "/predictions/generate"))

/-- The four history cards of the mock data set, in order. -/
def mockCards (h : Host) (clock : Nat → Int) : List String :=
  [historyCard (h.localeDate (.inl (h.isoString (clock 0)))) "42" "28" "12" "6",
   historyCard (h.localeDate (.inl (h.isoString (clock 1 - 86400000)))) "45" "31" "14" "7",
   historyCard (h.localeDate (.inl (h.isoString (clock 2 - 172800000)))) "38" "25" "10" "5",
   historyCard (h.localeDate (.inl (h.isoString (clock 3 - 259200000)))) "35" "22" "8" "4"]

/-- The state after `updatePredictionDisplay`, `updateStatsDisplay` and
`updateHistoryDisplay` have shown the mock data set. -/
def State.showMock (s : State) (h : Host) (clock : Nat → Int) : State :=
  (((s.log (.consoleLog "Using mock data for demonstration - API not available")).showPercents h
    (.fin 42, .fin 28, .fin 12, .fin 6, .fin 73)).showStats
    ("3-3-0", "0.500", "78.5", "82.3")).put .history_list
    (.innerHTML (String.join (mockCards h clock)))

/-- The `try` block of `initializeApp`. -/
def loadAll (h : Host) (prediction stats history : Except JSError Response) : Eff Unit := do
  loadCurrentPrediction h prediction
  loadSeasonStats h stats
  loadPredictionHistory h history

/-! ## Binary64 rounding, as IEEE 754 states it -/

/-- A finite binary64 number: a significand of at most 53 bits times a power of
two within the exponent range of the format. -/
def IsBinary64 (d : ℚ) : Prop :=
  ∃ m e : ℤ, |m| < 2 ^ 53 ∧ -1074 ≤ e ∧ e ≤ 971 ∧ d = (m : ℚ) * (2 : ℚ) ^ e

/-- The significand of the binary64 number `d`, taken with its leading bit set
or at the least exponent of the format, is even. -/
def HasEvenSignificand (d : ℚ) : Prop :=
  ∃ m e : ℤ, Even m ∧ |m| < 2 ^ 53 ∧ (2 ^ 52 ≤ |m| ∨ e = -1074) ∧ -1074 ≤ e ∧ e ≤ 971 ∧
    d = (m : ℚ) * (2 : ℚ) ^ e

/-- IEEE 754 round to nearest, ties to even: `d` is a binary64 number, no
binary64 number is nearer to the real `q`, and when another one is as near, `d`
is the one with the even significand. -/
def IsNearestBinary64 (q d : ℚ) : Prop :=
  IsBinary64 d ∧ (∀ d', IsBinary64 d' → |d - q| ≤ |d' - q|) ∧
  (∀ d', IsBinary64 d' → d' ≠ d → |d' - q| = |d - q| → HasEvenSignificand d)

/-! ## A concrete host, page and state -/

/-- A host with fixed answers. -/
def demoHost : Host :=
  { stringToNumber := fun _ => .nan
    shortestDecimal := fun _ => "1e+21"
    localeDate := fun _ => "Jan 1, 2025, 12:00 AM"
    isoString := fun _ => "2025-01-01T00:00:00.000Z" }

/-- A page with all fifteen elements, all blank. -/
def blankPage : Dom := fun _ => some ⟨"", "", "", false⟩

/-- The state of the script when it starts, on the blank page. -/
def startState : State :=
  { currentPrediction := .null, predictionHistory := .arr [], dom := blankPage, trace := [] }

/-- A response with status ok whose body decodes to `data`. -/
def okResponse (data : JSValue) : Except JSError Response := .ok ⟨true, .ok data⟩

/-- A history record as the API documents it: a creation time and four
probabilities. -/
structure HistoryRecord where
  created_at : String
  playoff_probability : JSNumber
  division_probability : JSNumber
  conference_probability : JSNumber
  superbowl_probability : JSNumber

/-- The JavaScript value `pred` carries the fields of the record `r`. -/
def IsRecord (pred : JSValue) (r : HistoryRecord) : Prop :=
  getProp pred "created_at" = .ok (.str r.created_at) ∧
  getProp pred "playoff_probability" = .ok (.num r.playoff_probability) ∧
  getProp pred "division_probability" = .ok (.num r.division_probability) ∧
  getProp pred "conference_probability" = .ok (.num r.conference_probability) ∧
  getProp pred "superbowl_probability" = .ok (.num r.superbowl_probability)

/-- The history card of a record: its formatted date and its four
probabilities, each as `Math.round(p * 100)`. -/
def HistoryRecord.card (h : Host) (r : HistoryRecord) : String :=
  historyCard (h.localeDate (.inl r.created_at))
    (numberToString h (roundTimes100 r.playoff_probability))
    (numberToString h (roundTimes100 r.division_probability))
    (numberToString h (roundTimes100 r.conference_probability))
    (numberToString h (roundTimes100 r.superbowl_probability))

/-- Season statistics as the API documents them: three counts, and a win
percentage and two ratings that may each be missing. -/
structure SeasonStats where
  wins : JSNumber
  losses : JSNumber
  ties : JSNumber
  win_percentage : Option JSNumber
  offensive_rating : Option JSNumber
  defensive_rating : Option JSNumber

/-- The value of a property that may be missing. -/
def optionalNumber : Option JSNumber → JSValue
  | none => .undefined
  | some n => .num n

/-- The JavaScript object `season` carries the fields of `f`. -/
def IsSeason (season : JSValue) (f : SeasonStats) : Prop :=
  truthy season = true ∧
  getProp season "wins" = .ok (.num f.wins) ∧
  getProp season "losses" = .ok (.num f.losses) ∧
  getProp season "ties" = .ok (.num f.ties) ∧
  getProp season "win_percentage" = .ok (optionalNumber f.win_percentage) ∧
  getProp season "offensive_rating" = .ok (optionalNumber f.offensive_rating) ∧
  getProp season "defensive_rating" = .ok (optionalNumber f.defensive_rating)

/-- What `x ? x.toFixed(digits) : fallback` yields for a number that may be
missing: the fallback for a missing one, for zero and for `NaN`; fixed notation
for a finite one of magnitude below `10 ^ 21`; else the text of
`Number::toString`. -/
def fixedText (h : Host) (digits : Nat) (fallback : String) : Option JSNumber → String
  | none => fallback
  | some .nan => fallback
  | some (.fin q) =>
    if q = 0 then fallback
    else if |q| < (10 : ℚ) ^ 21 then toFixedDigits q digits
    else numberToString h (.fin q)
  | some x => numberToString h x

/-- A season object with every field present. -/
def seasonObject (wins losses ties win_percentage offensive_rating defensive_rating : JSNumber) :
    JSValue :=
  .obj [("season", .obj [("wins", .num wins), ("losses", .num losses), ("ties", .num ties),
    ("win_percentage", .num win_percentage), ("offensive_rating", .num offensive_rating),
    ("defensive_rating", .num defensive_rating)])]

/-- A history record, and below the JavaScript object that carries it. -/
def demoRecord : HistoryRecord :=
  ⟨"2025-01-01T00:00:00.000Z", lit 42 100, lit 28 100, lit 12 100, lit 6 100⟩

/-- The JavaScript object of `demoRecord`. -/
def demoPred : JSValue := mockRecord "2025-01-01T00:00:00.000Z" 42 28 12 6

/-- The page shows the mock data set: the five percentages, the four
statistics and the four history cards. -/
def ShowsMock (t : State) (h : Host) (clock : Nat → Int) : Prop :=
  t.text .playoff_prob = some "42%" ∧ t.text .division_prob = some "28%" ∧
  t.text .conference_prob = some "12%" ∧ t.text .superbowl_prob = some "6%" ∧
  t.text .confidence = some "73%" ∧ t.text .record = some "3-3-0" ∧
  t.text .win_pct = some "0.500" ∧ t.text .off_rating = some "78.5" ∧
  t.text .def_rating = some "82.3" ∧
  t.html .history_list = some (String.join (mockCards h clock))

/-- The POST step of `generateNewPrediction` completes: the request succeeds,
the body decodes, its `prediction` field can be read, and the prediction is
falsy or all five of its percentages can be computed. -/
def PostSucceeds (h : Host) (post : Except JSError Response) : Prop :=
  ∃ data P, post = .ok ⟨true, .ok data⟩ ∧ getProp data "prediction" = .ok P ∧
    (truthy P = false ∨ ∃ x, predictionPercents h P = .ok x)

/-- The history step of `generateNewPrediction` completes: the request
succeeds, the body decodes, its `predictions` field can be read, and, on a page
with the history container, its markup can be computed. -/
def HistorySucceeds (h : Host) (s : State) (history : Except JSError Response) : Prop :=
  ∃ data v, history = .ok ⟨true, .ok data⟩ ∧ getProp data "predictions" = .ok v ∧
    (s.has .history_list → ∃ html, historyMarkup h v = .ok html)

/-- The computation does on the page without the elements outside `keep` what
it does on the whole page, but for the assignments to those elements: it ends
the same way, and leaves the same state restricted to `keep`. -/
def Commutes (keep : ElemId → Bool) {α : Type} (m : Eff α) : Prop :=
  ∀ s, m (s.restrict keep) = ((m s).1, (m s).2.restrict keep)

/-- Every history payload that can arrive renders: the markup of the
`predictions` field of a decoded response can be computed. -/
def HistoryRenders (h : Host) (history : Except JSError Response) : Prop :=
  ∀ data v, history = .ok ⟨true, .ok data⟩ → getProp data "predictions" = .ok v →
    ∃ html, historyMarkup h v = .ok html

/-- The blank page without the trigger button. -/
def noButtonState : State :=
  { startState with dom := restrictDom (fun id => decide (id ≠ .generate_btn)) blankPage }

/-- A page that lacks the first text target and the history container. -/
def withoutTwo : ElemId → Bool :=
  fun id => decide (id ≠ .playoff_prob ∧ id ≠ .history_list)

/-- A prediction whose five fractions are exact in binary. -/
def halfPrediction : JSValue :=
  .obj [("playoff_probability", .num (.fin (1 / 2))),
        ("division_probability", .num (.fin (1 / 4))),
        ("conference_probability", .num (.fin (1 / 8))),
        ("superbowl_probability", .num (.fin 0)),
        ("confidence_score", .num (.fin 1))]

/-- A prediction whose first probability is the number the decimal `0.615`
denotes. -/
def tiePrediction : JSValue :=
  .obj [("playoff_probability", .num (lit 615 1000)),
        ("division_probability", .num (lit 28 100)),
        ("conference_probability", .num (lit 12 100)),
        ("superbowl_probability", .num (lit 6 100)),
        ("confidence_score", .num (lit 73 100))]

/-- A host whose date text is the date string itself. -/
def echoHost : Host :=
  { stringToNumber := fun _ => .nan
    shortestDecimal := fun _ => "1e+21"
    localeDate := fun v => match v with
      | .inl s => s
      | .inr _ => "Invalid Date"
    isoString := fun _ => "2025-01-01T00:00:00.000Z" }

/-- A later history record, and below the JavaScript object that carries it. -/
def laterRecord : HistoryRecord :=
  ⟨"2025-01-02T00:00:00.000Z", lit 45 100, lit 31 100, lit 14 100, lit 7 100⟩

/-- The JavaScript object of `laterRecord`. -/
def laterPred : JSValue := mockRecord "2025-01-02T00:00:00.000Z" 45 31 14 7

/-- A history payload whose only record is `null`. -/
def nullHistory : JSValue := .obj [("predictions", .arr [.null])]
/-! ## Arithmetic of the rounding to binary64 -/

theorem log2Aux_spec : ∀ fuel n : Nat, n ≤ fuel → 0 < n →
    2 ^ log2Aux fuel n ≤ n ∧ n < 2 ^ (log2Aux fuel n + 1) := by
  intro fuel
  induction fuel with
  | zero => intro n h1 h2; omega
  | succ k ih =>
    intro n h1 h2
    unfold log2Aux
    by_cases hn : n < 2
    · simp only [hn, if_true]
      constructor <;> simp <;> omega
    · simp only [hn, if_false]
      have hdiv : n / 2 ≤ k := by omega
      have hpos : 0 < n / 2 := by omega
      obtain ⟨ha, hb⟩ := ih (n / 2) hdiv hpos
      constructor
      · rw [pow_succ]; omega
      · rw [pow_succ]; omega

theorem natLog2_spec (n : Nat) (hn : 0 < n) :
    2 ^ natLog2 n ≤ n ∧ n < 2 ^ (natLog2 n + 1) :=
  log2Aux_spec n n (le_refl n) hn

theorem binade_le (a : ℚ) (ha : 0 < a) : (2 : ℚ) ^ binade a ≤ a := by
  unfold binade
  simp only
  split
  · assumption
  · have hnum : 0 < a.num := Rat.num_pos.mpr ha
    have hn : 0 < a.num.natAbs := Int.natAbs_pos.mpr (ne_of_gt hnum)
    have hd : 0 < a.den := a.den_pos
    obtain ⟨h1, _⟩ := natLog2_spec _ hn
    obtain ⟨_, h2⟩ := natLog2_spec _ hd
    have ha' : a = (a.num.natAbs : ℚ) / (a.den : ℚ) := by
      have : ((a.num.natAbs : ℤ) : ℚ) = (a.num : ℚ) := by
        rw [Int.natAbs_of_nonneg (le_of_lt hnum)]
      rw [← Int.cast_natCast, this]
      exact (Rat.num_div_den a).symm
    have e1 : ((natLog2 a.num.natAbs : ℤ) - (natLog2 a.den : ℤ) - 1 : ℤ)
        = (natLog2 a.num.natAbs : ℤ) - ((natLog2 a.den + 1 : ℕ) : ℤ) := by push_cast; ring
    have h1' : ((2:ℚ) ^ natLog2 a.num.natAbs) ≤ (a.num.natAbs : ℚ) := by exact_mod_cast h1
    have h2' : (a.den : ℚ) ≤ (2:ℚ) ^ (natLog2 a.den + 1) := by exact_mod_cast le_of_lt h2
    have hdq : (0:ℚ) < (a.den : ℚ) := by exact_mod_cast hd
    have key : (2:ℚ) ^ natLog2 a.num.natAbs / (2:ℚ) ^ (natLog2 a.den + 1)
        ≤ (a.num.natAbs : ℚ) / (a.den : ℚ) := by
      rw [div_le_div_iff₀ (by positivity) hdq]
      calc (2:ℚ) ^ natLog2 a.num.natAbs * (a.den : ℚ) ≤ (a.num.natAbs : ℚ) * (a.den : ℚ) := by
            exact mul_le_mul_of_nonneg_right h1' (le_of_lt hdq)
        _ ≤ (a.num.natAbs : ℚ) * (2:ℚ) ^ (natLog2 a.den + 1) := by
            exact mul_le_mul_of_nonneg_left h2' (by positivity)
    rw [e1, zpow_sub₀ (by norm_num : (2:ℚ) ≠ 0), zpow_natCast, zpow_natCast]
    exact key.trans (le_of_eq ha'.symm)

theorem binade_lt (a : ℚ) (ha : 0 < a) : a < (2 : ℚ) ^ (binade a + 1) := by
  unfold binade
  simp only
  split
  · have hnum : 0 < a.num := Rat.num_pos.mpr ha
    have hn : 0 < a.num.natAbs := Int.natAbs_pos.mpr (ne_of_gt hnum)
    have hd : 0 < a.den := a.den_pos
    obtain ⟨_, h1⟩ := natLog2_spec _ hn
    obtain ⟨h2, _⟩ := natLog2_spec _ hd
    have ha' : a = (a.num.natAbs : ℚ) / (a.den : ℚ) := by
      have : ((a.num.natAbs : ℤ) : ℚ) = (a.num : ℚ) := by
        rw [Int.natAbs_of_nonneg (le_of_lt hnum)]
      rw [← Int.cast_natCast, this]
      exact (Rat.num_div_den a).symm
    have e1 : ((natLog2 a.num.natAbs : ℤ) - (natLog2 a.den : ℤ) + 1 : ℤ)
        = ((natLog2 a.num.natAbs + 1 : ℕ) : ℤ) - (natLog2 a.den : ℤ) := by push_cast; ring
    have h1' : (a.num.natAbs : ℚ) < (2:ℚ) ^ (natLog2 a.num.natAbs + 1) := by exact_mod_cast h1
    have h2' : (2:ℚ) ^ natLog2 a.den ≤ (a.den : ℚ) := by exact_mod_cast h2
    have hdq : (0:ℚ) < (a.den : ℚ) := by exact_mod_cast hd
    have key : (a.num.natAbs : ℚ) / (a.den : ℚ)
        < (2:ℚ) ^ (natLog2 a.num.natAbs + 1) / (2:ℚ) ^ natLog2 a.den := by
      rw [div_lt_div_iff₀ hdq (by positivity)]
      calc (a.num.natAbs : ℚ) * (2:ℚ) ^ natLog2 a.den
          ≤ (a.num.natAbs : ℚ) * (a.den : ℚ) :=
            mul_le_mul_of_nonneg_left h2' (by positivity)
        _ < (2:ℚ) ^ (natLog2 a.num.natAbs + 1) * (a.den : ℚ) :=
            mul_lt_mul_of_pos_right h1' hdq
    rw [e1, zpow_sub₀ (by norm_num : (2:ℚ) ≠ 0), zpow_natCast, zpow_natCast]
    exact lt_of_eq_of_lt ha' key
  · rename_i hlt
    have : ((natLog2 a.num.natAbs : ℤ) - (natLog2 a.den : ℤ) - 1 + 1 : ℤ)
        = (natLog2 a.num.natAbs : ℤ) - (natLog2 a.den : ℤ) := by ring
    rw [this]
    exact not_le.mp hlt

theorem roundHalfEven_nonneg (x : ℚ) (hx : 0 ≤ x) : 0 ≤ roundHalfEven x := by
  have hf : (0 : ℤ) ≤ ⌊x⌋ := Int.floor_nonneg.mpr hx
  unfold roundHalfEven
  simp only
  split_ifs <;> omega

theorem roundHalfEven_le (x : ℚ) (N : ℤ) (hx : x ≤ (N : ℚ)) : roundHalfEven x ≤ N := by
  have hf : ⌊x⌋ ≤ N := Int.floor_le_iff.mpr (by linarith)
  have hstep : (1:ℚ)/2 ≤ x - ⌊x⌋ → ⌊x⌋ + 1 ≤ N := by
    intro hr
    have hlt : (⌊x⌋ : ℚ) < N := by linarith
    have : ⌊x⌋ < N := by exact_mod_cast hlt
    omega
  unfold roundHalfEven
  simp only
  split_ifs with h1 h2 h3
  · exact hf
  · exact hstep (le_of_lt h2)
  · exact hf
  · exact hstep (not_lt.mp h1)

/-- A real in `[0, 100]` rounds to a binary64 value in `[0, 100]`. -/
theorem roundToDouble_percent (x : ℚ) (h0 : 0 ≤ x) (h100 : x ≤ 100) :
    ∃ y : ℚ, roundToDouble x = .fin y ∧ 0 ≤ y ∧ y ≤ 100 := by
  by_cases hx : x = 0
  · exact ⟨0, by simp [roundToDouble, hx], le_refl _, by norm_num⟩
  · have hpos : 0 < x := lt_of_le_of_ne h0 (Ne.symm hx)
    have habs : |x| = x := abs_of_pos hpos
    -- the exponent of the last place is at most -46
    have hb : binade x ≤ 6 := by
      by_contra hcon
      have h7 : (7 : ℤ) ≤ binade x := by omega
      have : (2:ℚ) ^ (7:ℤ) ≤ (2:ℚ) ^ binade x := zpow_le_zpow_right₀ (by norm_num) h7
      have := this.trans (binade_le x hpos)
      norm_num at this
      linarith
    obtain ⟨k, hk⟩ : ∃ k : ℕ, max (binade x - 52) (-1074) = -(k : ℤ) := by
      refine ⟨(-(max (binade x - 52) (-1074))).toNat, ?_⟩
      have : max (binade x - 52) (-1074) ≤ 0 := by
        apply max_le <;> omega
      omega
    have hpow : (2:ℚ) ^ (-(k:ℤ)) = 1 / (2:ℚ) ^ k := by
      rw [zpow_neg, zpow_natCast, one_div]
    have h2k : (0:ℚ) < (2:ℚ) ^ k := by positivity
    set m := roundHalfEven (x / (2:ℚ) ^ (-(k:ℤ))) with hm
    have hscaled : x / (2:ℚ) ^ (-(k:ℤ)) = x * 2 ^ k := by
      rw [hpow]; field_simp
    have hm0 : 0 ≤ m := roundHalfEven_nonneg _ (by rw [hscaled]; positivity)
    have hmN : m ≤ ((100 * 2 ^ k : ℕ) : ℤ) := by
      apply roundHalfEven_le
      rw [hscaled]
      push_cast
      exact mul_le_mul_of_nonneg_right h100 (le_of_lt h2k)
    have hv0 : (0:ℚ) ≤ (m:ℚ) * (2:ℚ) ^ (-(k:ℤ)) := by
      have : (0:ℚ) ≤ (m:ℚ) := by exact_mod_cast hm0
      rw [hpow]; positivity
    have hv100 : (m:ℚ) * (2:ℚ) ^ (-(k:ℤ)) ≤ 100 := by
      have : (m:ℚ) ≤ 100 * 2 ^ k := by exact_mod_cast hmN
      rw [hpow, mul_one_div, div_le_iff₀ h2k]
      exact this
    refine ⟨(m:ℚ) * (2:ℚ) ^ (-(k:ℤ)), ?_, hv0, hv100⟩
    have hbig : ¬ ((2:ℚ) ^ (1024:ℤ) ≤ (m:ℚ) * (2:ℚ) ^ (-(k:ℤ))) := by
      intro hcon
      have h1 : (100:ℚ) < (2:ℚ) ^ (1024:ℤ) := by norm_num
      linarith
    unfold roundToDouble
    simp only [hx, if_false, habs, hk, ← hm, hbig, hpos, if_true]

theorem roundHalfEven_cases (x : ℚ) :
    (roundHalfEven x = ⌊x⌋ ∧ x - ⌊x⌋ ≤ 1 / 2 ∧ (x - ⌊x⌋ = 1 / 2 → Even ⌊x⌋)) ∨
    (roundHalfEven x = ⌊x⌋ + 1 ∧ 1 / 2 ≤ x - ⌊x⌋ ∧ (x - ⌊x⌋ = 1 / 2 → Even (⌊x⌋ + 1))) := by
  unfold roundHalfEven
  simp only
  split_ifs with h1 h2 h3
  · exact Or.inl ⟨rfl, le_of_lt h1, fun h => absurd h (ne_of_lt h1)⟩
  · exact Or.inr ⟨rfl, le_of_lt h2, fun h => absurd h.symm (ne_of_lt h2)⟩
  · exact Or.inl ⟨rfl, not_lt.mp h2, fun _ => Int.even_iff.mpr h3⟩
  · refine Or.inr ⟨rfl, not_lt.mp h1, fun _ => ?_⟩
    rw [Int.even_add_one, Int.even_iff]
    exact h3

/-- No integer is nearer to `x` than `roundHalfEven x`. -/
theorem roundHalfEven_near (x : ℚ) (k : ℤ) :
    |(roundHalfEven x : ℚ) - x| ≤ |(k : ℚ) - x| := by
  have hf1 : (⌊x⌋ : ℚ) ≤ x := Int.floor_le x
  have hf2 : x < (⌊x⌋ : ℚ) + 1 := Int.lt_floor_add_one x
  have hk : (k : ℚ) ≤ ⌊x⌋ ∨ ((⌊x⌋ : ℚ) + 1 ≤ k) := by
    rcases le_or_lt k ⌊x⌋ with h | h
    · exact Or.inl (by exact_mod_cast h)
    · exact Or.inr (by exact_mod_cast h)
  rcases roundHalfEven_cases x with ⟨hm, hr, _⟩ | ⟨hm, hr, _⟩ <;> rw [hm] <;> push_cast <;>
    rcases abs_cases ((⌊x⌋ : ℚ) - x) with ⟨ha, _⟩ | ⟨ha, _⟩ <;>
    rcases abs_cases ((⌊x⌋ : ℚ) + 1 - x) with ⟨hb, _⟩ | ⟨hb, _⟩ <;>
    rcases abs_cases ((k : ℚ) - x) with ⟨hc, _⟩ | ⟨hc, _⟩ <;>
    rcases hk with hk | hk <;> linarith

/-- The distance from `x` to `roundHalfEven x` is at most a half. -/
theorem roundHalfEven_half (x : ℚ) : |(roundHalfEven x : ℚ) - x| ≤ 1 / 2 := by
  have hf1 : (⌊x⌋ : ℚ) ≤ x := Int.floor_le x
  have hf2 : x < (⌊x⌋ : ℚ) + 1 := Int.lt_floor_add_one x
  rcases roundHalfEven_cases x with ⟨hm, hr, _⟩ | ⟨hm, hr, _⟩ <;> rw [hm] <;> push_cast <;>
    rw [abs_le] <;> constructor <;> linarith

/-- When another integer is as near to `x`, `roundHalfEven x` is the even one. -/
theorem roundHalfEven_tie (x : ℚ) (k : ℤ) (hk : k ≠ roundHalfEven x)
    (h : |(k : ℚ) - x| = |(roundHalfEven x : ℚ) - x|) : Even (roundHalfEven x) := by
  have hf1 : (⌊x⌋ : ℚ) ≤ x := Int.floor_le x
  have hf2 : x < (⌊x⌋ : ℚ) + 1 := Int.lt_floor_add_one x
  have hhalf := roundHalfEven_half x
  rcases roundHalfEven_cases x with ⟨hm, hr, hev⟩ | ⟨hm, hr, hev⟩
  · rw [hm] at hk h ⊢
    apply hev
    rcases lt_or_gt_of_ne hk with hlt | hgt
    · have : (k : ℚ) ≤ (⌊x⌋ : ℚ) - 1 := by
        have : k ≤ ⌊x⌋ - 1 := by omega
        exact_mod_cast this
      rcases abs_cases ((k : ℚ) - x) with ⟨hc, _⟩ | ⟨hc, _⟩ <;>
        rcases abs_cases ((⌊x⌋ : ℚ) - x) with ⟨ha, _⟩ | ⟨ha, _⟩ <;> linarith
    · have : (⌊x⌋ : ℚ) + 1 ≤ (k : ℚ) := by
        have : ⌊x⌋ + 1 ≤ k := by omega
        exact_mod_cast this
      rcases abs_cases ((k : ℚ) - x) with ⟨hc, _⟩ | ⟨hc, _⟩ <;>
        rcases abs_cases ((⌊x⌋ : ℚ) - x) with ⟨ha, _⟩ | ⟨ha, _⟩ <;> linarith
  · rw [hm] at hk h ⊢
    push_cast at h
    apply hev
    rcases lt_or_gt_of_ne hk with hlt | hgt
    · have : (k : ℚ) ≤ (⌊x⌋ : ℚ) := by
        have : k ≤ ⌊x⌋ := by omega
        exact_mod_cast this
      rcases abs_cases ((k : ℚ) - x) with ⟨hc, _⟩ | ⟨hc, _⟩ <;>
        rcases abs_cases ((⌊x⌋ : ℚ) + 1 - x) with ⟨ha, _⟩ | ⟨ha, _⟩ <;> linarith
    · have : (⌊x⌋ : ℚ) + 2 ≤ (k : ℚ) := by
        have : ⌊x⌋ + 2 ≤ k := by omega
        exact_mod_cast this
      rcases abs_cases ((k : ℚ) - x) with ⟨hc, _⟩ | ⟨hc, _⟩ <;>
        rcases abs_cases ((⌊x⌋ : ℚ) + 1 - x) with ⟨ha, _⟩ | ⟨ha, _⟩ <;> linarith

theorem roundHalfEven_ge (x : ℚ) (N : ℤ) (hx : (N : ℚ) ≤ x) : N ≤ roundHalfEven x := by
  have hf : N ≤ ⌊x⌋ := Int.le_floor.mpr hx
  rcases roundHalfEven_cases x with ⟨hm, _, _⟩ | ⟨hm, _, _⟩ <;> rw [hm] <;> omega

/-- A binary64 number of magnitude at least `2 ^ (e + 52)`, and any binary64
number when `e` is the least exponent, is a whole multiple of `2 ^ e`. -/
theorem binary64_on_grid (d' : ℚ) (e : ℤ) (hd : IsBinary64 d')
    (he : e = -1074 ∨ (2 : ℚ) ^ (e + 52) ≤ |d'|) : ∃ k : ℤ, d' = (k : ℚ) * (2 : ℚ) ^ e := by
  obtain ⟨m, e', hm, he1, _, rfl⟩ := hd
  have hle : e ≤ e' := by
    rcases he with he | he
    · omega
    · have hpos : (0 : ℚ) < (2 : ℚ) ^ e' := by positivity
      have hmq : |(m : ℚ)| < (2 : ℚ) ^ (53 : ℤ) := by
        have : ((|m| : ℤ) : ℚ) < ((2 ^ 53 : ℤ) : ℚ) := by exact_mod_cast hm
        rw [Int.cast_abs] at this
        have h2 : ((2 ^ 53 : ℤ) : ℚ) = (2 : ℚ) ^ (53 : ℤ) := by norm_num
        rw [← h2]
        exact this
      have h1 : |(m : ℚ) * (2 : ℚ) ^ e'| < (2 : ℚ) ^ (53 + e') := by
        rw [abs_mul, abs_of_pos hpos, zpow_add₀ (by norm_num : (2 : ℚ) ≠ 0)]
        exact mul_lt_mul_of_pos_right hmq hpos
      have h2 : (2 : ℚ) ^ (e + 52) < (2 : ℚ) ^ (53 + e') := lt_of_le_of_lt he h1
      have h3 : e + 52 < 53 + e' := (zpow_lt_zpow_iff_right₀ (by norm_num : (1 : ℚ) < 2)).mp h2
      omega
  refine ⟨m * 2 ^ (e' - e).toNat, ?_⟩
  have hsplit : e' = ((e' - e).toNat : ℤ) + e := by omega
  push_cast
  rw [mul_assoc]
  congr 1
  conv_lhs => rw [hsplit]
  rw [zpow_add₀ (by norm_num : (2 : ℚ) ≠ 0), zpow_natCast]

/-- The rounding of a real in `[0, 100]` to binary64 is IEEE 754 round to
nearest, ties to even; it stays in `[0, 100]` and within `2 ^ (-47)` of the
real. -/
theorem roundToDouble_nearest (q : ℚ) (h0 : 0 ≤ q) (h100 : q ≤ 100) :
    ∃ d : ℚ, roundToDouble q = .fin d ∧ IsNearestBinary64 q d ∧ 0 ≤ d ∧ d ≤ 100 ∧
      |d - q| ≤ 1 / 2 ^ 47 := by
  by_cases hx : q = 0
  · subst hx
    refine ⟨0, by simp [roundToDouble], ⟨⟨0, 0, by norm_num, by norm_num, by norm_num,
      by norm_num⟩, ?_, ?_⟩, le_refl _, by norm_num, by norm_num⟩
    · intro d' _
      simp
    · intro d' _ hne htie
      simp at htie
      exact absurd htie hne
  · have hpos : 0 < q := lt_of_le_of_ne h0 (Ne.symm hx)
    have habs : |q| = q := abs_of_pos hpos
    have hb1 := binade_le q hpos
    have hb2 := binade_lt q hpos
    have hb : binade q ≤ 6 := by
      by_contra hcon
      have h7 : (7 : ℤ) ≤ binade q := by omega
      have : (2:ℚ) ^ (7:ℤ) ≤ (2:ℚ) ^ binade q := zpow_le_zpow_right₀ (by norm_num) h7
      have := this.trans hb1
      norm_num at this
      linarith
    obtain ⟨e, he⟩ : ∃ e : ℤ, e = max (binade q - 52) (-1074) := ⟨_, rfl⟩
    have he1 : -1074 ≤ e := by rw [he]; exact le_max_right _ _
    have he2 : binade q - 52 ≤ e := by rw [he]; exact le_max_left _ _
    have he3 : e ≤ -46 := by rw [he]; apply max_le <;> omega
    have he4 : e = -1074 ∨ e = binade q - 52 := by
      rw [he]
      rcases max_choice (binade q - 52) (-1074) with h | h
      · exact Or.inr h
      · exact Or.inl h
    have hu : (0 : ℚ) < (2 : ℚ) ^ e := by positivity
    obtain ⟨m, hm⟩ : ∃ m : ℤ, m = roundHalfEven (q / (2 : ℚ) ^ e) := ⟨_, rfl⟩
    -- the distance to a multiple of the unit in the last place
    have hdist : ∀ k : ℤ, |(k : ℚ) * (2 : ℚ) ^ e - q|
        = |(k : ℚ) - q / (2 : ℚ) ^ e| * (2 : ℚ) ^ e := by
      intro k
      have : (k : ℚ) * (2 : ℚ) ^ e - q = ((k : ℚ) - q / (2 : ℚ) ^ e) * (2 : ℚ) ^ e := by
        field_simp
      rw [this, abs_mul, abs_of_pos hu]
    have hnear : ∀ k : ℤ, |(m : ℚ) * (2 : ℚ) ^ e - q| ≤ |(k : ℚ) * (2 : ℚ) ^ e - q| := by
      intro k
      rw [hdist, hdist, hm]
      exact mul_le_mul_of_nonneg_right (roundHalfEven_near _ k) (le_of_lt hu)
    -- the significand has at most 53 bits, and 53 away from the subnormals
    have hxlt : q / (2 : ℚ) ^ e < (2 : ℚ) ^ (53 : ℤ) := by
      rw [div_lt_iff₀ hu, ← zpow_add₀ (by norm_num : (2 : ℚ) ≠ 0)]
      have : (2 : ℚ) ^ (binade q + 1) ≤ (2 : ℚ) ^ (53 + e) :=
        zpow_le_zpow_right₀ (by norm_num) (by omega)
      linarith
    have hm0 : 0 ≤ m := by
      rw [hm]
      exact roundHalfEven_nonneg _ (by positivity)
    have hm53 : m ≤ 2 ^ 53 := by
      rw [hm]
      apply roundHalfEven_le
      have : (((2 ^ 53 : ℤ) : ℚ)) = (2 : ℚ) ^ (53 : ℤ) := by norm_num
      rw [this]
      exact le_of_lt hxlt
    have hm52 : e ≠ -1074 → 2 ^ 52 ≤ m := by
      intro hne
      have hee : e = binade q - 52 := by
        rcases he4 with h | h
        · exact absurd h hne
        · exact h
      rw [hm]
      apply roundHalfEven_ge
      have : (((2 ^ 52 : ℤ) : ℚ)) = (2 : ℚ) ^ (52 : ℤ) := by norm_num
      rw [this, le_div_iff₀ hu, ← zpow_add₀ (by norm_num : (2 : ℚ) ≠ 0)]
      have : (52 : ℤ) + e = binade q := by omega
      rw [this]
      exact hb1
    -- the value in the format, with its significand normalised
    have hrep : ∃ m0 e0 : ℤ, (Even m → Even m0) ∧ |m0| < 2 ^ 53 ∧
        (2 ^ 52 ≤ |m0| ∨ e0 = -1074) ∧ -1074 ≤ e0 ∧ e0 ≤ 971 ∧
        (m : ℚ) * (2 : ℚ) ^ e = (m0 : ℚ) * (2 : ℚ) ^ e0 := by
      by_cases hfull : m = 2 ^ 53
      · refine ⟨2 ^ 52, e + 1, fun _ => by decide, by norm_num, Or.inl (by norm_num), by omega,
          by omega, ?_⟩
        rw [hfull, zpow_add₀ (by norm_num : (2 : ℚ) ≠ 0)]
        push_cast
        ring
      · have hlt : m < 2 ^ 53 := lt_of_le_of_ne hm53 hfull
        refine ⟨m, e, id, by rw [abs_of_nonneg hm0]; exact hlt, ?_, he1, by omega, rfl⟩
        by_cases hsub : e = -1074
        · exact Or.inr hsub
        · left
          rw [abs_of_nonneg hm0]
          exact hm52 hsub
    -- a number of the format off the grid is below the binade, and farther
    have hoff : ∀ d', IsBinary64 d' → ¬ (e = -1074 ∨ (2 : ℚ) ^ (e + 52) ≤ |d'|) →
        |(m : ℚ) * (2 : ℚ) ^ e - q| < |d' - q| := by
      intro d' _ hng
      push_neg at hng
      obtain ⟨hne, hsmall⟩ := hng
      have hee : e + 52 = binade q := by
        rcases he4 with h | h
        · exact absurd h hne
        · omega
      rw [hee] at hsmall
      have hgrid := hnear (2 ^ 52)
      have hg : (((2 ^ 52 : ℤ) : ℚ)) * (2 : ℚ) ^ e = (2 : ℚ) ^ binade q := by
        have : (((2 ^ 52 : ℤ) : ℚ)) = (2 : ℚ) ^ (52 : ℤ) := by norm_num
        rw [this, ← zpow_add₀ (by norm_num : (2 : ℚ) ≠ 0)]
        congr 1
        omega
      rw [hg] at hgrid
      have h1 : |(2 : ℚ) ^ binade q - q| = q - (2 : ℚ) ^ binade q := by
        rw [abs_of_nonpos (by linarith)]
        ring
      have h2 : d' < (2 : ℚ) ^ binade q := lt_of_le_of_lt (le_abs_self d') hsmall
      have h3 : q - d' ≤ |d' - q| := by
        rw [abs_sub_comm]
        exact le_abs_self _
      linarith
    have hval : roundToDouble q = .fin ((m : ℚ) * (2 : ℚ) ^ e) := by
      have hv100 : (m : ℚ) * (2 : ℚ) ^ e < (2 : ℚ) ^ (1024 : ℤ) := by
        have hmq : (m : ℚ) ≤ (2 : ℚ) ^ (53 : ℤ) := by
          have : (m : ℚ) ≤ ((2 ^ 53 : ℤ) : ℚ) := by exact_mod_cast hm53
          have h2 : (((2 ^ 53 : ℤ) : ℚ)) = (2 : ℚ) ^ (53 : ℤ) := by norm_num
          rw [← h2]
          exact this
        calc (m : ℚ) * (2 : ℚ) ^ e ≤ (2 : ℚ) ^ (53 : ℤ) * (2 : ℚ) ^ e :=
              mul_le_mul_of_nonneg_right hmq (le_of_lt hu)
          _ = (2 : ℚ) ^ (53 + e) := by rw [zpow_add₀ (by norm_num : (2 : ℚ) ≠ 0)]
          _ < (2 : ℚ) ^ (1024 : ℤ) :=
              (zpow_lt_zpow_iff_right₀ (by norm_num : (1 : ℚ) < 2)).mpr (by omega)
      unfold roundToDouble
      simp only [hx, if_false, habs, ← he, ← hm, not_le.mpr hv100, hpos, if_true]
    refine ⟨(m : ℚ) * (2 : ℚ) ^ e, hval, ⟨?_, ?_, ?_⟩, ?_, ?_, ?_⟩
    · obtain ⟨m0, e0, _, h1, _, h3, h4, h5⟩ := hrep
      exact ⟨m0, e0, h1, h3, h4, h5⟩
    · intro d' hd'
      by_cases hg : e = -1074 ∨ (2 : ℚ) ^ (e + 52) ≤ |d'|
      · obtain ⟨k, rfl⟩ := binary64_on_grid d' e hd' hg
        exact hnear k
      · exact le_of_lt (hoff d' hd' hg)
    · intro d' hd' hne htie
      by_cases hg : e = -1074 ∨ (2 : ℚ) ^ (e + 52) ≤ |d'|
      · obtain ⟨k, rfl⟩ := binary64_on_grid d' e hd' hg
        have hkm : k ≠ roundHalfEven (q / (2 : ℚ) ^ e) := by
          rw [← hm]
          intro hc
          exact hne (by rw [hc])
        have htie2 : |(k : ℚ) - q / (2 : ℚ) ^ e|
            = |(roundHalfEven (q / (2 : ℚ) ^ e) : ℚ) - q / (2 : ℚ) ^ e| := by
          rw [hdist, hdist] at htie
          rw [← hm]
          exact mul_right_cancel₀ (ne_of_gt hu) htie
        have hev : Even m := by
          rw [hm]
          exact roundHalfEven_tie _ k hkm htie2
        obtain ⟨m0, e0, h0', h1, h2, h3, h4, h5⟩ := hrep
        exact ⟨m0, e0, h0' hev, h1, h2, h3, h4, h5⟩
      · exact absurd htie (ne_of_gt (hoff d' hd' hg))
    · have : (0 : ℚ) ≤ (m : ℚ) := by exact_mod_cast hm0
      positivity
    · obtain ⟨y, hy, _, hy100⟩ := roundToDouble_percent q h0 h100
      rw [hval] at hy
      injection hy with hy
      rw [hy]
      exact hy100
    · rw [hdist, hm]
      have hh := roundHalfEven_half (q / (2 : ℚ) ^ e)
      have hu46 : (2 : ℚ) ^ e ≤ (2 : ℚ) ^ (-46 : ℤ) := zpow_le_zpow_right₀ (by norm_num) he3
      have h46 : (2 : ℚ) ^ (-46 : ℤ) = 1 / 2 ^ 46 := by
        rw [zpow_neg, one_div]
        norm_num
      calc |(roundHalfEven (q / (2 : ℚ) ^ e) : ℚ) - q / (2 : ℚ) ^ e| * (2 : ℚ) ^ e
          ≤ 1 / 2 * (2 : ℚ) ^ e := mul_le_mul_of_nonneg_right hh (le_of_lt hu)
        _ ≤ 1 / 2 * (2 : ℚ) ^ (-46 : ℤ) := mul_le_mul_of_nonneg_left hu46 (by norm_num)
        _ = 1 / 2 ^ 47 := by rw [h46]; norm_num

/-- For a fraction `p` in `[0, 1]`, `Math.round(p * 100)` is a whole number
between 0 and 100. -/
theorem roundTimes100_fraction (p : ℚ) (h0 : 0 ≤ p) (h1 : p ≤ 1) :
    ∃ n : ℕ, n ≤ 100 ∧ roundTimes100 (.fin p) = .fin (n : ℚ) := by
  obtain ⟨y, hy, hy0, hy100⟩ := roundToDouble_percent (p * 100) (by positivity) (by linarith)
  have hfl0 : (0 : ℤ) ≤ ⌊y + 1 / 2⌋ := Int.floor_nonneg.mpr (by linarith)
  have hfl100 : ⌊y + 1 / 2⌋ ≤ 100 := by
    apply Int.floor_le_iff.mpr
    push_cast
    linarith
  refine ⟨⌊y + 1 / 2⌋.toNat, by omega, ?_⟩
  have hcast : ((⌊y + 1 / 2⌋.toNat : ℕ) : ℚ) = ((⌊y + 1 / 2⌋ : ℤ) : ℚ) := by
    have : ((⌊y + 1 / 2⌋.toNat : ℕ) : ℤ) = ⌊y + 1 / 2⌋ := Int.toNat_of_nonneg hfl0
    exact_mod_cast this
  show mathRound ((JSNumber.fin p).mul (.fin 100)) = _
  simp only [JSNumber.mul, hy, mathRound, hcast]

/-- For a fraction `p` in `[0, 1]`, `Math.round(p * 100)` is the whole number
`⌊d + 1/2⌋` for the binary64 number `d` nearest to `p * 100`; it is between 0
and 100, and it is the half-up rounding of the real `p * 100` itself unless
that real lies within `2 ^ (-47)` of a half-integer. -/
theorem roundTimes100_nearest (p : ℚ) (h0 : 0 ≤ p) (h1 : p ≤ 1) :
    ∃ (n : ℕ) (d : ℚ), roundTimes100 (.fin p) = .fin (n : ℚ) ∧ n ≤ 100 ∧
      IsNearestBinary64 (p * 100) d ∧ (n : ℤ) = ⌊d + 1 / 2⌋ ∧
      ((n : ℤ) = ⌊p * 100 + 1 / 2⌋ ∨ ∃ k : ℤ, |p * 100 - ((k : ℚ) + 1 / 2)| ≤ 1 / 2 ^ 47) := by
  obtain ⟨d, hd, hnear, hd0, hd100, hclose⟩ :=
    roundToDouble_nearest (p * 100) (by positivity) (by linarith)
  have hfl0 : (0 : ℤ) ≤ ⌊d + 1 / 2⌋ := Int.floor_nonneg.mpr (by linarith)
  have hfl100 : ⌊d + 1 / 2⌋ ≤ 100 := by
    apply Int.floor_le_iff.mpr
    push_cast
    linarith
  have hnat : ((⌊d + 1 / 2⌋.toNat : ℕ) : ℤ) = ⌊d + 1 / 2⌋ := Int.toNat_of_nonneg hfl0
  refine ⟨⌊d + 1 / 2⌋.toNat, d, ?_, by omega, hnear, hnat, ?_⟩
  · have hcast : ((⌊d + 1 / 2⌋.toNat : ℕ) : ℚ) = ((⌊d + 1 / 2⌋ : ℤ) : ℚ) := by
      exact_mod_cast hnat
    show mathRound ((JSNumber.fin p).mul (.fin 100)) = _
    simp only [JSNumber.mul, hd, mathRound, hcast]
  · rw [hnat]
    by_cases heq : ⌊d + 1 / 2⌋ = ⌊p * 100 + 1 / 2⌋
    · exact Or.inl heq
    · right
      obtain ⟨hc1, hc2⟩ := abs_le.mp hclose
      rcases lt_or_gt_of_ne heq with hlt | hgt
      · -- the real is at or above the half-integer, the binary64 number below it
        refine ⟨⌊p * 100 + 1 / 2⌋ - 1, ?_⟩
        have ha : ((⌊p * 100 + 1 / 2⌋ : ℤ) : ℚ) ≤ p * 100 + 1 / 2 := Int.floor_le _
        have hb : d + 1 / 2 < ((⌊p * 100 + 1 / 2⌋ : ℤ) : ℚ) := by
          have : ⌊d + 1 / 2⌋ + 1 ≤ ⌊p * 100 + 1 / 2⌋ := by omega
          have h2 : d + 1 / 2 < ((⌊d + 1 / 2⌋ : ℤ) : ℚ) + 1 := Int.lt_floor_add_one _
          have h3 : ((⌊d + 1 / 2⌋ : ℤ) : ℚ) + 1 ≤ ((⌊p * 100 + 1 / 2⌋ : ℤ) : ℚ) := by
            exact_mod_cast this
          linarith
        push_cast
        rw [abs_le]
        constructor <;> linarith
      · refine ⟨⌊d + 1 / 2⌋ - 1, ?_⟩
        have ha : ((⌊d + 1 / 2⌋ : ℤ) : ℚ) ≤ d + 1 / 2 := Int.floor_le _
        have hb : p * 100 + 1 / 2 < ((⌊d + 1 / 2⌋ : ℤ) : ℚ) := by
          have : ⌊p * 100 + 1 / 2⌋ + 1 ≤ ⌊d + 1 / 2⌋ := by omega
          have h2 : p * 100 + 1 / 2 < ((⌊p * 100 + 1 / 2⌋ : ℤ) : ℚ) + 1 :=
            Int.lt_floor_add_one _
          have h3 : ((⌊p * 100 + 1 / 2⌋ : ℤ) : ℚ) + 1 ≤ ((⌊d + 1 / 2⌋ : ℤ) : ℚ) := by
            exact_mod_cast this
          linarith
        push_cast
        rw [abs_le]
        constructor <;> linarith

/-- A whole number up to `2 ^ 53` prints as its decimal digits. -/
theorem numberToString_nat (h : Host) (n : ℕ) (hn : n ≤ 2 ^ 53) :
    numberToString h (.fin (n : ℚ)) = Nat.repr n := by
  have hn' : n ≤ 9007199254740992 := by norm_num at hn; exact hn
  have hneg : ¬ ((n : ℤ) < 0) := by omega
  simp [numberToString, safeIntegerText, hn', hneg]

/-- The text of a whole percentage. -/
theorem percentText_nat (h : Host) (n : ℕ) (hn : n ≤ 2 ^ 53) :
    percentText h (.fin (n : ℚ)) = Nat.repr n ++ "%" := by
  unfold percentText
  rw [numberToString_nat h n hn]

/-- Fixed notation does not consult the host. -/
theorem toFixed_of_fixedNotation (h : Host) (x : JSNumber) (f : Nat) (t : String)
    (hx : fixedNotation x f = some t) : toFixed h x f = t := by
  unfold toFixed
  rw [hx]
  rfl


/-! ## Laws of the effect combinators -/

theorem Eff.pure_apply {α : Type} (a : α) (s : State) :
    (pure a : Eff α) s = (.done a, s) := rfl

theorem Eff.bind_apply {α β : Type} (m : Eff α) (f : α → Eff β) (s : State) :
    (m >>= f) s = (match m s with
      | (.done a, s1) => f a s1
      | (.thrown e, s1) => (.thrown e, s1)) := rfl

theorem assignIfPresent_eq (id : ElemId) (w : DomWrite) (s : State) :
    assignIfPresent id w s = (.done (), s.put id w) := by
  unfold State.put assignIfPresent
  cases s.dom id <;> rfl

theorem emit_eq (ev : Event) (s : State) : emit ev s = (.done (), s.log ev) := rfl

theorem assign_of_has (id : ElemId) (w : DomWrite) (s : State) (hs : s.has id) :
    assign id w s = (.done (), s.put id w) := by
  unfold State.has at hs
  unfold State.put assignIfPresent assign
  cases hd : s.dom id with
  | none => rw [hd] at hs; simp at hs
  | some e => rfl

theorem assign_of_absent (id : ElemId) (w : DomWrite) (s : State) (hs : s.dom id = none) :
    assign id w s = (.thrown .typeError, s) := by
  unfold assign
  rw [hs]

theorem State.put_dom (s : State) (id : ElemId) (w : DomWrite) (j : ElemId) :
    (s.put id w).dom j = if j = id then (s.dom id).map (fun e => e.assign w) else s.dom j := by
  unfold State.put assignIfPresent
  cases hd : s.dom id with
  | none =>
    by_cases hj : j = id
    · subst hj; simp [hd]
    · simp [hj]
  | some e =>
    by_cases hj : j = id
    · subst hj; simp [Function.update]
    · simp [Function.update, hj]

theorem State.put_trace (s : State) (id : ElemId) (w : DomWrite) :
    (s.put id w).trace = s.trace ++ (if (s.dom id).isSome then [Event.write id w] else []) := by
  unfold State.put assignIfPresent
  cases hd : s.dom id <;> simp

@[simp] theorem State.put_currentPrediction (s : State) (id : ElemId) (w : DomWrite) :
    (s.put id w).currentPrediction = s.currentPrediction := by
  unfold State.put assignIfPresent
  cases hd : s.dom id <;> rfl

@[simp] theorem State.put_predictionHistory (s : State) (id : ElemId) (w : DomWrite) :
    (s.put id w).predictionHistory = s.predictionHistory := by
  unfold State.put assignIfPresent
  cases hd : s.dom id <;> rfl

@[simp] theorem State.log_dom (s : State) (ev : Event) : (s.log ev).dom = s.dom := rfl

@[simp] theorem State.log_trace (s : State) (ev : Event) :
    (s.log ev).trace = s.trace ++ [ev] := rfl

@[simp] theorem State.log_currentPrediction (s : State) (ev : Event) :
    (s.log ev).currentPrediction = s.currentPrediction := rfl

@[simp] theorem State.log_predictionHistory (s : State) (ev : Event) :
    (s.log ev).predictionHistory = s.predictionHistory := rfl

@[simp] theorem State.log_text (s : State) (ev : Event) (j : ElemId) :
    (s.log ev).text j = s.text j := rfl

@[simp] theorem State.log_html (s : State) (ev : Event) (j : ElemId) :
    (s.log ev).html j = s.html j := rfl

@[simp] theorem State.log_isDisabled (s : State) (ev : Event) (j : ElemId) :
    (s.log ev).isDisabled j = s.isDisabled j := rfl

theorem State.put_text (s : State) (id : ElemId) (t : String) (j : ElemId) :
    (s.put id (.textContent t)).text j
      = if j = id then (s.text id).map (fun _ => t) else s.text j := by
  unfold State.text
  rw [State.put_dom]
  split
  · cases s.dom id <;> rfl
  · rfl

theorem State.put_text_other (s : State) (id : ElemId) (w : DomWrite) (j : ElemId)
    (hw : ∀ t, w ≠ .textContent t) : (s.put id w).text j = s.text j := by
  unfold State.text
  rw [State.put_dom]
  split
  · rename_i hj
    subst hj
    cases s.dom j with
    | none => rfl
    | some e => cases w <;> first | rfl | exact absurd rfl (hw _)
  · rfl

theorem State.put_html (s : State) (id : ElemId) (t : String) (j : ElemId) :
    (s.put id (.innerHTML t)).html j
      = if j = id then (s.html id).map (fun _ => t) else s.html j := by
  unfold State.html
  rw [State.put_dom]
  split
  · cases s.dom id <;> rfl
  · rfl

theorem State.put_html_other (s : State) (id : ElemId) (w : DomWrite) (j : ElemId)
    (hw : ∀ t, w ≠ .innerHTML t) : (s.put id w).html j = s.html j := by
  unfold State.html
  rw [State.put_dom]
  split
  · rename_i hj
    subst hj
    cases s.dom j with
    | none => rfl
    | some e => cases w <;> first | rfl | exact absurd rfl (hw _)
  · rfl

theorem State.put_has (s : State) (id : ElemId) (w : DomWrite) (j : ElemId) :
    (s.put id w).has j ↔ s.has j := by
  unfold State.has
  rw [State.put_dom]
  split
  · rename_i hj
    subst hj
    cases s.dom j <;> simp
  · rfl


/-! ## Relations every step keeps -/

theorem respects_pure {R : State → State → Prop} (F : Frame R) {α : Type} (a : α) :
    Respects R (pure a : Eff α) := fun s => F.refl s

theorem respects_bind {R : State → State → Prop} (F : Frame R) {α β : Type}
    {m : Eff α} {f : α → Eff β}
    (hm : Respects R m) (hf : ∀ a, Respects R (f a)) : Respects R (m >>= f) := by
  intro s
  show R s (Eff.bind m f s).2
  unfold Eff.bind
  have h1 := hm s
  rcases hms : m s with ⟨o, s1⟩
  rw [hms] at h1
  cases o with
  | done a => exact F.trans _ _ _ h1 (hf a s1)
  | thrown e => exact h1

theorem respects_throw {R : State → State → Prop} (F : Frame R) {α : Type} (e : JSError) :
    Respects R (Eff.throw e : Eff α) := fun s => F.refl s

theorem respects_eval {R : State → State → Prop} (F : Frame R) {α : Type}
    (x : Except JSError α) : Respects R (Eff.eval x) := by
  intro s; cases x <;> exact F.refl s

theorem respects_tryCatch {R : State → State → Prop} (F : Frame R) {α : Type}
    {m : Eff α} {f : JSError → Eff α}
    (hm : Respects R m) (hf : ∀ a, Respects R (f a)) : Respects R (Eff.tryCatch m f) := by
  intro s
  unfold Eff.tryCatch
  have h1 := hm s
  rcases hms : m s with ⟨o, s1⟩
  rw [hms] at h1
  cases o with
  | done a => exact h1
  | thrown e => exact F.trans _ _ _ h1 (hf e s1)

theorem respects_ite {R : State → State → Prop} {α : Type} {c : Prop} [Decidable c]
    {a b : Eff α} (ha : Respects R a) (hb : Respects R b) :
    Respects R (if c then a else b) := by
  split <;> assumption

theorem respects_emit {R : State → State → Prop} (F : Frame R) (ev : Event)
    (hev : ev.isReset = false) : Respects R (emit ev) := fun s => F.log s ev hev

theorem respects_assignIfPresent {R : State → State → Prop} (F : Frame R)
    (id : ElemId) (w : DomWrite) : Respects R (assignIfPresent id w) := by
  intro s
  unfold Cowboys.assignIfPresent
  cases hd : s.dom id with
  | none => exact F.refl s
  | some e => exact F.write s id w e hd

theorem respects_assign {R : State → State → Prop} (F : Frame R)
    (id : ElemId) (w : DomWrite) : Respects R (assign id w) := by
  intro s
  unfold Cowboys.assign
  cases hd : s.dom id with
  | none => exact F.refl s
  | some e => exact F.write s id w e hd

theorem respects_present {R : State → State → Prop} (F : Frame R) (id : ElemId) :
    Respects R (present id) := fun s => F.refl s

theorem respects_getCurrentPrediction {R : State → State → Prop} (F : Frame R) :
    Respects R getCurrentPrediction := fun s => F.refl s

theorem respects_getPredictionHistory {R : State → State → Prop} (F : Frame R) :
    Respects R getPredictionHistory := fun s => F.refl s

theorem updatePredictionDisplay_respects {R : State → State → Prop} (F : Frame R)
    (h : Host) (p : JSValue) : Respects R (updatePredictionDisplay h p) := by
  unfold updatePredictionDisplay
  repeat (first
    | exact respects_pure F _
    | exact respects_eval F _
    | exact respects_throw F _
    | exact respects_assignIfPresent F _ _
    | exact respects_assign F _ _
    | exact respects_present F _
    | exact respects_getCurrentPrediction F
    | exact respects_getPredictionHistory F
    | exact respects_emit F _ rfl
    | refine respects_bind F ?_ (fun _ => ?_)
    | refine respects_tryCatch F ?_ (fun _ => ?_)
    | refine respects_ite ?_ ?_
    | split
    | dsimp only)

theorem updateStatsDisplay_respects {R : State → State → Prop} (F : Frame R)
    (h : Host) (data : JSValue) : Respects R (updateStatsDisplay h data) := by
  unfold updateStatsDisplay
  repeat (first
    | exact respects_pure F _
    | exact respects_eval F _
    | exact respects_throw F _
    | exact respects_assignIfPresent F _ _
    | exact respects_assign F _ _
    | exact respects_present F _
    | exact respects_getCurrentPrediction F
    | exact respects_getPredictionHistory F
    | exact respects_emit F _ rfl
    | refine respects_bind F ?_ (fun _ => ?_)
    | refine respects_tryCatch F ?_ (fun _ => ?_)
    | refine respects_ite ?_ ?_
    | split
    | dsimp only)

theorem updateHistoryDisplay_respects {R : State → State → Prop} (F : Frame R)
    (h : Host) (history : JSValue) : Respects R (updateHistoryDisplay h history) := by
  unfold updateHistoryDisplay
  repeat (first
    | exact respects_pure F _
    | exact respects_eval F _
    | exact respects_throw F _
    | exact respects_assignIfPresent F _ _
    | exact respects_assign F _ _
    | exact respects_present F _
    | exact respects_getCurrentPrediction F
    | exact respects_getPredictionHistory F
    | exact respects_emit F _ rfl
    | refine respects_bind F ?_ (fun _ => ?_)
    | refine respects_tryCatch F ?_ (fun _ => ?_)
    | refine respects_ite ?_ ?_
    | split
    | dsimp only)

theorem fetch_respects {R : State → State → Prop} (F : Frame R)
    (method url : String) (r : Except JSError Response) : Respects R (fetch method url r) := by
  unfold fetch
  repeat (first
    | exact respects_pure F _
    | exact respects_eval F _
    | exact respects_throw F _
    | exact respects_assignIfPresent F _ _
    | exact respects_assign F _ _
    | exact respects_present F _
    | exact respects_getCurrentPrediction F
    | exact respects_getPredictionHistory F
    | exact respects_emit F _ rfl
    | refine respects_bind F ?_ (fun _ => ?_)
    | refine respects_tryCatch F ?_ (fun _ => ?_)
    | refine respects_ite ?_ ?_
    | split
    | dsimp only)

theorem loadCurrentPrediction_respects {R : State → State → Prop} (F : Frame R)
    (hcur : ∀ (s : State) v, R s { s with currentPrediction := v })
    (h : Host) (r : Except JSError Response) : Respects R (loadCurrentPrediction h r) := by
  unfold loadCurrentPrediction
  repeat (first
    | exact updatePredictionDisplay_respects F _ _
    | exact fetch_respects F _ _ _
    | exact (fun s => hcur s _)
    | exact respects_pure F _
    | exact respects_eval F _
    | exact respects_throw F _
    | exact respects_assignIfPresent F _ _
    | exact respects_assign F _ _
    | exact respects_present F _
    | exact respects_getCurrentPrediction F
    | exact respects_getPredictionHistory F
    | exact respects_emit F _ rfl
    | refine respects_bind F ?_ (fun _ => ?_)
    | refine respects_tryCatch F ?_ (fun _ => ?_)
    | refine respects_ite ?_ ?_
    | split
    | dsimp only)

theorem loadSeasonStats_respects {R : State → State → Prop} (F : Frame R)
    (h : Host) (r : Except JSError Response) : Respects R (loadSeasonStats h r) := by
  unfold loadSeasonStats
  repeat (first
    | exact updateStatsDisplay_respects F _ _
    | exact fetch_respects F _ _ _
    | exact respects_pure F _
    | exact respects_eval F _
    | exact respects_throw F _
    | exact respects_assignIfPresent F _ _
    | exact respects_assign F _ _
    | exact respects_present F _
    | exact respects_getCurrentPrediction F
    | exact respects_getPredictionHistory F
    | exact respects_emit F _ rfl
    | refine respects_bind F ?_ (fun _ => ?_)
    | refine respects_tryCatch F ?_ (fun _ => ?_)
    | refine respects_ite ?_ ?_
    | split
    | dsimp only)

theorem loadPredictionHistory_respects {R : State → State → Prop} (F : Frame R)
    (hhist : ∀ (s : State) v, R s { s with predictionHistory := v })
    (h : Host) (r : Except JSError Response) : Respects R (loadPredictionHistory h r) := by
  unfold loadPredictionHistory
  repeat (first
    | exact updateHistoryDisplay_respects F _ _
    | exact fetch_respects F _ _ _
    | exact (fun s => hhist s _)
    | exact respects_pure F _
    | exact respects_eval F _
    | exact respects_throw F _
    | exact respects_assignIfPresent F _ _
    | exact respects_assign F _ _
    | exact respects_present F _
    | exact respects_getCurrentPrediction F
    | exact respects_getPredictionHistory F
    | exact respects_emit F _ rfl
    | refine respects_bind F ?_ (fun _ => ?_)
    | refine respects_tryCatch F ?_ (fun _ => ?_)
    | refine respects_ite ?_ ?_
    | split
    | dsimp only)

theorem showMockData_respects {R : State → State → Prop} (F : Frame R)
    (h : Host) (clock : Nat → Int) : Respects R (showMockData h clock) := by
  unfold showMockData
  repeat (first
    | exact updatePredictionDisplay_respects F _ _
    | exact updateStatsDisplay_respects F _ _
    | exact updateHistoryDisplay_respects F _ _
    | exact respects_pure F _
    | exact respects_eval F _
    | exact respects_throw F _
    | exact respects_assignIfPresent F _ _
    | exact respects_assign F _ _
    | exact respects_present F _
    | exact respects_getCurrentPrediction F
    | exact respects_getPredictionHistory F
    | exact respects_emit F _ rfl
    | refine respects_bind F ?_ (fun _ => ?_)
    | refine respects_tryCatch F ?_ (fun _ => ?_)
    | refine respects_ite ?_ ?_
    | split
    | dsimp only)

theorem frame_samePage : Frame SamePage where
  refl := fun _ _ => rfl
  trans := fun _ _ _ h1 h2 id => (h2 id).trans (h1 id)
  write := by
    intro s id w e hd j
    by_cases hj : j = id
    · subst hj; simp [Function.update, hd]
    · simp [Function.update, hj]
  log := fun _ _ _ _ => rfl

theorem frame_sameSlots : Frame SameSlots where
  refl := fun _ => ⟨rfl, rfl⟩
  trans := fun _ _ _ h1 h2 => ⟨h2.1.trans h1.1, h2.2.trans h1.2⟩
  write := fun _ _ _ _ _ => ⟨rfl, rfl⟩
  log := fun _ _ _ => ⟨rfl, rfl⟩

theorem frame_currentPrediction :
    Frame (fun s t => t.currentPrediction = s.currentPrediction) where
  refl := fun _ => rfl
  trans := fun _ _ _ h1 h2 => h2.trans h1
  write := fun _ _ _ _ _ => rfl
  log := fun _ _ _ => rfl

theorem frame_predictionHistory :
    Frame (fun s t => t.predictionHistory = s.predictionHistory) where
  refl := fun _ => rfl
  trans := fun _ _ _ h1 h2 => h2.trans h1
  write := fun _ _ _ _ _ => rfl
  log := fun _ _ _ => rfl

theorem frame_noReset : Frame NoReset where
  refl := fun _ => ⟨[], by simp, by simp⟩
  trans := by
    rintro a b c ⟨e1, h1, g1⟩ ⟨e2, h2, g2⟩
    refine ⟨e1 ++ e2, by rw [h2, h1, List.append_assoc], ?_⟩
    intro ev hev
    rcases List.mem_append.mp hev with hm | hm
    · exact g1 ev hm
    · exact g2 ev hm
  write := fun _ id w _ _ => ⟨[.write id w], rfl, by simp [Event.isReset]⟩
  log := fun _ ev hev => ⟨[ev], rfl, by simpa using hev⟩


/-! ## The display functions, as equations -/

theorem updatePredictionDisplay_eq (h : Host) (p : JSValue) (s : State) :
    updatePredictionDisplay h p s =
      if truthy p = false then (.done (), s)
      else match predictionPercents h p with
        | .error e => (.thrown e, s)
        | .ok x => (.done (), s.showPercents h x) := by
  unfold updatePredictionDisplay predictionPercents
  by_cases ht : truthy p = false
  · simp [ht, Eff.pure_apply]
  · simp only [ht, if_false]
    simp only [Bool.not_eq_false] at ht
    cases h1 : roundedPercent h p "playoff_probability" <;>
    cases h2 : roundedPercent h p "division_probability" <;>
    cases h3 : roundedPercent h p "conference_probability" <;>
    cases h4 : roundedPercent h p "superbowl_probability" <;>
    cases h5 : roundedPercent h p "confidence_score" <;>
    simp [ht, bind, Eff.bind, Eff.eval, pure, Except.bind, Except.pure, h1, h2, h3, h4, h5,
      assignIfPresent_eq, emit_eq, State.showPercents]

theorem updateStatsDisplay_eq (h : Host) (data : JSValue) (s : State) :
    updateStatsDisplay h data s =
      if truthy data = false then (.done (), s)
      else match getProp data "season" with
        | .error e => (.thrown e, s)
        | .ok season =>
          if truthy season = false then (.done (), s)
          else match statsTexts h season with
            | .error e => (.thrown e, s)
            | .ok x => (.done (), s.showStats x) := by
  unfold updateStatsDisplay statsTexts
  by_cases ht : truthy data = false
  · simp [ht, Eff.pure_apply]
  · simp only [ht, if_false]
    simp only [Bool.not_eq_false] at ht
    cases hs : getProp data "season" with
    | error e => simp [ht, bind, Eff.bind, Eff.eval, pure]
    | ok season =>
      by_cases hts : truthy season = false
      · simp [ht, hts, bind, Eff.bind, Eff.eval, pure]
      · simp only [hts, if_false]
        simp only [Bool.not_eq_false] at hts
        cases h1 : recordText h season <;>
        cases h2 : fixedOrDefault h season "win_percentage" 3 ".000" <;>
        cases h3 : fixedOrDefault h season "offensive_rating" 1 "0.0" <;>
        cases h4 : fixedOrDefault h season "defensive_rating" 1 "0.0" <;>
        simp [ht, hts, bind, Eff.bind, Eff.eval, pure, Except.bind, Except.pure, h1, h2, h3, h4,
          assignIfPresent_eq, State.showStats]

theorem updateHistoryDisplay_eq (h : Host) (history : JSValue) (s : State) :
    updateHistoryDisplay h history s =
      if (s.dom .history_list).isSome = true then
        match historyMarkup h history with
        | .error e => (.thrown e, s)
        | .ok html => (.done (), s.put .history_list (.innerHTML html))
      else (.done (), s) := by
  unfold updateHistoryDisplay historyMarkup
  by_cases hp : (s.dom .history_list).isSome = true
  · have hhas : s.has .history_list := hp
    simp only [hp, if_true]
    cases h1 : historyIsEmpty history with
    | error e => simp [bind, Eff.bind, Eff.eval, pure, present, hp, Except.bind]
    | ok b =>
      cases b with
      | true =>
        simp [bind, Eff.bind, Eff.eval, pure, present, hp, Except.bind, Except.pure,
          assign_of_has _ _ _ hhas]
      | false =>
        cases h2 : historyCards h history <;>
        simp [bind, Eff.bind, Eff.eval, pure, present, hp, Except.bind, Except.pure, h2,
          assign_of_has _ _ _ hhas]
  · simp [bind, Eff.bind, pure, present, hp]


/-! ## The request functions, as equations -/

theorem requestFails_iff (msg : String) (r : Except JSError Response) :
    requestFails r = true ↔ ∃ e, responseData msg r = .error e := by
  rcases r with e | ⟨ok, j⟩
  · simp [requestFails, responseData]
  · cases ok <;> cases j <;> simp [requestFails, responseData]

theorem loadCurrentPrediction_eq (h : Host) (r : Except JSError Response) (s : State) :
    loadCurrentPrediction h r s =
      match responseData "Failed to fetch prediction" r >>= (getProp · "prediction") with
      | .error e =>
        (.thrown e, (s.log (.request "GET" (API_URL ++ "/predictions/current"))).log
          (.consoleError "Error loading prediction:" e))
      | .ok p =>
        match updatePredictionDisplay h p
          { s.log (.request "GET" (API_URL ++ "/predictions/current")) with
            currentPrediction := p } with
        | (.done a, s2) => (.done a, s2)
        | (.thrown e, s2) => (.thrown e, s2.log (.consoleError "Error loading prediction:" e)) := by
  unfold loadCurrentPrediction responseData
  rcases r with e | ⟨ok, j⟩
  · rfl
  · cases ok
    · rfl
    · cases j with
      | error e => rfl
      | ok data =>
        cases hp : getProp data "prediction" with
        | error e =>
          simp [Eff.tryCatch, bind, Eff.bind, fetch, emit, Eff.eval, pure, hp, Except.bind,
            Eff.throw, State.log]
        | ok p =>
          simp only [Eff.tryCatch, bind, Eff.bind, fetch, emit, Eff.eval, pure, hp, Except.bind,
            Eff.throw, State.log, setCurrentPrediction, getCurrentPrediction,
            Bool.not_true, Bool.false_eq_true, Bool.true_eq_false, if_false]
          generalize updatePredictionDisplay h p _ = u
          rcases u with ⟨o, s2⟩
          cases o <;> rfl

theorem loadSeasonStats_eq (h : Host) (r : Except JSError Response) (s : State) :
    loadSeasonStats h r s =
      match responseData "Failed to fetch stats" r with
      | .error e =>
        (.thrown e, (s.log (.request "GET" (API_URL ++ "/teams/1/current"))).log
          (.consoleError "Error loading stats:" e))
      | .ok data =>
        match updateStatsDisplay h data (s.log (.request "GET" (API_URL ++ "/teams/1/current"))) with
        | (.done a, s2) => (.done a, s2)
        | (.thrown e, s2) => (.thrown e, s2.log (.consoleError "Error loading stats:" e)) := by
  unfold loadSeasonStats responseData
  rcases r with e | ⟨ok, j⟩
  · rfl
  · cases ok
    · rfl
    · cases j with
      | error e => rfl
      | ok data =>
        simp only [Eff.tryCatch, bind, Eff.bind, fetch, emit, Eff.eval, pure, Except.bind,
          Eff.throw, State.log, Bool.not_true, Bool.false_eq_true, Bool.true_eq_false, if_false]
        generalize updateStatsDisplay h data _ = u
        rcases u with ⟨o, s2⟩
        cases o <;> rfl

theorem loadPredictionHistory_eq (h : Host) (r : Except JSError Response) (s : State) :
    loadPredictionHistory h r s =
      match responseData "Failed to fetch history" r >>= (getProp · "predictions") with
      | .error e =>
        (.thrown e, (s.log (.request "GET" (API_URL ++ "/predictions/history?limit=10"))).log
          (.consoleError "Error loading history:" e))
      | .ok v =>
        match updateHistoryDisplay h v
          { s.log (.request "GET" (API_URL ++ "/predictions/history?limit=10")) with
            predictionHistory := v } with
        | (.done a, s2) => (.done a, s2)
        | (.thrown e, s2) => (.thrown e, s2.log (.consoleError "Error loading history:" e)) := by
  unfold loadPredictionHistory responseData
  rcases r with e | ⟨ok, j⟩
  · rfl
  · cases ok
    · rfl
    · cases j with
      | error e => rfl
      | ok data =>
        cases hp : getProp data "predictions" with
        | error e =>
          simp [Eff.tryCatch, bind, Eff.bind, fetch, emit, Eff.eval, pure, hp, Except.bind,
            Eff.throw, State.log]
        | ok p =>
          simp only [Eff.tryCatch, bind, Eff.bind, fetch, emit, Eff.eval, pure, hp, Except.bind,
            Eff.throw, State.log, setPredictionHistory, getPredictionHistory,
            Bool.not_true, Bool.false_eq_true, Bool.true_eq_false, if_false]
          generalize updateHistoryDisplay h p _ = u
          rcases u with ⟨o, s2⟩
          cases o <;> rfl


/-! ## `generateNewPrediction`, as equations -/

theorem samePage_has {s t : State} (hst : SamePage s t) (id : ElemId) : t.has id ↔ s.has id := by
  unfold State.has
  rw [hst id]

theorem State.log_has (s : State) (ev : Event) (j : ElemId) : (s.log ev).has j ↔ s.has j :=
  Iff.rfl

theorem State.startGenerate_has (s : State) (j : ElemId) : s.startGenerate.has j ↔ s.has j := by
  unfold State.startGenerate
  rw [State.log_has, State.put_has, State.put_has]

theorem generateNewPrediction_absent (h : Host) (post history : Except JSError Response)
    (s : State) (hs : s.dom .generate_btn = none) :
    generateNewPrediction h post history s = (.thrown .typeError, s) := by
  unfold generateNewPrediction
  simp only [bind, Eff.bind, assign_of_absent _ _ _ hs]

theorem generate_catch_eq (e : JSError) (t : State) (ht : t.has .generate_btn) :
    (do
      emit (.consoleError "Error generating prediction:" e)
      assign .generate_btn (.textContent "ERROR - TRY AGAIN")
      emit (.setTimeout .resetButton 2000) : Eff Unit) t = (.done (), t.showError e) := by
  have h1 : (t.log (.consoleError "Error generating prediction:" e)).has .generate_btn := ht
  simp only [bind, Eff.bind, emit_eq, assign_of_has _ _ _ h1, State.showError]

theorem generate_try_eq (h : Host) (post history : Except JSError Response) (t : State) :
    (do
      let response ← fetch "POST" (API_URL ++ "/predictions/generate") post
      if !response.ok then Eff.throw (.error "Failed to generate prediction")
      let data ← Eff.eval response.json
      setCurrentPrediction (← Eff.eval (getProp data "prediction"))
      updatePredictionDisplay h (← getCurrentPrediction)
      loadPredictionHistory h history
      assign .generate_btn (.textContent "PREDICTION UPDATED")
      emit (.setTimeout .resetButton 2000) : Eff Unit) t =
      match responseData "Failed to generate prediction" post >>= (getProp · "prediction") with
      | .error e => (.thrown e, t.log (.request "POST" (API_URL ++ "/predictions/generate")))
      | .ok p =>
        match updatePredictionDisplay h p
          { t.log (.request "POST" (API_URL ++ "/predictions/generate")) with
            currentPrediction := p } with
        | (.thrown e, s2) => (.thrown e, s2)
        | (.done _, s2) =>
          match loadPredictionHistory h history s2 with
          | (.thrown e, s3) => (.thrown e, s3)
          | (.done _, s3) =>
            (do
              assign .generate_btn (.textContent "PREDICTION UPDATED")
              emit (.setTimeout .resetButton 2000) : Eff Unit) s3 := by
  unfold responseData
  rcases post with e | ⟨ok, j⟩
  · rfl
  · cases ok
    · rfl
    · cases j with
      | error e => rfl
      | ok data =>
        cases hp : getProp data "prediction" with
        | error e =>
          simp [bind, Eff.bind, fetch, emit, Eff.eval, pure, hp, Except.bind, State.log]
        | ok p =>
          simp only [bind, Eff.bind, fetch, emit, Eff.eval, pure, hp, Except.bind,
            State.log, setCurrentPrediction, getCurrentPrediction,
            Bool.not_true, Bool.false_eq_true, Bool.true_eq_false, if_false]
          generalize updatePredictionDisplay h p _ = u
          rcases u with ⟨o, s2⟩
          cases o with
          | thrown e => rfl
          | done a =>
            simp only
            generalize loadPredictionHistory h history s2 = u3
            rcases u3 with ⟨o3, s3⟩
            cases o3 <;> rfl

theorem generateNewPrediction_eq (h : Host) (post history : Except JSError Response)
    (s : State) (hs : s.has .generate_btn) :
    generateNewPrediction h post history s =
      match responseData "Failed to generate prediction" post >>= (getProp · "prediction") with
      | .error e => (.done (), s.startGenerate.showError e)
      | .ok p =>
        match updatePredictionDisplay h p { s.startGenerate with currentPrediction := p } with
        | (.thrown e, s2) => (.done (), s2.showError e)
        | (.done _, s2) =>
          match loadPredictionHistory h history s2 with
          | (.thrown e, s3) => (.done (), s3.showError e)
          | (.done _, s3) =>
            (.done (), (s3.put .generate_btn (.textContent "PREDICTION UPDATED")).log
              (.setTimeout .resetButton 2000)) := by
  have hs1 : (s.put .generate_btn (.disabled true)).has .generate_btn :=
    (State.put_has _ _ _ _).2 hs
  have hs0 : s.startGenerate.has .generate_btn := (State.startGenerate_has _ _).2 hs
  have hstart : (({ s.startGenerate with trace := s.startGenerate.trace } : State)) = s.startGenerate := rfl
  unfold generateNewPrediction
  simp only [bind, Eff.bind, assign_of_has _ _ _ hs, assign_of_has _ _ _ hs1]
  unfold Eff.tryCatch
  have hbody := generate_try_eq h post history
    ((s.put .generate_btn (.disabled true)).put .generate_btn (.textContent "GENERATING..."))
  simp only [bind] at hbody
  rw [hbody]
  cases hr : responseData "Failed to generate prediction" post >>= (getProp · "prediction") with
  | error e =>
    simp only [bind] at hr
    simp only [hr]
    exact generate_catch_eq e _ hs0
  | ok p =>
    simp only [bind] at hr
    simp only [hr]
    have hupd := updatePredictionDisplay_respects frame_samePage h p
      { s.startGenerate with currentPrediction := p }
    change SamePage _ (updatePredictionDisplay h p { s.startGenerate with currentPrediction := p }).2
      at hupd
    have hst : (({ (((s.put .generate_btn (.disabled true)).put .generate_btn
        (.textContent "GENERATING...")).log (.request "POST" (API_URL ++ "/predictions/generate")))
        with currentPrediction := p } : State)) = { s.startGenerate with currentPrediction := p } := rfl
    rw [hst]
    rcases hu : updatePredictionDisplay h p { s.startGenerate with currentPrediction := p }
      with ⟨o, s2⟩
    rw [hu] at hupd
    have hs2 : s2.has .generate_btn := (samePage_has hupd _).2 hs0
    cases o with
    | thrown e => exact generate_catch_eq e _ hs2
    | done a =>
      simp only
      have hload := loadPredictionHistory_respects frame_samePage (fun _ _ _ => rfl) h history s2
      rcases hl : loadPredictionHistory h history s2 with ⟨o3, s3⟩
      rw [hl] at hload
      have hs3 : s3.has .generate_btn := (samePage_has hload _).2 hs2
      cases o3 with
      | thrown e => exact generate_catch_eq e _ hs3
      | done a3 =>
        simp only [Eff.bind, assign_of_has _ _ _ hs3, emit_eq]


/-! ## The mock data set -/

theorem roundTimes100_mock :
    ∀ k ∈ [42, 28, 12, 6, 73, 45, 31, 14, 7, 38, 25, 10, 5, 35, 22, 8, 4],
      roundTimes100 (lit k 100) = .fin (k : ℚ) := by
  decide!

theorem roundTimes100_lit (k : ℕ)
    (hk : k ∈ [42, 28, 12, 6, 73, 45, 31, 14, 7, 38, 25, 10, 5, 35, 22, 8, 4]) :
    roundTimes100 (lit k 100) = .fin (k : ℚ) :=
  roundTimes100_mock k hk

theorem predictionPercents_mock (h : Host) :
    predictionPercents h mockPrediction
      = .ok (.fin 42, .fin 28, .fin 12, .fin 6, .fin 73) := by
  simp [predictionPercents, roundedPercent, mockPrediction, getProp, ownProp, toNumber, bind,
    Except.bind, pure, Except.pure, roundTimes100_lit]

theorem percentText_small (h : Host) (n : ℕ) (hn : n ≤ 100) :
    percentText h (.fin (n : ℚ)) = Nat.repr n ++ "%" :=
  percentText_nat h n (le_trans hn (by norm_num))

theorem historyItem_mock (h : Host) (iso : String) (a b c d : ℕ)
    (ha : a ∈ [42, 28, 12, 6, 73, 45, 31, 14, 7, 38, 25, 10, 5, 35, 22, 8, 4])
    (hb : b ∈ [42, 28, 12, 6, 73, 45, 31, 14, 7, 38, 25, 10, 5, 35, 22, 8, 4])
    (hc : c ∈ [42, 28, 12, 6, 73, 45, 31, 14, 7, 38, 25, 10, 5, 35, 22, 8, 4])
    (hd : d ∈ [42, 28, 12, 6, 73, 45, 31, 14, 7, 38, 25, 10, 5, 35, 22, 8, 4]) :
    historyItem h (mockRecord iso a b c d)
      = .ok (historyCard (h.localeDate (.inl iso)) (Nat.repr a) (Nat.repr b) (Nat.repr c)
          (Nat.repr d)) := by
  have e1 : ∀ k ∈ [42, 28, 12, 6, 73, 45, 31, 14, 7, 38, 25, 10, 5, 35, 22, 8, 4],
      numberToString h (.fin ((k : ℕ) : ℚ)) = Nat.repr k := by
    intro k hk
    apply numberToString_nat
    have : k ≤ 73 := by
      simp only [List.mem_cons, List.mem_singleton, List.not_mem_nil, or_false] at hk
      omega
    exact le_trans this (by norm_num)
  simp [historyItem, roundedPercent, mockRecord, getProp, ownProp, toNumber, bind,
    Except.bind, pure, Except.pure, dateText, roundTimes100_lit _ ha, roundTimes100_lit _ hb,
    roundTimes100_lit _ hc, roundTimes100_lit _ hd, e1 _ ha, e1 _ hb, e1 _ hc, e1 _ hd]

theorem historyMarkup_mock (h : Host) (clock : Nat → Int) :
    historyMarkup h (mockHistory h clock) = .ok (String.join (mockCards h clock)) := by
  have r42 : Nat.repr 42 = "42" := by decide
  have r28 : Nat.repr 28 = "28" := by decide
  have r12 : Nat.repr 12 = "12" := by decide
  have r6 : Nat.repr 6 = "6" := by decide
  have r45 : Nat.repr 45 = "45" := by decide
  have r31 : Nat.repr 31 = "31" := by decide
  have r14 : Nat.repr 14 = "14" := by decide
  have r7 : Nat.repr 7 = "7" := by decide
  have r38 : Nat.repr 38 = "38" := by decide
  have r25 : Nat.repr 25 = "25" := by decide
  have r10 : Nat.repr 10 = "10" := by decide
  have r5 : Nat.repr 5 = "5" := by decide
  have r35 : Nat.repr 35 = "35" := by decide
  have r22 : Nat.repr 22 = "22" := by decide
  have r8 : Nat.repr 8 = "8" := by decide
  have r4 : Nat.repr 4 = "4" := by decide
  have i0 := historyItem_mock h (h.isoString (clock 0)) 42 28 12 6
    (by decide) (by decide) (by decide) (by decide)
  have i1 := historyItem_mock h (h.isoString (clock 1 - 86400000)) 45 31 14 7
    (by decide) (by decide) (by decide) (by decide)
  have i2 := historyItem_mock h (h.isoString (clock 2 - 172800000)) 38 25 10 5
    (by decide) (by decide) (by decide) (by decide)
  have i3 := historyItem_mock h (h.isoString (clock 3 - 259200000)) 35 22 8 4
    (by decide) (by decide) (by decide) (by decide)
  rw [r42, r28, r12, r6] at i0
  rw [r45, r31, r14, r7] at i1
  rw [r38, r25, r10, r5] at i2
  rw [r35, r22, r8, r4] at i3
  have hempty : historyIsEmpty (mockHistory h clock) = .ok false := by
    simp [historyIsEmpty, mockHistory, truthy, lengthIsZero, getProp, bind, Except.bind, pure,
      Except.pure]
  have hcards : historyCards h (mockHistory h clock) = .ok (String.join (mockCards h clock)) := by
    simp only [historyCards, mockHistory, List.mapM_cons, List.mapM_nil, i0, i1, i2, i3,
      bind, Except.bind, pure, Except.pure, Except.map, mockCards]
  simp only [historyMarkup, hempty, hcards, bind, Except.bind, Bool.false_eq_true, if_false]

theorem statsTexts_mock (h : Host) :
    statsTexts h (.obj [("wins", .num (.fin 3)), ("losses", .num (.fin 3)),
        ("ties", .num (.fin 0)), ("win_percentage", .num (lit 500 1000)),
        ("offensive_rating", .num (lit 785 10)), ("defensive_rating", .num (lit 823 10))])
      = .ok ("3-3-0", "0.500", "78.5", "82.3") := by
  have t1 : truthy (.num (lit 500 1000)) = true := by decide!
  have t2 : truthy (.num (lit 785 10)) = true := by decide!
  have t3 : truthy (.num (lit 823 10)) = true := by decide!
  have f1 := toFixed_of_fixedNotation h (lit 500 1000) 3 "0.500" (by decide!)
  have f2 := toFixed_of_fixedNotation h (lit 785 10) 1 "78.5" (by decide!)
  have f3 := toFixed_of_fixedNotation h (lit 823 10) 1 "82.3" (by decide!)
  have n3 : numberToString h (.fin 3) = "3" := by
    have := numberToString_nat h 3 (by norm_num)
    simpa using this
  have n0 : numberToString h (.fin 0) = "0" := by
    have := numberToString_nat h 0 (by norm_num)
    simpa using this
  simp [statsTexts, recordText, fixedOrDefault, callToFixed, getProp, ownProp, toStringJS, bind,
    Except.bind, pure, Except.pure, t1, t2, t3, f1, f2, f3, n3, n0]

theorem truthy_obj (props : List (String × JSValue)) : truthy (.obj props) = true := rfl

theorem showMockData_eq (h : Host) (clock : Nat → Int) (s : State) (hs : s.has .history_list) :
    showMockData h clock s = (.done (), s.showMock h clock) := by
  unfold showMockData
  have hp := predictionPercents_mock h
  have e1 := updatePredictionDisplay_eq h mockPrediction
    (s.log (.consoleLog "Using mock data for demonstration - API not available"))
  have tm : truthy mockPrediction = true := rfl
  simp only [tm, Bool.true_eq_false, if_false, hp] at e1
  have e2 := updateStatsDisplay_eq h mockStats
    ((s.log (.consoleLog "Using mock data for demonstration - API not available")).showPercents h
      (.fin 42, .fin 28, .fin 12, .fin 6, .fin 73))
  have ts : truthy mockStats = true := rfl
  have hseason : getProp mockStats "season" = .ok (.obj [("wins", .num (.fin 3)),
      ("losses", .num (.fin 3)), ("ties", .num (.fin 0)), ("win_percentage", .num (lit 500 1000)),
      ("offensive_rating", .num (lit 785 10)), ("defensive_rating", .num (lit 823 10))]) := by
    simp [getProp, mockStats, ownProp]
  simp only [ts, Bool.true_eq_false, if_false, hseason, truthy_obj, statsTexts_mock h] at e2
  have hs3 : (((s.log (.consoleLog "Using mock data for demonstration - API not available")).showPercents
      h (.fin 42, .fin 28, .fin 12, .fin 6, .fin 73)).showStats
      ("3-3-0", "0.500", "78.5", "82.3")).has .history_list := by
    unfold State.showStats State.showPercents
    simp only [State.put_has, State.log_has]
    exact hs
  have e3 := updateHistoryDisplay_eq h (mockHistory h clock)
    (((s.log (.consoleLog "Using mock data for demonstration - API not available")).showPercents
      h (.fin 42, .fin 28, .fin 12, .fin 6, .fin 73)).showStats ("3-3-0", "0.500", "78.5", "82.3"))
  have hs3' := hs3
  unfold State.has at hs3'
  simp only [hs3', if_true, historyMarkup_mock] at e3
  simp only [bind, Eff.bind, emit_eq, e1, e2, e3, State.showMock]

theorem showMockData_absent (h : Host) (clock : Nat → Int) (s : State)
    (hs : s.dom .history_list = none) :
    showMockData h clock s =
      (.done (), ((s.log (.consoleLog "Using mock data for demonstration - API not available")).showPercents
        h (.fin 42, .fin 28, .fin 12, .fin 6, .fin 73)).showStats
        ("3-3-0", "0.500", "78.5", "82.3")) := by
  unfold showMockData
  have hp := predictionPercents_mock h
  have e1 := updatePredictionDisplay_eq h mockPrediction
    (s.log (.consoleLog "Using mock data for demonstration - API not available"))
  have tm : truthy mockPrediction = true := rfl
  simp only [tm, Bool.true_eq_false, if_false, hp] at e1
  have e2 := updateStatsDisplay_eq h mockStats
    ((s.log (.consoleLog "Using mock data for demonstration - API not available")).showPercents h
      (.fin 42, .fin 28, .fin 12, .fin 6, .fin 73))
  have ts : truthy mockStats = true := rfl
  have hseason : getProp mockStats "season" = .ok (.obj [("wins", .num (.fin 3)),
      ("losses", .num (.fin 3)), ("ties", .num (.fin 0)), ("win_percentage", .num (lit 500 1000)),
      ("offensive_rating", .num (lit 785 10)), ("defensive_rating", .num (lit 823 10))]) := by
    simp [getProp, mockStats, ownProp]
  simp only [ts, Bool.true_eq_false, if_false, hseason, truthy_obj, statsTexts_mock h] at e2
  have hs3 : ((((s.log (.consoleLog "Using mock data for demonstration - API not available")).showPercents
      h (.fin 42, .fin 28, .fin 12, .fin 6, .fin 73)).showStats
      ("3-3-0", "0.500", "78.5", "82.3")).dom .history_list).isSome = false := by
    unfold State.showStats State.showPercents
    simp [State.put_dom, hs]
  have e3 := updateHistoryDisplay_eq h (mockHistory h clock)
    (((s.log (.consoleLog "Using mock data for demonstration - API not available")).showPercents
      h (.fin 42, .fin 28, .fin 12, .fin 6, .fin 73)).showStats ("3-3-0", "0.500", "78.5", "82.3"))
  simp only [hs3, Bool.false_eq_true, if_false] at e3
  simp only [bind, Eff.bind, emit_eq, e1, e2, e3]

theorem initializeApp_eq (h : Host) (clock : Nat → Int)
    (r1 r2 r3 : Except JSError Response) (s : State) :
    initializeApp h clock r1 r2 r3 s =
      match loadCurrentPrediction h r1 s with
      | (.thrown e, s1) => showMockData h clock (s1.log (.consoleError "Error initializing app:" e))
      | (.done _, s1) =>
        match loadSeasonStats h r2 s1 with
        | (.thrown e, s2) =>
          showMockData h clock (s2.log (.consoleError "Error initializing app:" e))
        | (.done _, s2) =>
          match loadPredictionHistory h r3 s2 with
          | (.thrown e, s3) =>
            showMockData h clock (s3.log (.consoleError "Error initializing app:" e))
          | (.done a, s3) => (.done a, s3) := by
  unfold initializeApp Eff.tryCatch
  simp only [bind, Eff.bind]
  rcases loadCurrentPrediction h r1 s with ⟨o1, s1⟩
  cases o1 with
  | thrown e => simp only [emit_eq]
  | done a =>
    simp only
    rcases loadSeasonStats h r2 s1 with ⟨o2, s2⟩
    cases o2 with
    | thrown e => simp only [emit_eq]
    | done a =>
      simp only
      rcases loadPredictionHistory h r3 s2 with ⟨o3, s3⟩
      cases o3 with
      | thrown e => simp only [emit_eq]
      | done a => rfl


/-! ## What the display functions leave on the page -/

theorem showPercents_text (s : State) (h : Host)
    (x : JSNumber × JSNumber × JSNumber × JSNumber × JSNumber) (id : ElemId) :
    (s.showPercents h x).text id =
      match id with
      | .playoff_prob => (s.text id).map (fun _ => percentText h x.1)
      | .division_prob => (s.text id).map (fun _ => percentText h x.2.1)
      | .conference_prob => (s.text id).map (fun _ => percentText h x.2.2.1)
      | .superbowl_prob => (s.text id).map (fun _ => percentText h x.2.2.2.1)
      | .confidence => (s.text id).map (fun _ => percentText h x.2.2.2.2)
      | _ => s.text id := by
  unfold State.showPercents
  cases id <;> simp [State.put_text, State.log_text]

theorem getProp_num_truthy (v : JSValue) (k : String) (n : JSNumber)
    (hk : k ≠ "length") (hv : getProp v k = .ok (.num n)) : truthy v = true := by
  cases v <;> simp [getProp, hk] at hv
  rfl

theorem roundedPercent_num (h : Host) (v : JSValue) (k : String) (n : JSNumber)
    (hv : getProp v k = .ok (.num n)) : roundedPercent h v k = .ok (roundTimes100 n) := by
  simp [roundedPercent, hv, toNumber, bind, Except.bind, pure, Except.pure]

theorem showStats_text (s : State) (x : String × String × String × String) (id : ElemId) :
    (s.showStats x).text id =
      match id with
      | .record => (s.text id).map (fun _ => x.1)
      | .win_pct => (s.text id).map (fun _ => x.2.1)
      | .off_rating => (s.text id).map (fun _ => x.2.2.1)
      | .def_rating => (s.text id).map (fun _ => x.2.2.2)
      | _ => s.text id := by
  unfold State.showStats
  cases id <;> simp [State.put_text]

theorem percentText_mock (h : Host) :
    percentText h (.fin 42) = "42%" ∧ percentText h (.fin 28) = "28%" ∧
    percentText h (.fin 12) = "12%" ∧ percentText h (.fin 6) = "6%" ∧
    percentText h (.fin 73) = "73%" := by
  have q42 := percentText_small h 42 (by norm_num)
  have q28 := percentText_small h 28 (by norm_num)
  have q12 := percentText_small h 12 (by norm_num)
  have q6 := percentText_small h 6 (by norm_num)
  have q73 := percentText_small h 73 (by norm_num)
  simp only [Nat.cast_ofNat] at q42 q28 q12 q6 q73
  exact ⟨q42, q28, q12, q6, q73⟩

theorem showMock_text (s : State) (h : Host) (clock : Nat → Int) (id : ElemId) :
    (s.showMock h clock).text id =
      match id with
      | .playoff_prob => (s.text id).map (fun _ => "42%")
      | .division_prob => (s.text id).map (fun _ => "28%")
      | .conference_prob => (s.text id).map (fun _ => "12%")
      | .superbowl_prob => (s.text id).map (fun _ => "6%")
      | .confidence => (s.text id).map (fun _ => "73%")
      | .record => (s.text id).map (fun _ => "3-3-0")
      | .win_pct => (s.text id).map (fun _ => "0.500")
      | .off_rating => (s.text id).map (fun _ => "78.5")
      | .def_rating => (s.text id).map (fun _ => "82.3")
      | _ => s.text id := by
  obtain ⟨q42, q28, q12, q6, q73⟩ := percentText_mock h
  unfold State.showMock
  rw [State.put_text_other _ _ _ _ (by intro t; simp)]
  cases id <;> simp [showStats_text, showPercents_text, q42, q28, q12, q6, q73]

theorem showPercents_html (s : State) (h : Host)
    (x : JSNumber × JSNumber × JSNumber × JSNumber × JSNumber) (id : ElemId) :
    (s.showPercents h x).html id = s.html id := by
  unfold State.showPercents
  simp [State.put_html_other]

theorem showStats_html (s : State) (x : String × String × String × String) (id : ElemId) :
    (s.showStats x).html id = s.html id := by
  unfold State.showStats
  simp [State.put_html_other]

theorem showMock_html (s : State) (h : Host) (clock : Nat → Int) :
    (s.showMock h clock).html .history_list
      = (s.html .history_list).map (fun _ => String.join (mockCards h clock)) := by
  unfold State.showMock
  rw [State.put_html]
  simp [showStats_html, showPercents_html]

theorem showPercents_slots (s : State) (h : Host)
    (x : JSNumber × JSNumber × JSNumber × JSNumber × JSNumber) :
    SameSlots s (s.showPercents h x) := by
  unfold State.showPercents SameSlots
  simp

theorem text_of_has (s : State) (id : ElemId) (hs : s.has id) (t : String) :
    (s.text id).map (fun _ => t) = some t := by
  unfold State.has at hs
  unfold State.text
  cases hd : s.dom id with
  | none => rw [hd] at hs; simp at hs
  | some e => rfl

theorem html_of_has (s : State) (id : ElemId) (hs : s.has id) (t : String) :
    (s.html id).map (fun _ => t) = some t := by
  unfold State.has at hs
  unfold State.html
  cases hd : s.dom id with
  | none => rw [hd] at hs; simp at hs
  | some e => rfl


/-! ## Start-up -/

theorem loadAll_eq (h : Host) (r1 r2 r3 : Except JSError Response) (s : State) :
    loadAll h r1 r2 r3 s =
      match loadCurrentPrediction h r1 s with
      | (.thrown e, s1) => (.thrown e, s1)
      | (.done _, s1) =>
        match loadSeasonStats h r2 s1 with
        | (.thrown e, s2) => (.thrown e, s2)
        | (.done _, s2) => loadPredictionHistory h r3 s2 := by
  unfold loadAll
  simp only [bind, Eff.bind]
  rcases loadCurrentPrediction h r1 s with ⟨o1, s1⟩
  cases o1 with
  | thrown e => rfl
  | done a =>
    simp only
    rcases loadSeasonStats h r2 s1 with ⟨o2, s2⟩
    cases o2 <;> rfl

theorem initializeApp_loadAll (h : Host) (clock : Nat → Int)
    (r1 r2 r3 : Except JSError Response) (s : State) :
    initializeApp h clock r1 r2 r3 s =
      match loadAll h r1 r2 r3 s with
      | (.thrown e, s1) => showMockData h clock (s1.log (.consoleError "Error initializing app:" e))
      | (.done a, s1) => (.done a, s1) := by
  unfold initializeApp loadAll Eff.tryCatch
  simp only [bind, Eff.bind]
  split <;> simp_all [emit_eq]

theorem loadAll_respects {R : State → State → Prop} (F : Frame R)
    (hcur : ∀ (s : State) v, R s { s with currentPrediction := v })
    (hhist : ∀ (s : State) v, R s { s with predictionHistory := v })
    (h : Host) (r1 r2 r3 : Except JSError Response) : Respects R (loadAll h r1 r2 r3) := by
  unfold loadAll
  exact respects_bind F (loadCurrentPrediction_respects F hcur h r1) (fun _ =>
    respects_bind F (loadSeasonStats_respects F h r2) (fun _ =>
      loadPredictionHistory_respects F hhist h r3))

theorem loadCurrentPrediction_fails (h : Host) (r : Except JSError Response) (s : State)
    (hr : requestFails r = true) : ∃ e, (loadCurrentPrediction h r s).1 = .thrown e := by
  obtain ⟨e, he⟩ := (requestFails_iff "Failed to fetch prediction" r).1 hr
  rw [loadCurrentPrediction_eq]
  simp only [bind, Except.bind, he]
  exact ⟨e, rfl⟩

theorem loadSeasonStats_fails (h : Host) (r : Except JSError Response) (s : State)
    (hr : requestFails r = true) : ∃ e, (loadSeasonStats h r s).1 = .thrown e := by
  obtain ⟨e, he⟩ := (requestFails_iff "Failed to fetch stats" r).1 hr
  rw [loadSeasonStats_eq]
  simp only [he]
  exact ⟨e, rfl⟩

theorem loadPredictionHistory_fails (h : Host) (r : Except JSError Response) (s : State)
    (hr : requestFails r = true) : ∃ e, (loadPredictionHistory h r s).1 = .thrown e := by
  obtain ⟨e, he⟩ := (requestFails_iff "Failed to fetch history" r).1 hr
  rw [loadPredictionHistory_eq]
  simp only [bind, Except.bind, he]
  exact ⟨e, rfl⟩

/-- A failing request makes the `try` block of `initializeApp` throw. -/
theorem loadAll_fails (h : Host) (r1 r2 r3 : Except JSError Response) (s : State)
    (hr : requestFails r1 = true ∨ requestFails r2 = true ∨ requestFails r3 = true) :
    ∃ e, (loadAll h r1 r2 r3 s).1 = .thrown e := by
  rw [loadAll_eq]
  rcases h1 : loadCurrentPrediction h r1 s with ⟨o1, s1⟩
  cases o1 with
  | thrown e => exact ⟨e, rfl⟩
  | done a =>
    simp only
    rcases h2 : loadSeasonStats h r2 s1 with ⟨o2, s2⟩
    cases o2 with
    | thrown e => exact ⟨e, rfl⟩
    | done a2 =>
      simp only
      rcases hr with hr | hr | hr
      · obtain ⟨e, he⟩ := loadCurrentPrediction_fails h r1 s hr
        rw [h1] at he
        cases he
      · obtain ⟨e, he⟩ := loadSeasonStats_fails h r2 s1 hr
        rw [h2] at he
        cases he
      · exact loadPredictionHistory_fails h r3 s2 hr

/-- Once the `try` block of `initializeApp` has thrown, the state is the one
`showMockData` leaves. -/
theorem initializeApp_of_thrown (h : Host) (clock : Nat → Int)
    (r1 r2 r3 : Except JSError Response) (s : State) (e : JSError)
    (hthrown : (loadAll h r1 r2 r3 s).1 = .thrown e) (hs : s.has .history_list) :
    initializeApp h clock r1 r2 r3 s =
      (.done (), (((loadAll h r1 r2 r3 s).2.log
        (.consoleError "Error initializing app:" e)).showMock h clock)) := by
  have hpage := loadAll_respects frame_samePage (fun _ _ _ => rfl) (fun _ _ _ => rfl) h r1 r2 r3 s
  rw [initializeApp_loadAll]
  rcases hl : loadAll h r1 r2 r3 s with ⟨o, s1⟩
  rw [hl] at hthrown hpage
  simp only at hthrown
  subst hthrown
  simp only
  apply showMockData_eq
  exact (samePage_has hpage _).2 hs


/-! ## Which elements each function assigns to -/

theorem showPercents_dom (s : State) (h : Host)
    (x : JSNumber × JSNumber × JSNumber × JSNumber × JSNumber) (id : ElemId)
    (hid : id ≠ .playoff_prob ∧ id ≠ .division_prob ∧ id ≠ .conference_prob ∧
      id ≠ .superbowl_prob ∧ id ≠ .confidence) :
    (s.showPercents h x).dom id = s.dom id := by
  obtain ⟨h1, h2, h3, h4, h5⟩ := hid
  unfold State.showPercents
  simp [State.put_dom, h1, h2, h3, h4, h5]

theorem showStats_dom (s : State) (x : String × String × String × String) (id : ElemId)
    (hid : id ≠ .record ∧ id ≠ .win_pct ∧ id ≠ .off_rating ∧ id ≠ .def_rating) :
    (s.showStats x).dom id = s.dom id := by
  obtain ⟨h1, h2, h3, h4⟩ := hid
  unfold State.showStats
  simp [State.put_dom, h1, h2, h3, h4]

/-- `updatePredictionDisplay` assigns to its five text targets only. -/
theorem updatePredictionDisplay_dom (h : Host) (p : JSValue) (s : State) (id : ElemId)
    (hid : id ≠ .playoff_prob ∧ id ≠ .division_prob ∧ id ≠ .conference_prob ∧
      id ≠ .superbowl_prob ∧ id ≠ .confidence) :
    (updatePredictionDisplay h p s).2.dom id = s.dom id := by
  rw [updatePredictionDisplay_eq]
  split
  · rfl
  · split
    · rfl
    · exact showPercents_dom _ _ _ _ hid

/-- `updateStatsDisplay` assigns to its four text targets only. -/
theorem updateStatsDisplay_dom (h : Host) (data : JSValue) (s : State) (id : ElemId)
    (hid : id ≠ .record ∧ id ≠ .win_pct ∧ id ≠ .off_rating ∧ id ≠ .def_rating) :
    (updateStatsDisplay h data s).2.dom id = s.dom id := by
  rw [updateStatsDisplay_eq]
  split
  · rfl
  · split
    · rfl
    · split
      · rfl
      · split
        · rfl
        · exact showStats_dom _ _ _ hid

/-- `updateHistoryDisplay` assigns to the history container only. -/
theorem updateHistoryDisplay_dom (h : Host) (v : JSValue) (s : State) (id : ElemId)
    (hid : id ≠ .history_list) : (updateHistoryDisplay h v s).2.dom id = s.dom id := by
  rw [updateHistoryDisplay_eq]
  split
  · split
    · rfl
    · simp [State.put_dom, hid]
  · rfl

theorem loadPredictionHistory_dom (h : Host) (r : Except JSError Response) (s : State)
    (id : ElemId) (hid : id ≠ .history_list) :
    (loadPredictionHistory h r s).2.dom id = s.dom id := by
  rw [loadPredictionHistory_eq]
  split
  · rfl
  · rename_i v _
    have hd := updateHistoryDisplay_dom h v
      { s.log (.request "GET" (API_URL ++ "/predictions/history?limit=10")) with
        predictionHistory := v } id hid
    split
    · rename_i heq
      rw [heq] at hd
      exact hd
    · rename_i heq
      rw [heq] at hd
      exact hd

theorem loadCurrentPrediction_dom (h : Host) (r : Except JSError Response) (s : State)
    (id : ElemId)
    (hid : id ≠ .playoff_prob ∧ id ≠ .division_prob ∧ id ≠ .conference_prob ∧
      id ≠ .superbowl_prob ∧ id ≠ .confidence) :
    (loadCurrentPrediction h r s).2.dom id = s.dom id := by
  rw [loadCurrentPrediction_eq]
  split
  · rfl
  · rename_i v _
    have hd := updatePredictionDisplay_dom h v
      { s.log (.request "GET" (API_URL ++ "/predictions/current")) with
        currentPrediction := v } id hid
    split
    · rename_i heq
      rw [heq] at hd
      exact hd
    · rename_i heq
      rw [heq] at hd
      exact hd

theorem State.put_trace_of_has (s : State) (id : ElemId) (w : DomWrite) (hs : s.has id) :
    (s.put id w).trace = s.trace ++ [.write id w] := by
  rw [State.put_trace]
  unfold State.has at hs
  simp [hs]

theorem startGenerate_trace (s : State) (hs : s.has .generate_btn) :
    s.startGenerate.trace = s.trace ++
      [.write .generate_btn (.disabled true),
       .write .generate_btn (.textContent "GENERATING..."),
       .request "POST" (API_URL ++ "/predictions/generate")] := by
  have hs1 : (s.put .generate_btn (.disabled true)).has .generate_btn :=
    (State.put_has _ _ _ _).2 hs
  unfold State.startGenerate
  rw [State.log_trace, State.put_trace_of_has _ _ _ hs1, State.put_trace_of_has _ _ _ hs]
  simp

theorem showError_trace (t : State) (e : JSError) (ht : t.has .generate_btn) :
    (t.showError e).trace = t.trace ++
      [.consoleError "Error generating prediction:" e,
       .write .generate_btn (.textContent "ERROR - TRY AGAIN"),
       .setTimeout .resetButton 2000] := by
  have h1 : (t.log (.consoleError "Error generating prediction:" e)).has .generate_btn := ht
  unfold State.showError
  rw [State.log_trace, State.put_trace_of_has _ _ _ h1, State.log_trace]
  simp

theorem startGenerate_button (s : State) :
    s.startGenerate.isDisabled .generate_btn = (s.isDisabled .generate_btn).map (fun _ => true) ∧
    s.startGenerate.text .generate_btn
      = (s.text .generate_btn).map (fun _ => "GENERATING...") := by
  unfold State.startGenerate State.isDisabled State.text
  simp only [State.log_dom, State.put_dom, if_true]
  cases s.dom .generate_btn <;> exact ⟨rfl, rfl⟩


/-! ## The shape of `generateNewPrediction` -/

/-- The shape of every run of `generateNewPrediction` on a page with the
button: after the two assignments and the POST, steps that schedule no reset
and leave the button alone, then one last label and the one reset timer. -/
theorem generateNewPrediction_shape (h : Host) (post history : Except JSError Response)
    (s : State) (hs : s.has .generate_btn) :
    ∃ (t : State) (label : String),
      generateNewPrediction h post history s =
        (.done (), (t.put .generate_btn (.textContent label)).log
          (.setTimeout .resetButton 2000)) ∧
      NoReset s.startGenerate t ∧
      t.dom .generate_btn = s.startGenerate.dom .generate_btn ∧
      (label = "PREDICTION UPDATED" ∨ label = "ERROR - TRY AGAIN") := by
  have hbtn : ElemId.generate_btn ≠ .playoff_prob ∧ ElemId.generate_btn ≠ .division_prob ∧
      ElemId.generate_btn ≠ .conference_prob ∧ ElemId.generate_btn ≠ .superbowl_prob ∧
      ElemId.generate_btn ≠ .confidence := by decide
  have hlogNR : ∀ (a b : State) (ev : Event), ev.isReset = false → NoReset a b →
      NoReset a (b.log ev) := fun a b ev hev hab =>
    frame_noReset.trans _ _ _ hab (frame_noReset.log b ev hev)
  rw [generateNewPrediction_eq h post history s hs]
  cases hr : responseData "Failed to generate prediction" post >>= (getProp · "prediction") with
  | error e =>
    refine ⟨s.startGenerate.log (.consoleError "Error generating prediction:" e),
      "ERROR - TRY AGAIN", rfl, ?_, rfl, Or.inr rfl⟩
    exact frame_noReset.log _ _ rfl
  | ok p =>
    simp only
    have hupdNR := updatePredictionDisplay_respects frame_noReset h p
      { s.startGenerate with currentPrediction := p }
    have hupdDom := updatePredictionDisplay_dom h p
      { s.startGenerate with currentPrediction := p } .generate_btn hbtn
    change NoReset _ (updatePredictionDisplay h p { s.startGenerate with currentPrediction := p }).2
      at hupdNR
    have h0 : NoReset s.startGenerate { s.startGenerate with currentPrediction := p } :=
      ⟨[], by simp, by simp⟩
    rcases hu : updatePredictionDisplay h p { s.startGenerate with currentPrediction := p }
      with ⟨o, s2⟩
    rw [hu] at hupdNR hupdDom
    simp only at hupdNR hupdDom
    have h2 : NoReset s.startGenerate s2 := frame_noReset.trans _ _ _ h0 hupdNR
    cases o with
    | thrown e =>
      refine ⟨s2.log (.consoleError "Error generating prediction:" e),
        "ERROR - TRY AGAIN", rfl, hlogNR _ _ _ rfl h2, hupdDom, Or.inr rfl⟩
    | done a =>
      simp only
      have hloadNR := loadPredictionHistory_respects frame_noReset
        (fun s _ => ⟨[], by simp, by simp⟩) h history s2
      have hloadDom := loadPredictionHistory_dom h history s2 .generate_btn (by decide)
      rcases hl : loadPredictionHistory h history s2 with ⟨o3, s3⟩
      rw [hl] at hloadNR hloadDom
      simp only at hloadNR hloadDom
      have h3 : NoReset s.startGenerate s3 := frame_noReset.trans _ _ _ h2 hloadNR
      cases o3 with
      | thrown e =>
        refine ⟨s3.log (.consoleError "Error generating prediction:" e),
          "ERROR - TRY AGAIN", rfl, hlogNR _ _ _ rfl h3, hloadDom.trans hupdDom, Or.inr rfl⟩
      | done a3 =>
        exact ⟨s3, "PREDICTION UPDATED", rfl, h3, hloadDom.trans hupdDom, Or.inl rfl⟩


/-! ## The history container -/

theorem historyIsEmpty_arr (preds : List JSValue) :
    historyIsEmpty (.arr preds) = .ok preds.isEmpty := by
  cases preds with
  | nil => simp [historyIsEmpty, truthy, lengthIsZero, getProp, bind, Except.bind, pure,
      Except.pure]
  | cons p ps =>
    have : ((ps.length : ℚ) + 1 = 0) = False := by
      apply eq_false
      positivity
    simp [historyIsEmpty, truthy, lengthIsZero, getProp, bind, Except.bind, pure,
      Except.pure, this]

theorem mapM_forall₂ (h : Host) : ∀ (preds : List JSValue) (cards : List String),
    preds.mapM (historyItem h) = .ok cards →
    List.Forall₂ (fun pred card => historyItem h pred = .ok card) preds cards := by
  intro preds
  induction preds with
  | nil =>
    intro cards hc
    rw [List.mapM_nil] at hc
    change Except.ok [] = Except.ok cards at hc
    injection hc with hc
    subst hc
    exact List.Forall₂.nil
  | cons p ps ih =>
    intro cards hc
    rw [List.mapM_cons] at hc
    cases hp : historyItem h p with
    | error e =>
      rw [hp] at hc
      change Except.error e = Except.ok cards at hc
      cases hc
    | ok c =>
      cases hps : ps.mapM (historyItem h) with
      | error e =>
        rw [hp, hps] at hc
        change Except.error e = Except.ok cards at hc
        cases hc
      | ok cs =>
        rw [hp, hps] at hc
        change Except.ok (c :: cs) = Except.ok cards at hc
        injection hc with hc
        subst hc
        exact List.Forall₂.cons hp (ih cs hps)

theorem historyItem_record (h : Host) (pred : JSValue) (r : HistoryRecord)
    (hr : IsRecord pred r) : historyItem h pred = .ok (r.card h) := by
  obtain ⟨h0, h1, h2, h3, h4⟩ := hr
  simp [historyItem, h0, dateText, roundedPercent_num _ _ _ _ h1, roundedPercent_num _ _ _ _ h2,
    roundedPercent_num _ _ _ _ h3, roundedPercent_num _ _ _ _ h4, bind, Except.bind, pure,
    Except.pure, HistoryRecord.card]

theorem mapM_records (h : Host) (preds : List JSValue) (recs : List HistoryRecord)
    (hr : List.Forall₂ IsRecord preds recs) :
    preds.mapM (historyItem h) = .ok (recs.map (HistoryRecord.card h)) := by
  induction hr with
  | nil => rfl
  | cons hhead _ ih =>
    rw [List.mapM_cons, historyItem_record h _ _ hhead, ih]
    rfl

theorem updateHistoryDisplay_cards (h : Host) (s : State) (preds : List JSValue)
    (cards : List String) (hs : s.has .history_list) (hne : preds ≠ [])
    (hc : preds.mapM (historyItem h) = .ok cards) :
    updateHistoryDisplay h (.arr preds) s
      = (.done (), s.put .history_list (.innerHTML (String.join cards))) := by
  have hs' := hs
  unfold State.has at hs'
  rw [updateHistoryDisplay_eq]
  have he : preds.isEmpty = false := by
    cases preds with
    | nil => exact absurd rfl hne
    | cons p ps => rfl
  simp only [hs', if_true, historyMarkup, historyIsEmpty_arr, he, historyCards, hc, bind,
    Except.bind, Except.map, Bool.false_eq_true, if_false]

theorem updateHistoryDisplay_placeholder (h : Host) (s : State) (v : JSValue)
    (hs : s.has .history_list) (hv : historyIsEmpty v = .ok true) :
    updateHistoryDisplay h v s = (.done (), s.put .history_list (.innerHTML noHistory)) := by
  have hs' := hs
  unfold State.has at hs'
  rw [updateHistoryDisplay_eq]
  simp [hs', historyMarkup, hv, bind, Except.bind, pure, Except.pure]

theorem put_html_of_has (s : State) (id : ElemId) (t : String) (hs : s.has id) :
    (s.put id (.innerHTML t)).html id = some t := by
  rw [State.put_html]
  simp only [if_true]
  exact html_of_has s id hs t

theorem mapM_error (h : Host) : ∀ (preds : List JSValue) (e : JSError),
    preds.mapM (historyItem h) = .error e → ∃ pred ∈ preds, historyItem h pred = .error e := by
  intro preds
  induction preds with
  | nil =>
    intro e hc
    rw [List.mapM_nil] at hc
    change Except.ok [] = Except.error e at hc
    cases hc
  | cons p ps ih =>
    intro e hc
    rw [List.mapM_cons] at hc
    cases hp : historyItem h p with
    | error e1 =>
      rw [hp] at hc
      change Except.error e1 = Except.error e at hc
      injection hc with hc
      subst hc
      exact ⟨p, List.mem_cons_self _ _, hp⟩
    | ok c =>
      cases hps : ps.mapM (historyItem h) with
      | error e1 =>
        rw [hp, hps] at hc
        change Except.error e1 = Except.error e at hc
        injection hc with hc
        subst hc
        obtain ⟨pred, hmem, hpred⟩ := ih e1 hps
        exact ⟨pred, List.mem_cons_of_mem _ hmem, hpred⟩
      | ok cs =>
        rw [hp, hps] at hc
        change Except.ok (c :: cs) = Except.error e at hc
        cases hc

theorem updateHistoryDisplay_throws (h : Host) (s : State) (preds : List JSValue) (e : JSError)
    (hs : s.has .history_list) (hne : preds ≠ [])
    (hc : preds.mapM (historyItem h) = .error e) :
    updateHistoryDisplay h (.arr preds) s = (.thrown e, s) := by
  have hs' := hs
  unfold State.has at hs'
  rw [updateHistoryDisplay_eq]
  have he : preds.isEmpty = false := by
    cases preds with
    | nil => exact absurd rfl hne
    | cons p ps => rfl
  simp only [hs', if_true, historyMarkup, historyIsEmpty_arr, he, historyCards, hc, bind,
    Except.bind, Except.map, Bool.false_eq_true, if_false]


/-! ## The statistics -/

theorem fixedOrDefault_optional (h : Host) (season : JSValue) (k : String) (digits : Nat)
    (fallback : String) (x : Option JSNumber)
    (hk : getProp season k = .ok (optionalNumber x)) :
    fixedOrDefault h season k digits fallback = .ok (fixedText h digits fallback x) := by
  unfold fixedOrDefault
  rw [hk]
  cases x with
  | none => rfl
  | some n =>
    cases n with
    | nan => rfl
    | posInf => rfl
    | negInf => rfl
    | fin q =>
      by_cases hq : q = 0
      · subst hq
        simp [optionalNumber, truthy, fixedText, bind, Except.bind, pure, Except.pure]
      · by_cases hb : |q| < (10 : ℚ) ^ 21
        · simp [optionalNumber, truthy, fixedText, bind, Except.bind, hq, hb, callToFixed,
            toFixed, fixedNotation]
        · simp [optionalNumber, truthy, fixedText, bind, Except.bind, hq, hb, callToFixed,
            toFixed, fixedNotation]

theorem statsTexts_season (h : Host) (season : JSValue) (f : SeasonStats)
    (hf : IsSeason season f) :
    statsTexts h season = .ok
      (numberToString h f.wins ++ "-" ++ numberToString h f.losses ++ "-"
        ++ numberToString h f.ties,
       fixedText h 3 ".000" f.win_percentage,
       fixedText h 1 "0.0" f.offensive_rating,
       fixedText h 1 "0.0" f.defensive_rating) := by
  obtain ⟨_, h1, h2, h3, h4, h5, h6⟩ := hf
  have hrec : recordText h season = .ok (numberToString h f.wins ++ "-"
      ++ numberToString h f.losses ++ "-" ++ numberToString h f.ties) := by
    simp [recordText, h1, h2, h3, toStringJS, bind, Except.bind, pure, Except.pure]
  simp only [statsTexts, hrec, fixedOrDefault_optional h season _ _ _ _ h4,
    fixedOrDefault_optional h season _ _ _ _ h5, fixedOrDefault_optional h season _ _ _ _ h6,
    bind, Except.bind, pure, Except.pure]

theorem updateStatsDisplay_season (h : Host) (data season : JSValue) (f : SeasonStats)
    (s : State) (hd : getProp data "season" = .ok season) (hf : IsSeason season f) :
    updateStatsDisplay h data s = (.done (), s.showStats
      (numberToString h f.wins ++ "-" ++ numberToString h f.losses ++ "-"
        ++ numberToString h f.ties,
       fixedText h 3 ".000" f.win_percentage,
       fixedText h 1 "0.0" f.offensive_rating,
       fixedText h 1 "0.0" f.defensive_rating)) := by
  have ht : truthy data = true := by
    cases data <;> simp [getProp] at hd <;> first | rfl | skip
    all_goals
      obtain ⟨hs, _⟩ := hf
      subst hd
      simp [truthy] at hs
  rw [updateStatsDisplay_eq]
  simp only [ht, Bool.true_eq_false, if_false, hd, hf.1, statsTexts_season h season f hf]

theorem updateStatsDisplay_no_season (h : Host) (data : JSValue) (s : State)
    (hd : truthy data = false ∨ ∃ v, getProp data "season" = .ok v ∧ truthy v = false) :
    updateStatsDisplay h data s = (.done (), s) := by
  rw [updateStatsDisplay_eq]
  rcases hd with hd | ⟨v, hv, htv⟩
  · simp [hd]
  · by_cases ht : truthy data = false
    · simp [ht]
    · simp [ht, hv, htv]

theorem fracDigits_length : ∀ (f m : Nat), (fracDigits f m).length = f := by
  intro f
  induction f with
  | zero => intro m; rfl
  | succ k ih => intro m; simp [fracDigits, ih]

theorem digitChar_isDigit (d : Nat) (hd : d < 10) : (Nat.digitChar d).isDigit = true := by
  interval_cases d <;> rfl

theorem fracDigits_isDigit : ∀ (f m : Nat), ∀ c ∈ fracDigits f m, c.isDigit = true := by
  intro f
  induction f with
  | zero => intro m c hc; simp [fracDigits] at hc
  | succ k ih =>
    intro m c hc
    simp only [fracDigits, List.mem_append, List.mem_singleton] at hc
    rcases hc with hc | hc
    · exact ih _ c hc
    · subst hc
      exact digitChar_isDigit _ (Nat.mod_lt _ (by norm_num))

theorem repr_length_pos (k : Nat) : 1 ≤ (Nat.repr k).length := by
  have key : ∀ (fuel n : Nat) (ds : List Char), ds.length ≤ (Nat.toDigitsCore 10 fuel n ds).length := by
    intro fuel
    induction fuel with
    | zero => intro n ds; simp [Nat.toDigitsCore]
    | succ f ih =>
      intro n ds
      simp only [Nat.toDigitsCore]
      split
      · simp
      · exact le_trans (by simp) (ih _ _)
  simp only [Nat.repr, Nat.toDigits, String.length, List.asString]
  simp only [Nat.toDigitsCore]
  split
  · simp
  · exact le_trans (by simp) (key _ _ _)

/-- Fixed notation with `f ≥ 1` decimals: an optional sign, the digits of the
whole part, a point and exactly `f` digits, for the integer nearest to
`|q| * 10 ^ f` (the larger one on a tie). -/
theorem toFixedDigits_shape (q : ℚ) (f : Nat) (hf : f ≠ 0) :
    ∃ n : ℕ, (n : ℤ) = ⌊|q| * (10 : ℚ) ^ f + 1 / 2⌋ ∧
      toFixedDigits q f = (if q < 0 then "-" else "") ++
        (Nat.repr (n / 10 ^ f) ++ "." ++ String.mk (fracDigits f (n % 10 ^ f))) ∧
      (fracDigits f (n % 10 ^ f)).length = f ∧
      (∀ c ∈ fracDigits f (n % 10 ^ f), c.isDigit = true) ∧
      1 ≤ (Nat.repr (n / 10 ^ f)).length := by
  have hnn : (0 : ℤ) ≤ ⌊|q| * (10 : ℚ) ^ f + 1 / 2⌋ :=
    Int.floor_nonneg.mpr (by positivity)
  refine ⟨⌊|q| * (10 : ℚ) ^ f + 1 / 2⌋.toNat, Int.toNat_of_nonneg hnn, ?_,
    fracDigits_length _ _, fracDigits_isDigit _ _, repr_length_pos _⟩
  unfold toFixedDigits
  simp only [hf, if_false]
  split <;> simp

/-- Number::toString of a finite number of magnitude `10 ^ 21` or more is the
shortest decimal text the host gives. -/
theorem numberToString_huge (h : Host) (q : ℚ) (hq : (10 : ℚ) ^ 21 ≤ |q|) :
    numberToString h (.fin q) = h.shortestDecimal q := by
  have hnot : ¬ (q.den = 1 ∧ q.num.natAbs ≤ 2 ^ 53) := by
    rintro ⟨hden, hnum⟩
    have hq' : |q| = (q.num.natAbs : ℚ) := by
      have h1 : q = (q.num : ℚ) := by
        have := Rat.num_div_den q
        rw [hden] at this
        simpa using this.symm
      have h2 : ((q.num.natAbs : ℤ) : ℚ) = |(q.num : ℚ)| := by
        rw [Int.natCast_natAbs, Int.cast_abs]
      rw [← Int.cast_natCast, h2]
      exact congrArg abs h1
    rw [hq'] at hq
    have hnum' : (q.num.natAbs : ℚ) ≤ 2 ^ 53 := by exact_mod_cast hnum
    have : (2 : ℚ) ^ 53 < 10 ^ 21 := by norm_num
    linarith
  show (safeIntegerText q).getD (h.shortestDecimal q) = h.shortestDecimal q
  unfold safeIntegerText
  rw [if_neg hnot]
  rfl


/-! ## The two module-level variables -/

theorem responseData_ok (msg : String) (r : Except JSError Response) (data : JSValue)
    (hr : responseData msg r = .ok data) : r = .ok ⟨true, .ok data⟩ := by
  rcases r with e | ⟨ok, j⟩
  · simp [responseData] at hr
  · cases ok
    · simp [responseData] at hr
    · cases j with
      | error e => simp [responseData] at hr
      | ok d =>
        simp [responseData] at hr
        subst hr
        rfl

theorem responseField_ok (msg k : String) (r : Except JSError Response) (v : JSValue)
    (hr : (responseData msg r >>= (getProp · k)) = .ok v) :
    ∃ data, r = .ok ⟨true, .ok data⟩ ∧ getProp data k = .ok v := by
  cases hd : responseData msg r with
  | error e => rw [hd] at hr; cases hr
  | ok data => rw [hd] at hr; exact ⟨data, responseData_ok msg r data hd, hr⟩

theorem showError_slots (t : State) (e : JSError) : SameSlots t (t.showError e) := by
  unfold State.showError SameSlots
  simp

theorem startGenerate_slots (s : State) : SameSlots s s.startGenerate := by
  unfold State.startGenerate SameSlots
  simp

theorem showError_dom (t : State) (e : JSError) (id : ElemId) (hid : id ≠ .generate_btn) :
    (t.showError e).dom id = t.dom id := by
  unfold State.showError
  simp [State.put_dom, hid]

theorem startGenerate_dom (s : State) (id : ElemId) (hid : id ≠ .generate_btn) :
    s.startGenerate.dom id = s.dom id := by
  unfold State.startGenerate
  simp [State.put_dom, hid]

/-- `loadCurrentPrediction` leaves `predictionHistory` alone, and leaves
`currentPrediction` alone or sets it to the `prediction` field of the decoded
response. -/
theorem loadCurrentPrediction_slots (h : Host) (r : Except JSError Response) (s : State) :
    ((loadCurrentPrediction h r s).2.currentPrediction = s.currentPrediction ∨
      ∃ data, r = .ok ⟨true, .ok data⟩ ∧
        getProp data "prediction" = .ok (loadCurrentPrediction h r s).2.currentPrediction) ∧
    (loadCurrentPrediction h r s).2.predictionHistory = s.predictionHistory := by
  rw [loadCurrentPrediction_eq]
  cases hr : responseData "Failed to fetch prediction" r >>= (getProp · "prediction") with
  | error e => exact ⟨Or.inl rfl, rfl⟩
  | ok p =>
    obtain ⟨data, hdata, hp⟩ := responseField_ok _ _ r p hr
    have hfr := updatePredictionDisplay_respects frame_sameSlots h p
      { s.log (.request "GET" (API_URL ++ "/predictions/current")) with currentPrediction := p }
    simp only
    rcases hu : updatePredictionDisplay h p
      { s.log (.request "GET" (API_URL ++ "/predictions/current")) with currentPrediction := p }
      with ⟨o, s2⟩
    rw [hu] at hfr
    obtain ⟨hc, hh⟩ := hfr
    simp only at hc hh
    cases o with
    | done a => exact ⟨Or.inr ⟨data, hdata, by rw [hp]; exact congrArg _ hc.symm⟩, hh⟩
    | thrown e => exact ⟨Or.inr ⟨data, hdata, by rw [hp]; exact congrArg _ hc.symm⟩, hh⟩

/-- `loadPredictionHistory` leaves `currentPrediction` alone, and leaves
`predictionHistory` alone or sets it to the `predictions` field of the decoded
response. -/
theorem loadPredictionHistory_slots (h : Host) (r : Except JSError Response) (s : State) :
    ((loadPredictionHistory h r s).2.predictionHistory = s.predictionHistory ∨
      ∃ data, r = .ok ⟨true, .ok data⟩ ∧
        getProp data "predictions" = .ok (loadPredictionHistory h r s).2.predictionHistory) ∧
    (loadPredictionHistory h r s).2.currentPrediction = s.currentPrediction := by
  rw [loadPredictionHistory_eq]
  cases hr : responseData "Failed to fetch history" r >>= (getProp · "predictions") with
  | error e => exact ⟨Or.inl rfl, rfl⟩
  | ok p =>
    obtain ⟨data, hdata, hp⟩ := responseField_ok _ _ r p hr
    have hfr := updateHistoryDisplay_respects frame_sameSlots h p
      { s.log (.request "GET" (API_URL ++ "/predictions/history?limit=10")) with
        predictionHistory := p }
    simp only
    rcases hu : updateHistoryDisplay h p
      { s.log (.request "GET" (API_URL ++ "/predictions/history?limit=10")) with
        predictionHistory := p }
      with ⟨o, s2⟩
    rw [hu] at hfr
    obtain ⟨hc, hh⟩ := hfr
    simp only at hc hh
    cases o with
    | done a => exact ⟨Or.inr ⟨data, hdata, by rw [hp]; exact congrArg _ hh.symm⟩, hc⟩
    | thrown e => exact ⟨Or.inr ⟨data, hdata, by rw [hp]; exact congrArg _ hh.symm⟩, hc⟩

/-- A failed request: the load throws the error and changes nothing but the trace. -/
theorem loadCurrentPrediction_failed (h : Host) (r : Except JSError Response) (s : State)
    (e : JSError) (hr : responseData "Failed to fetch prediction" r = .error e) :
    loadCurrentPrediction h r s =
      (.thrown e, (s.log (.request "GET" (API_URL ++ "/predictions/current"))).log
        (.consoleError "Error loading prediction:" e)) := by
  rw [loadCurrentPrediction_eq]
  simp only [bind, Except.bind, hr]

theorem loadPredictionHistory_failed (h : Host) (r : Except JSError Response) (s : State)
    (e : JSError) (hr : responseData "Failed to fetch history" r = .error e) :
    loadPredictionHistory h r s =
      (.thrown e, (s.log (.request "GET" (API_URL ++ "/predictions/history?limit=10"))).log
        (.consoleError "Error loading history:" e)) := by
  rw [loadPredictionHistory_eq]
  simp only [bind, Except.bind, hr]

theorem generateNewPrediction_failed (h : Host) (post history : Except JSError Response)
    (s : State) (e : JSError) (hs : s.has .generate_btn)
    (hr : responseData "Failed to generate prediction" post = .error e) :
    generateNewPrediction h post history s = (.done (), s.startGenerate.showError e) := by
  rw [generateNewPrediction_eq h post history s hs]
  simp only [bind, Except.bind, hr]

theorem has_or_absent (s : State) (id : ElemId) : s.has id ∨ s.dom id = none := by
  unfold State.has
  cases s.dom id
  · exact Or.inr rfl
  · exact Or.inl rfl

/-- `generateNewPrediction` leaves each variable alone or sets it to the field
of the decoded response that belongs to it. -/
theorem generateNewPrediction_slots (h : Host) (post history : Except JSError Response)
    (s : State) :
    ((generateNewPrediction h post history s).2.currentPrediction = s.currentPrediction ∨
      ∃ data, post = .ok ⟨true, .ok data⟩ ∧ getProp data "prediction"
        = .ok (generateNewPrediction h post history s).2.currentPrediction) ∧
    ((generateNewPrediction h post history s).2.predictionHistory = s.predictionHistory ∨
      ∃ data, history = .ok ⟨true, .ok data⟩ ∧ getProp data "predictions"
        = .ok (generateNewPrediction h post history s).2.predictionHistory) := by
  rcases has_or_absent s .generate_btn with hs | hs
  · rw [generateNewPrediction_eq h post history s hs]
    have h0 := startGenerate_slots s
    cases hr : responseData "Failed to generate prediction" post >>= (getProp · "prediction") with
    | error e =>
      have h1 := showError_slots s.startGenerate e
      exact ⟨Or.inl (h1.1.trans h0.1), Or.inl (h1.2.trans h0.2)⟩
    | ok p =>
      obtain ⟨data, hdata, hp⟩ := responseField_ok _ _ post p hr
      have hfr := updatePredictionDisplay_respects frame_sameSlots h p
        { s.startGenerate with currentPrediction := p }
      simp only
      rcases hu : updatePredictionDisplay h p { s.startGenerate with currentPrediction := p }
        with ⟨o, s2⟩
      rw [hu] at hfr
      obtain ⟨hc, hh⟩ := hfr
      simp only at hc hh
      cases o with
      | thrown e =>
        have h1 := showError_slots s2 e
        refine ⟨Or.inr ⟨data, hdata, ?_⟩, Or.inl ?_⟩
        · rw [hp]; exact congrArg _ (h1.1.trans hc).symm
        · exact h1.2.trans (hh.trans h0.2)
      | done a =>
        simp only
        have hl := loadPredictionHistory_slots h history s2
        rcases hlo : loadPredictionHistory h history s2 with ⟨o3, s3⟩
        rw [hlo] at hl
        simp only at hl
        obtain ⟨hl1, hl2⟩ := hl
        have hhist : s3.predictionHistory = s.predictionHistory ∨
            ∃ data, history = .ok ⟨true, .ok data⟩ ∧
              getProp data "predictions" = .ok s3.predictionHistory := by
          rcases hl1 with hl1 | hl1
          · exact Or.inl (hl1.trans (hh.trans h0.2))
          · exact Or.inr hl1
        cases o3 with
        | thrown e =>
          have h1 := showError_slots s3 e
          refine ⟨Or.inr ⟨data, hdata, ?_⟩, ?_⟩
          · rw [hp]; exact congrArg _ (h1.1.trans (hl2.trans hc)).symm
          · rw [show (s3.showError e).predictionHistory = s3.predictionHistory from h1.2]
            exact hhist
        | done a3 =>
          refine ⟨Or.inr ⟨data, hdata, ?_⟩, ?_⟩
          · rw [hp]
            simp only [State.log_currentPrediction, State.put_currentPrediction]
            exact congrArg _ (hl2.trans hc).symm
          · simp only [State.log_predictionHistory, State.put_predictionHistory]
            exact hhist
  · rw [generateNewPrediction_absent h post history s hs]
    exact ⟨Or.inl rfl, Or.inl rfl⟩


/-- `initializeApp` leaves each variable alone or sets it to the field of the
decoded response that belongs to it. -/
theorem initializeApp_slots (h : Host) (clock : Nat → Int)
    (r1 r2 r3 : Except JSError Response) (s : State) :
    (initializeApp h clock r1 r2 r3 s).2.currentPrediction
      = (loadCurrentPrediction h r1 s).2.currentPrediction ∧
    ((initializeApp h clock r1 r2 r3 s).2.predictionHistory = s.predictionHistory ∨
      ∃ data, r3 = .ok ⟨true, .ok data⟩ ∧ getProp data "predictions"
        = .ok (initializeApp h clock r1 r2 r3 s).2.predictionHistory) ∧
    ((loadCurrentPrediction h r1 s).1 = .done () →
      requestFails r2 = true ∨ requestFails r3 = true →
      (initializeApp h clock r1 r2 r3 s).2.predictionHistory = s.predictionHistory) := by
  have hmock : ∀ t : State, SameSlots t (showMockData h clock t).2 :=
    fun t => showMockData_respects frame_sameSlots h clock t
  have h1 := loadCurrentPrediction_slots h r1 s
  rw [initializeApp_eq]
  rcases hl1 : loadCurrentPrediction h r1 s with ⟨o1, s1⟩
  rw [hl1] at h1
  simp only at h1
  cases o1 with
  | thrown e =>
    have hm := hmock (s1.log (.consoleError "Error initializing app:" e))
    refine ⟨hm.1, Or.inl (hm.2.trans h1.2), fun hd => by cases hd⟩
  | done a =>
    simp only
    have h2 := loadSeasonStats_respects frame_sameSlots h r2 s1
    rcases hl2 : loadSeasonStats h r2 s1 with ⟨o2, s2⟩
    rw [hl2] at h2
    obtain ⟨h2c, h2h⟩ := h2
    simp only at h2c h2h
    cases o2 with
    | thrown e =>
      have hm := hmock (s2.log (.consoleError "Error initializing app:" e))
      exact ⟨hm.1.trans h2c, Or.inl (hm.2.trans (h2h.trans h1.2)),
        fun _ _ => hm.2.trans (h2h.trans h1.2)⟩
    | done a2 =>
      simp only
      have h3 := loadPredictionHistory_slots h r3 s2
      have h3f : requestFails r3 = true →
          (loadPredictionHistory h r3 s2).2.predictionHistory = s2.predictionHistory := by
        intro hf
        obtain ⟨e, he⟩ := (requestFails_iff "Failed to fetch history" r3).1 hf
        rw [loadPredictionHistory_failed h r3 s2 e he]
        rfl
      have h2f : requestFails r2 = true → False := by
        intro hf
        obtain ⟨e, he⟩ := loadSeasonStats_fails h r2 s1 hf
        rw [hl2] at he
        cases he
      rcases hl3 : loadPredictionHistory h r3 s2 with ⟨o3, s3⟩
      rw [hl3] at h3 h3f
      simp only at h3 h3f
      obtain ⟨h3h, h3c⟩ := h3
      have hhist : s3.predictionHistory = s.predictionHistory ∨
          ∃ data, r3 = .ok ⟨true, .ok data⟩ ∧ getProp data "predictions"
            = .ok s3.predictionHistory := by
        rcases h3h with h3h | h3h
        · exact Or.inl (h3h.trans (h2h.trans h1.2))
        · exact Or.inr h3h
      have hprior : requestFails r2 = true ∨ requestFails r3 = true →
          s3.predictionHistory = s.predictionHistory := by
        rintro (hf | hf)
        · exact (h2f hf).elim
        · exact (h3f hf).trans (h2h.trans h1.2)
      cases o3 with
      | thrown e =>
        have hm := hmock (s3.log (.consoleError "Error initializing app:" e))
        refine ⟨hm.1.trans (h3c.trans h2c), ?_, fun _ hf => hm.2.trans (hprior hf)⟩
        rw [show (showMockData h clock (s3.log (.consoleError "Error initializing app:" e))).2.predictionHistory
          = s3.predictionHistory from hm.2]
        exact hhist
      | done a3 =>
        exact ⟨h3c.trans h2c, hhist, fun _ hf => hprior hf⟩


/-! ## When the steps of `generateNewPrediction` complete -/

theorem updatePredictionDisplay_done_iff (h : Host) (p : JSValue) (s : State) :
    (updatePredictionDisplay h p s).1 = .done () ↔
      (truthy p = false ∨ ∃ x, predictionPercents h p = .ok x) := by
  rw [updatePredictionDisplay_eq]
  by_cases ht : truthy p = false
  · simp [ht]
  · cases hx : predictionPercents h p with
    | error e => simp [ht]
    | ok x => simp [ht]

theorem updateHistoryDisplay_done_iff (h : Host) (v : JSValue) (s : State) :
    (updateHistoryDisplay h v s).1 = .done () ↔
      (s.has .history_list → ∃ html, historyMarkup h v = .ok html) := by
  rw [updateHistoryDisplay_eq]
  unfold State.has
  by_cases hp : (s.dom .history_list).isSome = true
  · cases hx : historyMarkup h v with
    | error e => simp [hp]
    | ok x => simp [hp]
  · simp [hp]

theorem responseField_ok_iff (msg k : String) (r : Except JSError Response) (v : JSValue) :
    (responseData msg r >>= (getProp · k)) = .ok v ↔
      ∃ data, r = .ok ⟨true, .ok data⟩ ∧ getProp data k = .ok v := by
  constructor
  · exact responseField_ok msg k r v
  · rintro ⟨data, hr, hv⟩
    subst hr
    exact hv

theorem loadPredictionHistory_done_iff (h : Host) (r : Except JSError Response) (s : State) :
    (loadPredictionHistory h r s).1 = .done () ↔ HistorySucceeds h s r := by
  rw [loadPredictionHistory_eq]
  unfold HistorySucceeds
  cases hr : responseData "Failed to fetch history" r >>= (getProp · "predictions") with
  | error e =>
    simp only
    constructor
    · intro hc; cases hc
    · rintro ⟨data, v, h1, h2, _⟩
      have := (responseField_ok_iff "Failed to fetch history" "predictions" r v).2 ⟨data, h1, h2⟩
      rw [hr] at this
      cases this
  | ok v =>
    obtain ⟨data, hdata, hv⟩ := responseField_ok _ _ r v hr
    have hd := updateHistoryDisplay_done_iff h v
      { s.log (.request "GET" (API_URL ++ "/predictions/history?limit=10")) with
        predictionHistory := v }
    simp only
    rcases hu : updateHistoryDisplay h v
      { s.log (.request "GET" (API_URL ++ "/predictions/history?limit=10")) with
        predictionHistory := v } with ⟨o, s2⟩
    rw [hu] at hd
    simp only at hd
    have hmark : (s.has .history_list → ∃ html, historyMarkup h v = .ok html) ↔
        ∃ data v', r = .ok ⟨true, .ok data⟩ ∧ getProp data "predictions" = .ok v' ∧
          (s.has .history_list → ∃ html, historyMarkup h v' = .ok html) := by
      constructor
      · intro hm; exact ⟨data, v, hdata, hv, hm⟩
      · rintro ⟨data', v', h1, h2, h3⟩
        have : v' = v := by
          rw [hdata] at h1
          injection h1 with h1
          injection h1 with _ h1
          injection h1 with h1
          subst h1
          rw [hv] at h2
          injection h2 with h2
          exact h2.symm
        subst this
        exact h3
    cases o with
    | done a => exact ⟨fun _ => hmark.1 (hd.1 rfl), fun _ => rfl⟩
    | thrown e =>
      constructor
      · intro hc; cases hc
      · intro hm
        have := hd.2 (hmark.2 hm)
        cases this


/-- The final label of `generateNewPrediction`. -/
theorem generateNewPrediction_label (h : Host) (post history : Except JSError Response)
    (s : State) (hs : s.has .generate_btn) :
    (PostSucceeds h post ∧ HistorySucceeds h s history →
      (generateNewPrediction h post history s).2.text .generate_btn
        = some "PREDICTION UPDATED") ∧
    (¬ (PostSucceeds h post ∧ HistorySucceeds h s history) →
      (generateNewPrediction h post history s).2.text .generate_btn
        = some "ERROR - TRY AGAIN") := by
  have herr : ∀ (t : State) (e : JSError), t.has .generate_btn →
      (t.showError e).text .generate_btn = some "ERROR - TRY AGAIN" := by
    intro t e ht
    unfold State.showError
    rw [State.log_text, State.put_text]
    simp only [if_true]
    exact text_of_has _ _ ((State.log_has _ _ _).2 ht) _
  have hs0 : s.startGenerate.has .generate_btn := (State.startGenerate_has _ _).2 hs
  rw [generateNewPrediction_eq h post history s hs]
  cases hr : responseData "Failed to generate prediction" post >>= (getProp · "prediction") with
  | error e =>
    simp only
    have hno : ¬ PostSucceeds h post := by
      rintro ⟨data, P, h1, h2, _⟩
      have := (responseField_ok_iff "Failed to generate prediction" "prediction" post P).2
        ⟨data, h1, h2⟩
      rw [hr] at this
      cases this
    exact ⟨fun hboth => absurd hboth.1 hno, fun _ => herr _ e hs0⟩
  | ok p =>
    obtain ⟨data, hdata, hp⟩ := responseField_ok _ _ post p hr
    have hpost : PostSucceeds h post ↔
        (truthy p = false ∨ ∃ x, predictionPercents h p = .ok x) := by
      constructor
      · rintro ⟨data', P, h1, h2, h3⟩
        have : P = p := by
          rw [hdata] at h1
          injection h1 with h1
          injection h1 with _ h1
          injection h1 with h1
          subst h1
          rw [hp] at h2
          injection h2 with h2
          exact h2.symm
        subst this
        exact h3
      · intro h3; exact ⟨data, p, hdata, hp, h3⟩
    have hd := updatePredictionDisplay_done_iff h p { s.startGenerate with currentPrediction := p }
    have hpage := updatePredictionDisplay_respects frame_samePage h p
      { s.startGenerate with currentPrediction := p }
    simp only
    rcases hu : updatePredictionDisplay h p { s.startGenerate with currentPrediction := p }
      with ⟨o, s2⟩
    rw [hu] at hd hpage
    simp only at hd
    have hpage2 : SamePage s s2 := by
      intro id
      have h1 := hpage id
      have h2 : (s.startGenerate.dom id).isSome = (s.dom id).isSome := by
        have := (State.startGenerate_has s id)
        unfold State.has at this
        cases ha : (s.startGenerate.dom id).isSome <;> cases hb : (s.dom id).isSome <;>
          simp_all
      exact h1.trans h2
    have hs2 : s2.has .generate_btn := (samePage_has hpage2 _).2 hs
    cases o with
    | thrown e =>
      have hno : ¬ PostSucceeds h post := by
        intro hc
        have := hd.2 (hpost.1 hc)
        cases this
      exact ⟨fun hboth => absurd hboth.1 hno, fun _ => herr _ e hs2⟩
    | done a =>
      have hyes : PostSucceeds h post := hpost.2 (hd.1 rfl)
      simp only
      have hl := loadPredictionHistory_done_iff h history s2
      have hlpage := loadPredictionHistory_respects frame_samePage (fun _ _ _ => rfl) h history s2
      have hhist : HistorySucceeds h s2 history ↔ HistorySucceeds h s history := by
        unfold HistorySucceeds
        rw [samePage_has hpage2 .history_list]
      rcases hlo : loadPredictionHistory h history s2 with ⟨o3, s3⟩
      rw [hlo] at hl hlpage
      simp only at hl
      have hs3 : s3.has .generate_btn := (samePage_has hlpage _).2 hs2
      cases o3 with
      | thrown e =>
        have hno : ¬ HistorySucceeds h s history := by
          intro hc
          have := hl.2 (hhist.2 hc)
          cases this
        exact ⟨fun hboth => absurd hboth.2 hno, fun _ => herr _ e hs3⟩
      | done a3 =>
        have hyes2 : HistorySucceeds h s history := hhist.1 (hl.1 rfl)
        refine ⟨fun _ => ?_, fun hneg => absurd ⟨hyes, hyes2⟩ hneg⟩
        rw [State.log_text, State.put_text]
        simp only [if_true]
        exact text_of_has _ _ hs3 _


theorem text_of_dom {s t : State} {id : ElemId} (hd : t.dom id = s.dom id) :
    t.text id = s.text id := by
  unfold State.text
  rw [hd]


/-! ## What `generateNewPrediction` assigns -/

/-- Once the history request has succeeded and the `predictions` field is read,
`predictionHistory` holds it, whether or not the rendering throws. -/
theorem loadPredictionHistory_assigned (h : Host) (r : Except JSError Response) (s : State)
    (data H : JSValue) (hr : r = .ok ⟨true, .ok data⟩)
    (hH : getProp data "predictions" = .ok H) :
    (loadPredictionHistory h r s).2.predictionHistory = H := by
  rw [loadPredictionHistory_eq]
  have hfield : (responseData "Failed to fetch history" r >>= (getProp · "predictions"))
      = .ok H := (responseField_ok_iff _ _ r H).2 ⟨data, hr, hH⟩
  rw [hfield]
  have hfr := updateHistoryDisplay_respects frame_sameSlots h H
    { s.log (.request "GET" (API_URL ++ "/predictions/history?limit=10")) with
      predictionHistory := H }
  simp only
  rcases hu : updateHistoryDisplay h H
    { s.log (.request "GET" (API_URL ++ "/predictions/history?limit=10")) with
      predictionHistory := H } with ⟨o, s2⟩
  rw [hu] at hfr
  cases o with
  | done a => exact hfr.2
  | thrown e => exact hfr.2

/-- When the POST step completes and the history request succeeds, both
variables hold the fields of the two responses, whether or not the rendering of
the history throws. -/
theorem generateNewPrediction_assigned (h : Host) (post history : Except JSError Response)
    (s : State) (hs : s.has .generate_btn) (data P data2 H : JSValue)
    (hpost : post = .ok ⟨true, .ok data⟩) (hP : getProp data "prediction" = .ok P)
    (hdone : (updatePredictionDisplay h P s).1 = .done ())
    (hhist : history = .ok ⟨true, .ok data2⟩) (hH : getProp data2 "predictions" = .ok H) :
    (generateNewPrediction h post history s).2.currentPrediction = P ∧
    (generateNewPrediction h post history s).2.predictionHistory = H := by
  rw [generateNewPrediction_eq h post history s hs]
  have hfield : (responseData "Failed to generate prediction" post
      >>= (getProp · "prediction")) = .ok P :=
    (responseField_ok_iff _ _ post P).2 ⟨data, hpost, hP⟩
  rw [hfield]
  simp only
  have hd := (updatePredictionDisplay_done_iff h P
    { s.startGenerate with currentPrediction := P }).2
    ((updatePredictionDisplay_done_iff h P s).1 hdone)
  have hfr := updatePredictionDisplay_respects frame_sameSlots h P
    { s.startGenerate with currentPrediction := P }
  rcases hu : updatePredictionDisplay h P { s.startGenerate with currentPrediction := P }
    with ⟨o, s2⟩
  rw [hu] at hd hfr
  cases o with
  | thrown e => cases hd
  | done a =>
    simp only
    have hl := loadPredictionHistory_assigned h history s2 data2 H hhist hH
    have hl2 := (loadPredictionHistory_slots h history s2).2
    rcases hlo : loadPredictionHistory h history s2 with ⟨o3, s3⟩
    rw [hlo] at hl hl2
    cases o3 with
    | thrown e =>
      exact ⟨((showError_slots s3 e).1).trans (hl2.trans hfr.1),
        ((showError_slots s3 e).2).trans hl⟩
    | done a3 =>
      simp only [State.log_currentPrediction, State.put_currentPrediction,
        State.log_predictionHistory, State.put_predictionHistory]
      exact ⟨hl2.trans hfr.1, hl⟩

theorem postSucceeds_iff (h : Host) (post : Except JSError Response) (s : State) :
    PostSucceeds h post ↔
      ∃ data P, post = .ok ⟨true, .ok data⟩ ∧ getProp data "prediction" = .ok P ∧
        (updatePredictionDisplay h P s).1 = .done () := by
  unfold PostSucceeds
  constructor
  · rintro ⟨data, P, h1, h2, h3⟩
    exact ⟨data, P, h1, h2, (updatePredictionDisplay_done_iff h P s).2 h3⟩
  · rintro ⟨data, P, h1, h2, h3⟩
    exact ⟨data, P, h1, h2, (updatePredictionDisplay_done_iff h P s).1 h3⟩

theorem historySucceeds_iff (h : Host) (history : Except JSError Response) (s : State) :
    HistorySucceeds h s history ↔
      ∃ data H, history = .ok ⟨true, .ok data⟩ ∧ getProp data "predictions" = .ok H ∧
        (updateHistoryDisplay h H s).1 = .done () := by
  unfold HistorySucceeds
  constructor
  · rintro ⟨data, H, h1, h2, h3⟩
    exact ⟨data, H, h1, h2, (updateHistoryDisplay_done_iff h H s).2 h3⟩
  · rintro ⟨data, H, h1, h2, h3⟩
    exact ⟨data, H, h1, h2, (updateHistoryDisplay_done_iff h H s).1 h3⟩

/-- A prediction with five numeric fields renders. -/
theorem updatePredictionDisplay_numbers (h : Host) (P : JSValue) (s : State)
    (n1 n2 n3 n4 n5 : JSNumber)
    (g1 : getProp P "playoff_probability" = .ok (.num n1))
    (g2 : getProp P "division_probability" = .ok (.num n2))
    (g3 : getProp P "conference_probability" = .ok (.num n3))
    (g4 : getProp P "superbowl_probability" = .ok (.num n4))
    (g5 : getProp P "confidence_score" = .ok (.num n5)) :
    (updatePredictionDisplay h P s).1 = .done () := by
  rw [updatePredictionDisplay_done_iff]
  right
  refine ⟨(roundTimes100 n1, roundTimes100 n2, roundTimes100 n3, roundTimes100 n4,
    roundTimes100 n5), ?_⟩
  simp [predictionPercents, roundedPercent_num _ _ _ _ g1, roundedPercent_num _ _ _ _ g2,
    roundedPercent_num _ _ _ _ g3, roundedPercent_num _ _ _ _ g4,
    roundedPercent_num _ _ _ _ g5, bind, Except.bind, pure, Except.pure]

/-- A missing or empty history, and an array of records, renders. -/
theorem updateHistoryDisplay_records (h : Host) (H : JSValue) (s : State)
    (hH : H = .undefined ∨ H = .null ∨
      ∃ preds recs, H = .arr preds ∧ List.Forall₂ IsRecord preds recs) :
    (updateHistoryDisplay h H s).1 = .done () := by
  rw [updateHistoryDisplay_done_iff]
  intro _
  rcases hH with hH | hH | ⟨preds, recs, hH, hr⟩
  · subst hH
    exact ⟨noHistory, rfl⟩
  · subst hH
    exact ⟨noHistory, rfl⟩
  · subst hH
    cases preds with
    | nil =>
      refine ⟨noHistory, ?_⟩
      simp [historyMarkup, historyIsEmpty_arr, bind, Except.bind, pure, Except.pure]
    | cons p ps =>
      have hc := mapM_records h (p :: ps) recs hr
      refine ⟨String.join (recs.map (HistoryRecord.card h)), ?_⟩
      simp only [historyMarkup, historyIsEmpty_arr, historyCards, hc, bind, Except.bind,
        Except.map, List.isEmpty_cons, Bool.false_eq_true, if_false]


/-! ## A page that lacks some elements -/

theorem State.restrict_dom (keep : ElemId → Bool) (s : State) (id : ElemId) :
    (s.restrict keep).dom id = if keep id then s.dom id else none := rfl

theorem State.restrict_log (keep : ElemId → Bool) (s : State) (ev : Event)
    (hev : ev.within keep = true) :
    (s.log ev).restrict keep = (s.restrict keep).log ev := by
  unfold State.restrict State.log
  simp [List.filter_append, hev]

theorem State.restrict_log_request (keep : ElemId → Bool) (s : State) (method url : String) :
    (s.log (.request method url)).restrict keep = (s.restrict keep).log (.request method url) :=
  State.restrict_log keep s _ rfl

theorem State.restrict_log_consoleError (keep : ElemId → Bool) (s : State) (label : String)
    (e : JSError) :
    (s.log (.consoleError label e)).restrict keep
      = (s.restrict keep).log (.consoleError label e) :=
  State.restrict_log keep s _ rfl

theorem State.restrict_put (keep : ElemId → Bool) (s : State) (id : ElemId) (w : DomWrite) :
    (s.restrict keep).put id w = (s.put id w).restrict keep := by
  unfold State.put assignIfPresent
  by_cases hk : keep id = true
  · cases hd : s.dom id with
    | none =>
      have : (s.restrict keep).dom id = none := by rw [State.restrict_dom, hk, if_pos rfl, hd]
      simp only [this, hd]
    | some e =>
      have : (s.restrict keep).dom id = some e := by rw [State.restrict_dom, hk, if_pos rfl, hd]
      simp only [this, hd]
      unfold State.restrict
      simp only [List.filter_append, List.filter_cons, List.filter_nil, Event.within, hk, if_true]
      congr 1
      funext j
      unfold restrictDom Function.update
      by_cases hj : j = id
      · subst hj; simp [hk]
      · simp [hj]
  · simp only [Bool.not_eq_true] at hk
    have : (s.restrict keep).dom id = none := by
      rw [State.restrict_dom, hk]
      rfl
    simp only [this]
    cases hd : s.dom id with
    | none => rfl
    | some e =>
      simp only
      unfold State.restrict
      simp only [List.filter_append, List.filter_cons, List.filter_nil, Event.within, hk,
        Bool.false_eq_true, if_false, List.append_nil]
      congr 1
      funext j
      unfold restrictDom Function.update
      by_cases hj : j = id
      · subst hj; simp [hk]
      · simp [hj]

theorem commutes_pure (keep : ElemId → Bool) {α : Type} (a : α) :
    Commutes keep (pure a : Eff α) := fun _ => rfl

theorem commutes_throw (keep : ElemId → Bool) {α : Type} (e : JSError) :
    Commutes keep (Eff.throw e : Eff α) := fun _ => rfl

theorem commutes_eval (keep : ElemId → Bool) {α : Type} (x : Except JSError α) :
    Commutes keep (Eff.eval x) := by
  intro s; cases x <;> rfl

theorem commutes_bind (keep : ElemId → Bool) {α β : Type} {m : Eff α} {f : α → Eff β}
    (hm : Commutes keep m) (hf : ∀ a, Commutes keep (f a)) : Commutes keep (m >>= f) := by
  intro s
  show Eff.bind m f (s.restrict keep) = ((Eff.bind m f s).1, (Eff.bind m f s).2.restrict keep)
  unfold Eff.bind
  rw [hm s]
  rcases m s with ⟨o, s1⟩
  cases o with
  | done a => exact hf a s1
  | thrown e => rfl

theorem commutes_tryCatch (keep : ElemId → Bool) {α : Type} {m : Eff α} {f : JSError → Eff α}
    (hm : Commutes keep m) (hf : ∀ e, Commutes keep (f e)) :
    Commutes keep (Eff.tryCatch m f) := by
  intro s
  unfold Eff.tryCatch
  rw [hm s]
  rcases m s with ⟨o, s1⟩
  cases o with
  | done a => rfl
  | thrown e => exact hf e s1

theorem commutes_ite (keep : ElemId → Bool) {α : Type} {c : Prop} [Decidable c]
    {a b : Eff α} (ha : Commutes keep a) (hb : Commutes keep b) :
    Commutes keep (if c then a else b) := by
  split <;> assumption

theorem commutes_emit (keep : ElemId → Bool) (ev : Event) (hev : ev.within keep = true) :
    Commutes keep (emit ev) := by
  intro s
  rw [emit_eq, emit_eq, State.restrict_log keep s ev hev]

theorem commutes_assignIfPresent (keep : ElemId → Bool) (id : ElemId) (w : DomWrite) :
    Commutes keep (assignIfPresent id w) := by
  intro s
  rw [assignIfPresent_eq, assignIfPresent_eq, State.restrict_put]

theorem commutes_assign (keep : ElemId → Bool) (id : ElemId) (w : DomWrite)
    (hk : keep id = true) : Commutes keep (assign id w) := by
  intro s
  rcases has_or_absent s id with hs | hs
  · have hs' : (s.restrict keep).has id := by
      unfold State.has at hs ⊢
      rw [State.restrict_dom, hk, if_pos rfl]
      exact hs
    rw [assign_of_has _ _ _ hs, assign_of_has _ _ _ hs', State.restrict_put]
  · have hs' : (s.restrict keep).dom id = none := by
      rw [State.restrict_dom, hk, if_pos rfl]
      exact hs
    rw [assign_of_absent _ _ _ hs, assign_of_absent _ _ _ hs']

theorem commutes_present (keep : ElemId → Bool) (id : ElemId) (hk : keep id = true) :
    Commutes keep (present id) := by
  intro s
  unfold Cowboys.present
  rw [State.restrict_dom, hk, if_pos rfl]

theorem commutes_setCurrentPrediction (keep : ElemId → Bool) (v : JSValue) :
    Commutes keep (setCurrentPrediction v) := fun _ => rfl

theorem commutes_setPredictionHistory (keep : ElemId → Bool) (v : JSValue) :
    Commutes keep (setPredictionHistory v) := fun _ => rfl

theorem commutes_getCurrentPrediction (keep : ElemId → Bool) :
    Commutes keep getCurrentPrediction := fun _ => rfl

theorem commutes_getPredictionHistory (keep : ElemId → Bool) :
    Commutes keep getPredictionHistory := fun _ => rfl

theorem updatePredictionDisplay_commutes (keep : ElemId → Bool) (h : Host) (p : JSValue) :
    Commutes keep (updatePredictionDisplay h p) := by
  unfold updatePredictionDisplay
  repeat (first
    | exact commutes_pure keep _
    | exact commutes_eval keep _
    | exact commutes_assignIfPresent keep _ _
    | exact commutes_emit keep _ rfl
    | refine commutes_bind keep ?_ (fun _ => ?_)
    | refine commutes_ite keep ?_ ?_
    | split
    | dsimp only)

theorem updateStatsDisplay_commutes (keep : ElemId → Bool) (h : Host) (data : JSValue) :
    Commutes keep (updateStatsDisplay h data) := by
  unfold updateStatsDisplay
  repeat (first
    | exact commutes_pure keep _
    | exact commutes_eval keep _
    | exact commutes_assignIfPresent keep _ _
    | exact commutes_emit keep _ rfl
    | refine commutes_bind keep ?_ (fun _ => ?_)
    | refine commutes_ite keep ?_ ?_
    | split
    | dsimp only)

theorem fetch_commutes (keep : ElemId → Bool) (method url : String)
    (r : Except JSError Response) : Commutes keep (fetch method url r) := by
  unfold fetch
  exact commutes_bind keep (commutes_emit keep _ rfl) (fun _ => commutes_eval keep _)

/-- On the state `updateHistoryDisplay` always commutes with the restriction;
on the outcome it does when the container is kept or the markup can be
computed. -/
theorem updateHistoryDisplay_restrict (keep : ElemId → Bool) (h : Host) (v : JSValue)
    (s : State) :
    (updateHistoryDisplay h v (s.restrict keep)).2 = (updateHistoryDisplay h v s).2.restrict keep ∧
    ((updateHistoryDisplay h v s).1 = .done () →
      (updateHistoryDisplay h v (s.restrict keep)).1 = .done ()) ∧
    (keep .history_list = true ∨ (∃ html, historyMarkup h v = .ok html) →
      (updateHistoryDisplay h v (s.restrict keep)).1 = (updateHistoryDisplay h v s).1) := by
  rw [updateHistoryDisplay_eq, updateHistoryDisplay_eq, State.restrict_dom]
  by_cases hk : keep .history_list = true
  · simp only [hk, if_true]
    by_cases hp : (s.dom .history_list).isSome = true
    · cases historyMarkup h v <;> simp [hp, State.restrict_put]
    · simp [hp]
  · simp only [hk, Bool.false_eq_true, if_false, Option.isSome_none]
    have hput : ∀ html, (s.put .history_list (.innerHTML html)).restrict keep
        = s.restrict keep := by
      intro html
      rw [← State.restrict_put]
      unfold State.put assignIfPresent
      have : (s.restrict keep).dom .history_list = none := by
        rw [State.restrict_dom]
        simp [hk]
      simp only [this]
    by_cases hp : (s.dom .history_list).isSome = true
    · cases hm : historyMarkup h v with
      | error e => simp [hp, hk]
      | ok html => simp [hp, hput]
    · simp [hp]

theorem loadPredictionHistory_commutes (keep : ElemId → Bool) (h : Host)
    (r : Except JSError Response)
    (hr : keep .history_list = true ∨ HistoryRenders h r) :
    Commutes keep (loadPredictionHistory h r) := by
  intro s
  rw [loadPredictionHistory_eq, loadPredictionHistory_eq]
  cases hf : responseData "Failed to fetch history" r >>= (getProp · "predictions") with
  | error e =>
    simp only
    rw [State.restrict_log_consoleError, State.restrict_log_request]
  | ok v =>
    obtain ⟨data, hdata, hv⟩ := responseField_ok _ _ r v hf
    have hren : keep .history_list = true ∨ ∃ html, historyMarkup h v = .ok html := by
      rcases hr with hr | hr
      · exact Or.inl hr
      · exact Or.inr (hr data v hdata hv)
    obtain ⟨h1, _, h3⟩ := updateHistoryDisplay_restrict keep h v
      { s.log (.request "GET" (API_URL ++ "/predictions/history?limit=10")) with
        predictionHistory := v }
    have h3' := h3 hren
    have hst : ({ (s.restrict keep).log
        (.request "GET" (API_URL ++ "/predictions/history?limit=10")) with
        predictionHistory := v } : State)
        = State.restrict keep { s.log (.request "GET" (API_URL ++ "/predictions/history?limit=10"))
            with predictionHistory := v } := by
      unfold State.restrict State.log
      simp [List.filter_append, Event.within]
    simp only
    rw [hst]
    rcases hu : updateHistoryDisplay h v
      { s.log (.request "GET" (API_URL ++ "/predictions/history?limit=10")) with
        predictionHistory := v } with ⟨o, s2⟩
    rcases hu' : updateHistoryDisplay h v (State.restrict keep
      { s.log (.request "GET" (API_URL ++ "/predictions/history?limit=10")) with
        predictionHistory := v }) with ⟨o', s2'⟩
    rw [hu, hu'] at h1 h3'
    simp only at h1 h3'
    subst h1 h3'
    cases o' with
    | done a => rfl
    | thrown e =>
      simp only
      rw [State.restrict_log_consoleError]

theorem generateNewPrediction_commutes (keep : ElemId → Bool) (h : Host)
    (post history : Except JSError Response) (hb : keep .generate_btn = true)
    (hr : keep .history_list = true ∨ HistoryRenders h history) :
    Commutes keep (generateNewPrediction h post history) := by
  unfold generateNewPrediction
  repeat (first
    | exact updatePredictionDisplay_commutes keep _ _
    | exact loadPredictionHistory_commutes keep _ _ hr
    | exact fetch_commutes keep _ _ _
    | exact commutes_pure keep _
    | exact commutes_eval keep _
    | exact commutes_throw keep _
    | exact commutes_setCurrentPrediction keep _
    | exact commutes_getCurrentPrediction keep
    | exact commutes_assign keep _ _ hb
    | exact commutes_emit keep _ rfl
    | refine commutes_bind keep ?_ (fun _ => ?_)
    | refine commutes_tryCatch keep ?_ (fun _ => ?_)
    | refine commutes_ite keep ?_ ?_
    | split
    | dsimp only)


/-! ## The claims -/

/-- C1, counterexample: the percentage shown is not always the half-up rounding
of `p * 100`. The fraction `p` the decimal `0.615` denotes lies in `[0, 1]` and
just below `0.615`, so the half-up rounding of `p * 100` is 61; the product the
code rounds is the binary64 number `61.5`, and the page shows `62%`. -/
theorem percentage_of_0615_is_62 :
    lit 615 1000 = .fin (2769713770832855 / 4503599627370496) ∧
    (0 : ℚ) ≤ 2769713770832855 / 4503599627370496 ∧
    (2769713770832855 / 4503599627370496 : ℚ) ≤ 1 ∧
    ⌊(2769713770832855 / 4503599627370496 : ℚ) * 100 + 1 / 2⌋ = 61 ∧
    (JSNumber.fin (2769713770832855 / 4503599627370496)).mul (.fin 100)
      = .fin (123 / 2) ∧
    (updatePredictionDisplay demoHost tiePrediction startState).1 = .done () ∧
    (updatePredictionDisplay demoHost tiePrediction startState).2.text .playoff_prob
      = some "62%" := by
  decide!

/-- C1, amended. For a prediction whose four probabilities and confidence score
are fractions `p` in `[0, 1]`, `updatePredictionDisplay` returns normally and
each of the five text targets the page has reads `n%` (a target the page lacks
stays absent), where `n = ⌊d + 1/2⌋` is `Math.round` of the float product: `d`
is the binary64 number nearest to the real `p * 100`, ties to even. `n` is a
whole number between 0 and 100, and it is the half-up rounding of the real
`p * 100` itself unless that real lies within `2 ^ (-47)` of a half-integer.
The prediction `{0.42, 0.28, 0.12, 0.06, confidence 0.73}` renders as `42%`,
`28%`, `12%`, `6%`, `73%`. -/
theorem updatePredictionDisplay_rounds_float_product :
    (∀ (h : Host) (s : State) (prediction : JSValue) (p1 p2 p3 p4 p5 : ℚ),
      getProp prediction "playoff_probability" = .ok (.num (.fin p1)) →
      getProp prediction "division_probability" = .ok (.num (.fin p2)) →
      getProp prediction "conference_probability" = .ok (.num (.fin p3)) →
      getProp prediction "superbowl_probability" = .ok (.num (.fin p4)) →
      getProp prediction "confidence_score" = .ok (.num (.fin p5)) →
      (0 ≤ p1 ∧ p1 ≤ 1) → (0 ≤ p2 ∧ p2 ≤ 1) → (0 ≤ p3 ∧ p3 ≤ 1) → (0 ≤ p4 ∧ p4 ≤ 1) →
      (0 ≤ p5 ∧ p5 ≤ 1) →
      ∃ (n1 n2 n3 n4 n5 : ℕ) (d1 d2 d3 d4 d5 : ℚ),
        (IsNearestBinary64 (p1 * 100) d1 ∧ (n1 : ℤ) = ⌊d1 + 1 / 2⌋ ∧ n1 ≤ 100 ∧
          ((n1 : ℤ) = ⌊p1 * 100 + 1 / 2⌋ ∨
            ∃ k : ℤ, |p1 * 100 - ((k : ℚ) + 1 / 2)| ≤ 1 / 2 ^ 47)) ∧
        (IsNearestBinary64 (p2 * 100) d2 ∧ (n2 : ℤ) = ⌊d2 + 1 / 2⌋ ∧ n2 ≤ 100 ∧
          ((n2 : ℤ) = ⌊p2 * 100 + 1 / 2⌋ ∨
            ∃ k : ℤ, |p2 * 100 - ((k : ℚ) + 1 / 2)| ≤ 1 / 2 ^ 47)) ∧
        (IsNearestBinary64 (p3 * 100) d3 ∧ (n3 : ℤ) = ⌊d3 + 1 / 2⌋ ∧ n3 ≤ 100 ∧
          ((n3 : ℤ) = ⌊p3 * 100 + 1 / 2⌋ ∨
            ∃ k : ℤ, |p3 * 100 - ((k : ℚ) + 1 / 2)| ≤ 1 / 2 ^ 47)) ∧
        (IsNearestBinary64 (p4 * 100) d4 ∧ (n4 : ℤ) = ⌊d4 + 1 / 2⌋ ∧ n4 ≤ 100 ∧
          ((n4 : ℤ) = ⌊p4 * 100 + 1 / 2⌋ ∨
            ∃ k : ℤ, |p4 * 100 - ((k : ℚ) + 1 / 2)| ≤ 1 / 2 ^ 47)) ∧
        (IsNearestBinary64 (p5 * 100) d5 ∧ (n5 : ℤ) = ⌊d5 + 1 / 2⌋ ∧ n5 ≤ 100 ∧
          ((n5 : ℤ) = ⌊p5 * 100 + 1 / 2⌋ ∨
            ∃ k : ℤ, |p5 * 100 - ((k : ℚ) + 1 / 2)| ≤ 1 / 2 ^ 47)) ∧
        (updatePredictionDisplay h prediction s).1 = .done () ∧
        (updatePredictionDisplay h prediction s).2.text .playoff_prob
          = (s.text .playoff_prob).map (fun _ => toString n1 ++ "%") ∧
        (updatePredictionDisplay h prediction s).2.text .division_prob
          = (s.text .division_prob).map (fun _ => toString n2 ++ "%") ∧
        (updatePredictionDisplay h prediction s).2.text .conference_prob
          = (s.text .conference_prob).map (fun _ => toString n3 ++ "%") ∧
        (updatePredictionDisplay h prediction s).2.text .superbowl_prob
          = (s.text .superbowl_prob).map (fun _ => toString n4 ++ "%") ∧
        (updatePredictionDisplay h prediction s).2.text .confidence
          = (s.text .confidence).map (fun _ => toString n5 ++ "%")) ∧
    (∀ (h : Host) (s : State),
      (updatePredictionDisplay h mockPrediction s).1 = .done () ∧
      (updatePredictionDisplay h mockPrediction s).2.text .playoff_prob
        = (s.text .playoff_prob).map (fun _ => "42%") ∧
      (updatePredictionDisplay h mockPrediction s).2.text .division_prob
        = (s.text .division_prob).map (fun _ => "28%") ∧
      (updatePredictionDisplay h mockPrediction s).2.text .conference_prob
        = (s.text .conference_prob).map (fun _ => "12%") ∧
      (updatePredictionDisplay h mockPrediction s).2.text .superbowl_prob
        = (s.text .superbowl_prob).map (fun _ => "6%") ∧
      (updatePredictionDisplay h mockPrediction s).2.text .confidence
        = (s.text .confidence).map (fun _ => "73%")) := by
  constructor
  · intro h s prediction p1 p2 p3 p4 p5 g1 g2 g3 g4 g5 b1 b2 b3 b4 b5
    obtain ⟨n1, d1, e1, hn1, k1, f1, t1⟩ := roundTimes100_nearest p1 b1.1 b1.2
    obtain ⟨n2, d2, e2, hn2, k2, f2, t2⟩ := roundTimes100_nearest p2 b2.1 b2.2
    obtain ⟨n3, d3, e3, hn3, k3, f3, t3⟩ := roundTimes100_nearest p3 b3.1 b3.2
    obtain ⟨n4, d4, e4, hn4, k4, f4, t4⟩ := roundTimes100_nearest p4 b4.1 b4.2
    obtain ⟨n5, d5, e5, hn5, k5, f5, t5⟩ := roundTimes100_nearest p5 b5.1 b5.2
    have ht : truthy prediction = true := getProp_num_truthy _ _ _ (by decide) g1
    have hp : predictionPercents h prediction
        = .ok (.fin n1, .fin n2, .fin n3, .fin n4, .fin n5) := by
      simp [predictionPercents, roundedPercent_num _ _ _ _ g1, roundedPercent_num _ _ _ _ g2,
        roundedPercent_num _ _ _ _ g3, roundedPercent_num _ _ _ _ g4,
        roundedPercent_num _ _ _ _ g5, e1, e2, e3, e4, e5, bind, Except.bind, pure, Except.pure]
    have heq := updatePredictionDisplay_eq h prediction s
    simp only [ht, Bool.true_eq_false, if_false, hp] at heq
    refine ⟨n1, n2, n3, n4, n5, d1, d2, d3, d4, d5, ⟨k1, f1, hn1, t1⟩, ⟨k2, f2, hn2, t2⟩,
      ⟨k3, f3, hn3, t3⟩, ⟨k4, f4, hn4, t4⟩, ⟨k5, f5, hn5, t5⟩, ?_⟩
    rw [heq]
    simp only [showPercents_text, percentText_small h _ hn1, percentText_small h _ hn2,
      percentText_small h _ hn3, percentText_small h _ hn4, percentText_small h _ hn5]
    exact ⟨trivial, rfl, rfl, rfl, rfl, rfl⟩
  · intro h s
    have heq := updatePredictionDisplay_eq h mockPrediction s
    have tm : truthy mockPrediction = true := rfl
    simp only [tm, Bool.true_eq_false, if_false, predictionPercents_mock] at heq
    rw [heq]
    have q42 := percentText_small h 42 (by norm_num)
    have q28 := percentText_small h 28 (by norm_num)
    have q12 := percentText_small h 12 (by norm_num)
    have q6 := percentText_small h 6 (by norm_num)
    have q73 := percentText_small h 73 (by norm_num)
    simp only [Nat.cast_ofNat] at q42 q28 q12 q6 q73
    simp only [showPercents_text, q42, q28, q12, q6, q73]
    exact ⟨trivial, rfl, rfl, rfl, rfl, rfl⟩

/-- C1, witness: the amended theorem at the prediction `{1/2, 1/4, 1/8, 0, 1}`,
whose products are exact. -/
theorem updatePredictionDisplay_rounds_float_product_witness :
    (updatePredictionDisplay demoHost halfPrediction startState).1 = .done () := by
  obtain ⟨_, _, _, _, _, _, _, _, _, _, _, _, _, _, _, hd, _⟩ :=
    updatePredictionDisplay_rounds_float_product.1 demoHost startState halfPrediction
      (1 / 2) (1 / 4) (1 / 8) 0 1 rfl rfl rfl rfl rfl
      (by norm_num) (by norm_num) (by norm_num) (by norm_num) (by norm_num)
  exact hd


/-- C2. In `initializeApp`, whenever at least one of the three loads fails (a
request fails, or the `try` block throws for any other reason), whatever the
earlier responses carried, the page with all targets present ends up showing
exactly the mock data set: `42%`, `28%`, `12%`, `6%`, `73%`; record `3-3-0`,
win-pct `0.500`, off `78.5`, def `82.3`; and the four mock history cards. -/
theorem initializeApp_fallback (h : Host) (clock : Nat → Int)
    (r1 r2 r3 : Except JSError Response) (s : State) (hall : ∀ id, s.has id)
    (hfail : requestFails r1 = true ∨ requestFails r2 = true ∨ requestFails r3 = true ∨
      (loadAll h r1 r2 r3 s).1 ≠ .done ()) :
    (initializeApp h clock r1 r2 r3 s).1 = .done () ∧
    (initializeApp h clock r1 r2 r3 s).2.text .playoff_prob = some "42%" ∧
    (initializeApp h clock r1 r2 r3 s).2.text .division_prob = some "28%" ∧
    (initializeApp h clock r1 r2 r3 s).2.text .conference_prob = some "12%" ∧
    (initializeApp h clock r1 r2 r3 s).2.text .superbowl_prob = some "6%" ∧
    (initializeApp h clock r1 r2 r3 s).2.text .confidence = some "73%" ∧
    (initializeApp h clock r1 r2 r3 s).2.text .record = some "3-3-0" ∧
    (initializeApp h clock r1 r2 r3 s).2.text .win_pct = some "0.500" ∧
    (initializeApp h clock r1 r2 r3 s).2.text .off_rating = some "78.5" ∧
    (initializeApp h clock r1 r2 r3 s).2.text .def_rating = some "82.3" ∧
    (initializeApp h clock r1 r2 r3 s).2.html .history_list
      = some (String.join (mockCards h clock)) ∧
    (mockCards h clock).length = 4 := by
  have hthrown : ∃ e, (loadAll h r1 r2 r3 s).1 = .thrown e := by
    rcases hfail with hr | hr | hr | hr
    · exact loadAll_fails h r1 r2 r3 s (Or.inl hr)
    · exact loadAll_fails h r1 r2 r3 s (Or.inr (Or.inl hr))
    · exact loadAll_fails h r1 r2 r3 s (Or.inr (Or.inr hr))
    · cases ho : (loadAll h r1 r2 r3 s).1 with
      | done a => exact absurd ho hr
      | thrown e => exact ⟨e, rfl⟩
  obtain ⟨e, he⟩ := hthrown
  have hpage := loadAll_respects frame_samePage (fun _ _ _ => rfl) (fun _ _ _ => rfl) h r1 r2 r3 s
  have hhas : ∀ id, ((loadAll h r1 r2 r3 s).2.log
      (.consoleError "Error initializing app:" e)).has id :=
    fun id => (samePage_has hpage id).2 (hall id)
  rw [initializeApp_of_thrown h clock r1 r2 r3 s e he (hall _)]
  simp only [showMock_text, showMock_html, text_of_has _ _ (hhas _), html_of_has _ _ (hhas _)]
  exact ⟨trivial, trivial, trivial, trivial, trivial, trivial, trivial, trivial, trivial, trivial,
    trivial, rfl⟩


/-- C2, witness: the theorem at a concrete input. -/
theorem initializeApp_fallback_witness :
    (initializeApp demoHost (fun _ => 0)
      (okResponse (.obj [("prediction", .obj [("playoff_probability", .num (.fin 1))])]))
      (.error .network) (okResponse .null) startState).2.text .playoff_prob = some "42%" :=
  (initializeApp_fallback demoHost (fun _ => 0)
    (okResponse (.obj [("prediction", .obj [("playoff_probability", .num (.fin 1))])]))
    (.error .network) (okResponse .null) startState (fun _ => rfl)
    (Or.inr (Or.inl rfl))).2.1


/-- C3. On a page with the trigger button, for every outcome of the POST and
of the history request, `generateNewPrediction` returns normally; its first
effects are `disabled = true` and the label `GENERATING...`, both before the
POST is issued; no later step before the last two schedules a reset; its last
two effects are one final label (`PREDICTION UPDATED` or `ERROR - TRY AGAIN`)
and the scheduling of exactly one reset, with delay 2000; the button is still
disabled when it returns, and the reset, when it fires, sets the label to
`GENERATE NEW PREDICTION` and `disabled` to false. -/
theorem generateNewPrediction_reset_once (h : Host) (post history : Except JSError Response)
    (s : State) (hs : s.has .generate_btn) :
    (generateNewPrediction h post history s).1 = .done () ∧
    (∃ (mid : List Event) (label : String),
      (generateNewPrediction h post history s).2.trace = s.trace ++
        ([.write .generate_btn (.disabled true),
          .write .generate_btn (.textContent "GENERATING..."),
          .request "POST" (API_URL ++ "/predictions/generate")] ++ mid ++
         [.write .generate_btn (.textContent label), .setTimeout .resetButton 2000]) ∧
      (∀ ev ∈ mid, ev.isReset = false) ∧
      (generateNewPrediction h post history s).2.text .generate_btn = some label ∧
      (label = "PREDICTION UPDATED" ∨ label = "ERROR - TRY AGAIN")) ∧
    (generateNewPrediction h post history s).2.isDisabled .generate_btn = some true ∧
    (fireTimer h .resetButton (generateNewPrediction h post history s).2).1 = .done () ∧
    (fireTimer h .resetButton (generateNewPrediction h post history s).2).2.text .generate_btn
      = some "GENERATE NEW PREDICTION" ∧
    (fireTimer h .resetButton (generateNewPrediction h post history s).2).2.isDisabled
      .generate_btn = some false := by
  obtain ⟨t, label, heq, ⟨evs, htr, hevs⟩, hdom, hlabel⟩ :=
    generateNewPrediction_shape h post history s hs
  have ht : t.has .generate_btn := by
    unfold State.has
    rw [hdom]
    exact (State.startGenerate_has s _).2 hs
  obtain ⟨e, he⟩ : ∃ e, s.dom .generate_btn = some e := by
    unfold State.has at hs
    cases hd : s.dom .generate_btn with
    | none => rw [hd] at hs; simp at hs
    | some e => exact ⟨e, rfl⟩
  have hbtn0 := startGenerate_button s
  rw [heq]
  refine ⟨rfl, ⟨evs, label, ?_, hevs, ?_, hlabel⟩, ?_, ?_⟩
  · simp only [State.log_trace, State.put_trace_of_has _ _ _ ht, htr, startGenerate_trace s hs,
      List.append_assoc]
    rfl
  · simp only [State.log_text, State.put_text, if_true]
    exact text_of_has _ _ ht _
  · simp only [State.isDisabled, State.log_dom, State.put_dom, if_true, hdom]
    have := hbtn0.1
    simp only [State.isDisabled, he] at this
    cases hd : s.startGenerate.dom .generate_btn with
    | none => rw [hd] at this; simp at this
    | some e2 =>
      rw [hd] at this
      simpa [Elem.assign] using this
  · have hfin : ((t.put .generate_btn (.textContent label)).log
        (.setTimeout .resetButton 2000)).has .generate_btn :=
      (State.log_has _ _ _).2 ((State.put_has _ _ _ _).2 ht)
    have hfin2 : (((t.put .generate_btn (.textContent label)).log
        (.setTimeout .resetButton 2000)).put .generate_btn
        (.textContent "GENERATE NEW PREDICTION")).has .generate_btn :=
      (State.put_has _ _ _ _).2 hfin
    simp only [fireTimer, bind, Eff.bind, assign_of_has _ _ _ hfin, assign_of_has _ _ _ hfin2]
    refine ⟨trivial, ?_, ?_⟩
    · rw [State.put_text_other _ _ _ _ (by intro t; simp), State.put_text]
      simp only [if_true]
      exact text_of_has _ _ hfin _
    · unfold State.has at hfin
      unfold State.isDisabled
      simp only [State.put_dom, if_true]
      cases hd : ((t.put .generate_btn (.textContent label)).log
        (.setTimeout .resetButton 2000)).dom .generate_btn with
      | none => rw [hd] at hfin; simp at hfin
      | some e3 => rfl


/-- C3, witness: the theorem at a concrete input. -/
theorem generateNewPrediction_reset_once_witness :
    (generateNewPrediction demoHost (.error .network) (.error .network) startState).1
      = .done () :=
  (generateNewPrediction_reset_once demoHost (.error .network) (.error .network) startState
    rfl).1

/-- C4, counterexample: a non-empty history need not render to cards. For the
history `[null]` the callback reads `created_at` of `null`: the call throws a
`TypeError` and the container keeps its content; so it does for a record
followed by `null`, where no card at all is shown. -/
theorem history_with_null_record_throws :
    (updateHistoryDisplay demoHost (.arr [.null]) startState).1 = .thrown .typeError ∧
    (updateHistoryDisplay demoHost (.arr [.null]) startState).2.html .history_list
      = startState.html .history_list ∧
    (updateHistoryDisplay demoHost (.arr [.null]) startState).2.trace = [] ∧
    (updateHistoryDisplay demoHost (.arr [demoPred, .null]) startState).1
      = .thrown .typeError ∧
    (updateHistoryDisplay demoHost (.arr [demoPred, .null]) startState).2.html .history_list
      = startState.html .history_list := by
  decide!

/-- C4, amended. On a page with the history container: for a missing
(`undefined`, `null`) or empty history, `updateHistoryDisplay` sets the content
to the one fixed placeholder. For a non-empty array of records (each carrying a
creation time and four numeric probabilities) the content is the
concatenation, in input order and with no separator, of one card per record,
the i-th card being the fixed markup filled with the formatted date of the i-th
record and its four `Math.round(p * 100)`, each followed by `%`. For any
non-empty array, either every element renders and the content is the
concatenation of the cards in order, or some element does not render (a `null`
element, say) and the call throws that error and writes nothing. For a fraction
`p` in `[0, 1]` the text of `Math.round(p * 100)` is the whole number
`⌊d + 1/2⌋ ≤ 100`, `d` the binary64 number nearest to `p * 100`. -/
theorem updateHistoryDisplay_cards_of_records (h : Host) (s : State)
    (hs : s.has .history_list) :
    (∀ v, (v = .undefined ∨ v = .null ∨ v = .arr []) →
      (updateHistoryDisplay h v s).1 = .done () ∧
      (updateHistoryDisplay h v s).2.html .history_list
        = some "<div class=\"loading\">No prediction history available</div>") ∧
    (∀ (preds : List JSValue) (recs : List HistoryRecord), preds ≠ [] →
      List.Forall₂ IsRecord preds recs →
      (updateHistoryDisplay h (.arr preds) s).1 = .done () ∧
      (updateHistoryDisplay h (.arr preds) s).2.html .history_list
        = some (String.join (recs.map (fun r =>
            "\n            <div class=\"history-item\">\n                <div class=\"history-date\">"
            ++ h.localeDate (.inl r.created_at)
            ++ "</div>\n                <div class=\"history-predictions\">\n                    <div class=\"history-pred\">\n                        <div class=\"history-pred-label\">PLAYOFFS</div>\n                        <div class=\"history-pred-value\">"
            ++ numberToString h (mathRound (r.playoff_probability.mul (.fin 100)))
            ++ "%</div>\n                    </div>\n                    <div class=\"history-pred\">\n                        <div class=\"history-pred-label\">DIVISION</div>\n                        <div class=\"history-pred-value\">"
            ++ numberToString h (mathRound (r.division_probability.mul (.fin 100)))
            ++ "%</div>\n                    </div>\n                    <div class=\"history-pred\">\n                        <div class=\"history-pred-label\">CONFERENCE</div>\n                        <div class=\"history-pred-value\">"
            ++ numberToString h (mathRound (r.conference_probability.mul (.fin 100)))
            ++ "%</div>\n                    </div>\n                    <div class=\"history-pred\">\n                        <div class=\"history-pred-label\">SUPER BOWL</div>\n                        <div class=\"history-pred-value\">"
            ++ numberToString h (mathRound (r.superbowl_probability.mul (.fin 100)))
            ++ "%</div>\n                    </div>\n                </div>\n            </div>\n        "))) ∧
      recs.length = preds.length) ∧
    (∀ preds : List JSValue, preds ≠ [] →
      (∃ cards : List String,
        List.Forall₂ (fun pred card => historyItem h pred = .ok card) preds cards ∧
        (updateHistoryDisplay h (.arr preds) s).1 = .done () ∧
        (updateHistoryDisplay h (.arr preds) s).2.html .history_list
          = some (String.join cards)) ∨
      (∃ e : JSError, (∃ pred ∈ preds, historyItem h pred = .error e) ∧
        updateHistoryDisplay h (.arr preds) s = (.thrown e, s))) ∧
    (∀ p : ℚ, 0 ≤ p → p ≤ 1 → ∃ (n : ℕ) (d : ℚ),
      IsNearestBinary64 (p * 100) d ∧ (n : ℤ) = ⌊d + 1 / 2⌋ ∧ n ≤ 100 ∧
      numberToString h (mathRound ((JSNumber.fin p).mul (.fin 100))) = toString n) := by
  refine ⟨?_, ?_, ?_, ?_⟩
  · intro v hv
    have hempty : historyIsEmpty v = .ok true := by
      rcases hv with hv | hv | hv <;> subst hv
      · rfl
      · rfl
      · simpa using historyIsEmpty_arr []
    rw [updateHistoryDisplay_placeholder h s v hs hempty]
    exact ⟨rfl, put_html_of_has _ _ _ hs⟩
  · intro preds recs hne hr
    have hc := mapM_records h preds recs hr
    rw [updateHistoryDisplay_cards h s preds _ hs hne hc]
    exact ⟨rfl, put_html_of_has _ _ _ hs, hr.length_eq.symm⟩
  · intro preds hne
    cases hc : preds.mapM (historyItem h) with
    | ok cards =>
      left
      refine ⟨cards, mapM_forall₂ h preds cards hc, ?_⟩
      rw [updateHistoryDisplay_cards h s preds cards hs hne hc]
      exact ⟨rfl, put_html_of_has _ _ _ hs⟩
    | error e =>
      right
      exact ⟨e, mapM_error h preds e hc, updateHistoryDisplay_throws h s preds e hs hne hc⟩
  · intro p h0 h1
    obtain ⟨n, d, e1, hn, k1, f1, _⟩ := roundTimes100_nearest p h0 h1
    refine ⟨n, d, k1, f1, hn, ?_⟩
    have e2 : mathRound ((JSNumber.fin p).mul (.fin 100)) = .fin (n : ℚ) := e1
    rw [e2]
    exact numberToString_nat h n (le_trans hn (by norm_num))

/-- C4, witness: the amended theorem at a history of two different records; the
two cards appear in input order, each with the date and the percentages of its
own record. -/
theorem updateHistoryDisplay_cards_of_records_witness :
    (updateHistoryDisplay echoHost (.arr [demoPred, laterPred]) startState).2.html .history_list
      = some (historyCard "2025-01-01T00:00:00.000Z" "42" "28" "12" "6"
          ++ historyCard "2025-01-02T00:00:00.000Z" "45" "31" "14" "7") :=
  (((updateHistoryDisplay_cards_of_records echoHost startState rfl).2.1 [demoPred, laterPred]
    [demoRecord, laterRecord] (List.cons_ne_nil _ _)
    (List.Forall₂.cons ⟨rfl, rfl, rfl, rfl, rfl⟩
      (List.Forall₂.cons ⟨rfl, rfl, rfl, rfl, rfl⟩ List.Forall₂.nil))).2.1).trans (by decide!)


/-- C5, counterexample: a season whose `win_percentage` is present and is the
number 0 shows `.000`, not the three-decimal text `0.000` of 0; the default is
produced although the field is not missing. -/
theorem win_percentage_zero_shows_default :
    (updateStatsDisplay demoHost
        (seasonObject (.fin 3) (.fin 3) (.fin 0) (.fin 0) (lit 785 10) (lit 823 10))
        startState).1 = .done () ∧
    (updateStatsDisplay demoHost
        (seasonObject (.fin 3) (.fin 3) (.fin 0) (.fin 0) (lit 785 10) (lit 823 10))
        startState).2.text .win_pct = some ".000" ∧
    toFixed demoHost (.fin 0) 3 = "0.000" := by
  decide!

/-- C5, amended. For every stats payload whose season carries three numeric
counts and a win percentage and two ratings that are each a number or missing,
`updateStatsDisplay` returns normally and the win-pct target, if the page has
it, reads: `.000` when `win_percentage` is missing, and also when it is the
number 0; for a non-zero finite `w` of magnitude below `10 ^ 21`, `w` in fixed
notation with exactly three decimals and a whole part of at least one digit
(the nearest multiple of 0.001, a tie going away from zero); `0.5` gives
`0.500`. -/
theorem win_percentage_text (h : Host) (s : State) (data season : JSValue) (f : SeasonStats)
    (hd : getProp data "season" = .ok season) (hf : IsSeason season f) :
    (updateStatsDisplay h data s).1 = .done () ∧
    (f.win_percentage = none →
      (updateStatsDisplay h data s).2.text .win_pct = (s.text .win_pct).map (fun _ => ".000")) ∧
    (f.win_percentage = some (.fin 0) →
      (updateStatsDisplay h data s).2.text .win_pct = (s.text .win_pct).map (fun _ => ".000")) ∧
    (∀ q : ℚ, f.win_percentage = some (.fin q) → q ≠ 0 → |q| < (10 : ℚ) ^ 21 →
      (updateStatsDisplay h data s).2.text .win_pct
        = (s.text .win_pct).map (fun _ => toFixedDigits q 3) ∧
      ∃ n : ℕ, (n : ℤ) = ⌊|q| * (10 : ℚ) ^ 3 + 1 / 2⌋ ∧
        toFixedDigits q 3 = (if q < 0 then "-" else "") ++
          (Nat.repr (n / 10 ^ 3) ++ "." ++ String.mk (fracDigits 3 (n % 10 ^ 3))) ∧
        (fracDigits 3 (n % 10 ^ 3)).length = 3 ∧
        (∀ c ∈ fracDigits 3 (n % 10 ^ 3), c.isDigit = true) ∧
        1 ≤ (Nat.repr (n / 10 ^ 3)).length) ∧
    toFixedDigits (1 / 2) 3 = "0.500" := by
  rw [updateStatsDisplay_season h data season f s hd hf]
  refine ⟨rfl, ?_, ?_, ?_, by decide!⟩
  · intro hw
    simp only [showStats_text, hw, fixedText]
  · intro hw
    simp only [showStats_text, hw, fixedText, if_true]
  · intro q hw hq hb
    refine ⟨?_, toFixedDigits_shape q 3 (by norm_num)⟩
    simp only [showStats_text, hw, fixedText, hq, hb, if_true, if_false]

/-- C5, witness: the theorem at a concrete input. -/
theorem win_percentage_text_witness :
    (updateStatsDisplay demoHost mockStats startState).1 = .done () :=
  (win_percentage_text demoHost startState mockStats
    (.obj [("wins", .num (.fin 3)), ("losses", .num (.fin 3)), ("ties", .num (.fin 0)),
      ("win_percentage", .num (lit 500 1000)), ("offensive_rating", .num (lit 785 10)),
      ("defensive_rating", .num (lit 823 10))])
    ⟨.fin 3, .fin 3, .fin 0, some (lit 500 1000), some (lit 785 10), some (lit 823 10)⟩
    rfl ⟨rfl, rfl, rfl, rfl, rfl, rfl, rfl⟩).1


/-- C6, counterexample: a present rating need not be rendered with one decimal
place. An infinite rating (the JSON number `1e999`) shows `Infinity`, and the
rating `10 ^ 21` shows the text of `Number::toString` (`1e+21`), not the
one-decimal text `1000000000000000000000.0`. -/
theorem huge_rating_is_not_fixed :
    (updateStatsDisplay demoHost
        (seasonObject (.fin 3) (.fin 3) (.fin 0) (lit 500 1000) .posInf (lit 823 10))
        startState).2.text .off_rating = some "Infinity" ∧
    (updateStatsDisplay demoHost
        (seasonObject (.fin 3) (.fin 3) (.fin 0) (lit 500 1000) (.fin (10 ^ 21)) (lit 823 10))
        startState).2.text .off_rating = some (demoHost.shortestDecimal (10 ^ 21)) ∧
    toFixedDigits (10 ^ 21) 1 = "1000000000000000000000.0" := by
  decide!

/-- C6, amended. For every stats payload whose season carries three numeric
counts and a win percentage and two ratings that are each a number or missing,
`updateStatsDisplay` returns normally; the record target reads
`<wins>-<losses>-<ties>`; each rating target reads `0.0` when the rating is
missing and also when it is the number 0 (or `NaN`, which JSON cannot carry);
for a non-zero finite rating of magnitude below `10 ^ 21` it reads the rating
in fixed notation with exactly one decimal (`78.5` gives `78.5`, `82.3` gives
`82.3`, the mock season gives `3-3-0`); for a finite rating of magnitude
`10 ^ 21` or more it reads what `Number::toString` prints, the shortest decimal
text of the host, and for an infinite rating `Infinity` or `-Infinity`; and
when the payload is missing or has no season, nothing is written at all. -/
theorem stats_record_and_ratings (h : Host) (s : State) :
    (∀ (data season : JSValue) (f : SeasonStats),
      getProp data "season" = .ok season → IsSeason season f →
      (updateStatsDisplay h data s).1 = .done () ∧
      (updateStatsDisplay h data s).2.text .record
        = (s.text .record).map (fun _ => numberToString h f.wins ++ "-"
            ++ numberToString h f.losses ++ "-" ++ numberToString h f.ties) ∧
      (f.offensive_rating = none ∨ f.offensive_rating = some (.fin 0) ∨
          f.offensive_rating = some .nan →
        (updateStatsDisplay h data s).2.text .off_rating
          = (s.text .off_rating).map (fun _ => "0.0")) ∧
      (∀ q : ℚ, f.offensive_rating = some (.fin q) → q ≠ 0 → |q| < (10 : ℚ) ^ 21 →
        (updateStatsDisplay h data s).2.text .off_rating
          = (s.text .off_rating).map (fun _ => toFixedDigits q 1)) ∧
      (∀ q : ℚ, f.offensive_rating = some (.fin q) → (10 : ℚ) ^ 21 ≤ |q| →
        (updateStatsDisplay h data s).2.text .off_rating
          = (s.text .off_rating).map (fun _ => h.shortestDecimal q)) ∧
      (f.offensive_rating = some .posInf →
        (updateStatsDisplay h data s).2.text .off_rating
          = (s.text .off_rating).map (fun _ => "Infinity")) ∧
      (f.offensive_rating = some .negInf →
        (updateStatsDisplay h data s).2.text .off_rating
          = (s.text .off_rating).map (fun _ => "-Infinity")) ∧
      (f.defensive_rating = none ∨ f.defensive_rating = some (.fin 0) ∨
          f.defensive_rating = some .nan →
        (updateStatsDisplay h data s).2.text .def_rating
          = (s.text .def_rating).map (fun _ => "0.0")) ∧
      (∀ q : ℚ, f.defensive_rating = some (.fin q) → q ≠ 0 → |q| < (10 : ℚ) ^ 21 →
        (updateStatsDisplay h data s).2.text .def_rating
          = (s.text .def_rating).map (fun _ => toFixedDigits q 1)) ∧
      (∀ q : ℚ, f.defensive_rating = some (.fin q) → (10 : ℚ) ^ 21 ≤ |q| →
        (updateStatsDisplay h data s).2.text .def_rating
          = (s.text .def_rating).map (fun _ => h.shortestDecimal q)) ∧
      (f.defensive_rating = some .posInf →
        (updateStatsDisplay h data s).2.text .def_rating
          = (s.text .def_rating).map (fun _ => "Infinity")) ∧
      (f.defensive_rating = some .negInf →
        (updateStatsDisplay h data s).2.text .def_rating
          = (s.text .def_rating).map (fun _ => "-Infinity"))) ∧
    (∀ q : ℚ, ∃ n : ℕ, (n : ℤ) = ⌊|q| * (10 : ℚ) ^ 1 + 1 / 2⌋ ∧
      toFixedDigits q 1 = (if q < 0 then "-" else "") ++
        (Nat.repr (n / 10 ^ 1) ++ "." ++ String.mk (fracDigits 1 (n % 10 ^ 1))) ∧
      (fracDigits 1 (n % 10 ^ 1)).length = 1 ∧
      (∀ c ∈ fracDigits 1 (n % 10 ^ 1), c.isDigit = true) ∧
      1 ≤ (Nat.repr (n / 10 ^ 1)).length) ∧
    (toFixedDigits 0 1 = "0.0" ∧ fixedNotation (lit 785 10) 1 = some "78.5" ∧
      fixedNotation (lit 823 10) 1 = some "82.3") ∧
    (((updateStatsDisplay h mockStats s).2.text .record = (s.text .record).map (fun _ => "3-3-0")) ∧
      ((updateStatsDisplay h mockStats s).2.text .off_rating
        = (s.text .off_rating).map (fun _ => "78.5")) ∧
      ((updateStatsDisplay h mockStats s).2.text .def_rating
        = (s.text .def_rating).map (fun _ => "82.3"))) ∧
    (∀ data : JSValue,
      (data = .undefined ∨ data = .null ∨ getProp data "season" = .ok .undefined ∨
        getProp data "season" = .ok .null) →
      updateStatsDisplay h data s = (.done (), s)) := by
  have hbig : ∀ q : ℚ, (10 : ℚ) ^ 21 ≤ |q| →
      fixedText h 1 "0.0" (some (.fin q)) = h.shortestDecimal q := by
    intro q hq
    have hq0 : q ≠ 0 := by
      intro hc
      rw [hc, abs_zero] at hq
      norm_num at hq
    simp only [fixedText, hq0, if_false, not_lt.mpr hq, numberToString_huge h q hq]
  refine ⟨?_, fun q => toFixedDigits_shape q 1 (by norm_num), by decide!, ?_, ?_⟩
  · intro data season f hd hf
    rw [updateStatsDisplay_season h data season f s hd hf]
    refine ⟨rfl, ?_, ?_, ?_, ?_, ?_, ?_, ?_, ?_, ?_, ?_, ?_⟩
    · simp only [showStats_text]
    · rintro (hw | hw | hw) <;> simp only [showStats_text, hw, fixedText, if_true]
    · intro q hw hq hb
      simp only [showStats_text, hw, fixedText, hq, hb, if_true, if_false]
    · intro q hw hq
      simp only [showStats_text, hw, hbig q hq]
    · intro hw
      simp only [showStats_text, hw, fixedText, numberToString]
    · intro hw
      simp only [showStats_text, hw, fixedText, numberToString]
    · rintro (hw | hw | hw) <;> simp only [showStats_text, hw, fixedText, if_true]
    · intro q hw hq hb
      simp only [showStats_text, hw, fixedText, hq, hb, if_true, if_false]
    · intro q hw hq
      simp only [showStats_text, hw, hbig q hq]
    · intro hw
      simp only [showStats_text, hw, fixedText, numberToString]
    · intro hw
      simp only [showStats_text, hw, fixedText, numberToString]
  · have e2 := updateStatsDisplay_eq h mockStats s
    have ts : truthy mockStats = true := rfl
    have hseason : getProp mockStats "season" = .ok (.obj [("wins", .num (.fin 3)),
        ("losses", .num (.fin 3)), ("ties", .num (.fin 0)),
        ("win_percentage", .num (lit 500 1000)),
        ("offensive_rating", .num (lit 785 10)), ("defensive_rating", .num (lit 823 10))]) := by
      simp [getProp, mockStats, ownProp]
    simp only [ts, Bool.true_eq_false, if_false, hseason, truthy_obj, statsTexts_mock h] at e2
    rw [e2]
    simp only [showStats_text]
    exact ⟨trivial, trivial, trivial⟩
  · intro data hdata
    apply updateStatsDisplay_no_season
    rcases hdata with hd | hd | hd | hd
    · subst hd; exact Or.inl rfl
    · subst hd; exact Or.inl rfl
    · exact Or.inr ⟨_, hd, rfl⟩
    · exact Or.inr ⟨_, hd, rfl⟩


/-- C6, witness: the theorem at a concrete input. -/
theorem stats_record_and_ratings_witness :
    (updateStatsDisplay demoHost mockStats startState).2.text .record = some "3-3-0" :=
  (stats_record_and_ratings demoHost startState).2.2.2.1.1


/-- C7. A failed fetch leaves the prior state untouched. When the request
fails (transport failure, a status that is not ok, or a body that does not
decode): `loadCurrentPrediction` throws that error to its caller and leaves
both variables and every element of the page as they were, and so does
`loadPredictionHistory`; `generateNewPrediction` with a failed POST leaves both
variables and every element but the button as they were. And for every outcome
of the requests, each of the three functions leaves `currentPrediction`
(`predictionHistory`) as it was or sets it to the `prediction` (`predictions`)
field of the decoded response. -/
theorem failed_fetch_keeps_state (h : Host) (s : State) (r : Except JSError Response)
    (hr : requestFails r = true) :
    ((∃ e, responseData "Failed to fetch prediction" r = .error e ∧
        (loadCurrentPrediction h r s).1 = .thrown e) ∧
      SameSlots s (loadCurrentPrediction h r s).2 ∧
      (loadCurrentPrediction h r s).2.dom = s.dom) ∧
    ((∃ e, responseData "Failed to fetch history" r = .error e ∧
        (loadPredictionHistory h r s).1 = .thrown e) ∧
      SameSlots s (loadPredictionHistory h r s).2 ∧
      (loadPredictionHistory h r s).2.dom = s.dom) ∧
    (∀ history : Except JSError Response,
      SameSlots s (generateNewPrediction h r history s).2 ∧
      ∀ id, id ≠ .generate_btn → (generateNewPrediction h r history s).2.dom id = s.dom id) ∧
    (∀ r' : Except JSError Response,
      ((loadCurrentPrediction h r' s).2.currentPrediction = s.currentPrediction ∨
        ∃ data, r' = .ok ⟨true, .ok data⟩ ∧ getProp data "prediction"
          = .ok (loadCurrentPrediction h r' s).2.currentPrediction) ∧
      (loadCurrentPrediction h r' s).2.predictionHistory = s.predictionHistory) ∧
    (∀ r' : Except JSError Response,
      ((loadPredictionHistory h r' s).2.predictionHistory = s.predictionHistory ∨
        ∃ data, r' = .ok ⟨true, .ok data⟩ ∧ getProp data "predictions"
          = .ok (loadPredictionHistory h r' s).2.predictionHistory) ∧
      (loadPredictionHistory h r' s).2.currentPrediction = s.currentPrediction) ∧
    (∀ post history : Except JSError Response,
      ((generateNewPrediction h post history s).2.currentPrediction = s.currentPrediction ∨
        ∃ data, post = .ok ⟨true, .ok data⟩ ∧ getProp data "prediction"
          = .ok (generateNewPrediction h post history s).2.currentPrediction) ∧
      ((generateNewPrediction h post history s).2.predictionHistory = s.predictionHistory ∨
        ∃ data, history = .ok ⟨true, .ok data⟩ ∧ getProp data "predictions"
          = .ok (generateNewPrediction h post history s).2.predictionHistory)) := by
  refine ⟨?_, ?_, ?_, fun r' => loadCurrentPrediction_slots h r' s,
    fun r' => loadPredictionHistory_slots h r' s,
    fun post history => generateNewPrediction_slots h post history s⟩
  · obtain ⟨e, he⟩ := (requestFails_iff "Failed to fetch prediction" r).1 hr
    rw [loadCurrentPrediction_failed h r s e he]
    exact ⟨⟨e, he, rfl⟩, ⟨rfl, rfl⟩, rfl⟩
  · obtain ⟨e, he⟩ := (requestFails_iff "Failed to fetch history" r).1 hr
    rw [loadPredictionHistory_failed h r s e he]
    exact ⟨⟨e, he, rfl⟩, ⟨rfl, rfl⟩, rfl⟩
  · intro history
    obtain ⟨e, he⟩ := (requestFails_iff "Failed to generate prediction" r).1 hr
    rcases has_or_absent s .generate_btn with hs | hs
    · rw [generateNewPrediction_failed h r history s e hs he]
      have h0 := startGenerate_slots s
      have h1 := showError_slots s.startGenerate e
      refine ⟨⟨h1.1.trans h0.1, h1.2.trans h0.2⟩, ?_⟩
      intro id hid
      rw [showError_dom _ _ _ hid, startGenerate_dom _ _ hid]
    · rw [generateNewPrediction_absent h r history s hs]
      exact ⟨⟨rfl, rfl⟩, fun _ _ => rfl⟩

/-- C7, witness: the theorem at a concrete input. -/
theorem failed_fetch_keeps_state_witness :
    (∃ e, responseData "Failed to fetch prediction" (.ok ⟨false, .ok .null⟩) = .error e ∧
      (loadCurrentPrediction demoHost (.ok ⟨false, .ok .null⟩) startState).1 = .thrown e) :=
  (failed_fetch_keeps_state demoHost startState (.ok ⟨false, .ok .null⟩) rfl).1.1


/-- C8, counterexample: on the blank page without the trigger button (every
other element present), `generateNewPrediction` does not complete: the
unguarded `btn.disabled = true` throws a `TypeError` before anything else
happens, although both requests would have succeeded. -/
theorem generateNewPrediction_without_button_throws :
    generateNewPrediction demoHost (okResponse (.obj [("prediction", mockPrediction)]))
      (okResponse (.obj [("predictions", .arr [])])) noButtonState
      = (.thrown .typeError, noButtonState) ∧
    noButtonState.dom .generate_btn = none ∧
    (∀ id, id ≠ .generate_btn → noButtonState.dom id = blankPage id) :=
  ⟨generateNewPrediction_absent _ _ _ _ rfl, rfl,
    by intro id hid; cases id <;> first | rfl | exact absurd rfl hid⟩

/-- C8, amended. For every set `keep` of elements the page still has:
`updatePredictionDisplay`, the bar animation it schedules and
`updateStatsDisplay` end on the smaller page as they do on the whole page and
leave the same state, restricted to `keep`: the same values in the elements
that are present, no element and no assignment for an absent one;
`updateHistoryDisplay` leaves the same restricted state, completes whenever it
completes on the whole page, and ends the same way when the container is kept
or the history renders; `generateNewPrediction`, when the trigger button is
kept, completes without an error, and leaves the same restricted state when the
container is kept or every history payload renders; when the button is not
kept it throws a `TypeError` and changes nothing; and `setupEventListeners`
makes it the click handler of the button exactly when the page has the
button. -/
theorem display_tolerates_absent_elements (keep : ElemId → Bool) (h : Host) (s : State) :
    (∀ p, updatePredictionDisplay h p (s.restrict keep)
      = ((updatePredictionDisplay h p s).1, (updatePredictionDisplay h p s).2.restrict keep)) ∧
    (∀ a b c d, fireTimer h (.bars a b c d) (s.restrict keep)
      = (.done (), (fireTimer h (.bars a b c d) s).2.restrict keep)) ∧
    (∀ data, updateStatsDisplay h data (s.restrict keep)
      = ((updateStatsDisplay h data s).1, (updateStatsDisplay h data s).2.restrict keep)) ∧
    (∀ v,
      (updateHistoryDisplay h v (s.restrict keep)).2
        = (updateHistoryDisplay h v s).2.restrict keep ∧
      ((updateHistoryDisplay h v s).1 = .done () →
        (updateHistoryDisplay h v (s.restrict keep)).1 = .done ()) ∧
      (keep .history_list = true ∨ (∃ html, historyMarkup h v = .ok html) →
        (updateHistoryDisplay h v (s.restrict keep)).1 = (updateHistoryDisplay h v s).1)) ∧
    (∀ post history : Except JSError Response, keep .generate_btn = true →
      s.has .generate_btn →
      (generateNewPrediction h post history (s.restrict keep)).1 = .done () ∧
      (keep .history_list = true ∨ HistoryRenders h history →
        generateNewPrediction h post history (s.restrict keep)
          = (.done (), (generateNewPrediction h post history s).2.restrict keep))) ∧
    (∀ post history : Except JSError Response, keep .generate_btn = false →
      generateNewPrediction h post history (s.restrict keep)
        = (.thrown .typeError, s.restrict keep)) ∧
    (∀ t : State,
      (∀ id, (t.restrict keep).dom id = if keep id = true then t.dom id else none) ∧
      (∀ ev ∈ (t.restrict keep).trace, ev.within keep = true)) ∧
    (∀ t : State,
      (t.dom .generate_btn = none → setupEventListeners t = (.done (), t)) ∧
      (t.has .generate_btn → setupEventListeners t
        = (.done (), t.log (.addEventListener .generate_btn "click")))) := by
  refine ⟨fun p => updatePredictionDisplay_commutes keep h p s, ?_,
    fun data => updateStatsDisplay_commutes keep h data s,
    fun v => updateHistoryDisplay_restrict keep h v s, ?_, ?_, ?_, ?_⟩
  · intro a b c d
    have hc : Commutes keep (fireTimer h (.bars a b c d)) := by
      unfold fireTimer
      exact commutes_bind keep (commutes_assignIfPresent keep _ _) (fun _ =>
        commutes_bind keep (commutes_assignIfPresent keep _ _) (fun _ =>
          commutes_bind keep (commutes_assignIfPresent keep _ _) (fun _ =>
            commutes_assignIfPresent keep _ _)))
    rw [hc s]
    have hd : (fireTimer h (.bars a b c d) s).1 = .done () := by
      simp only [fireTimer, bind, Eff.bind, assignIfPresent_eq]
    rw [hd]
  · intro post history hk hs
    have hs' : (s.restrict keep).has .generate_btn := by
      unfold State.has at hs ⊢
      rw [State.restrict_dom, hk, if_pos rfl]
      exact hs
    obtain ⟨t, label, heq, _⟩ := generateNewPrediction_shape h post history _ hs'
    obtain ⟨t2, label2, heq2, _⟩ := generateNewPrediction_shape h post history s hs
    refine ⟨by rw [heq], ?_⟩
    intro hr
    have hc := generateNewPrediction_commutes keep h post history hk hr s
    rw [hc, heq2]
  · intro post history hk
    apply generateNewPrediction_absent
    rw [State.restrict_dom, hk]
    rfl
  · intro t
    refine ⟨fun id => rfl, ?_⟩
    intro ev hev
    unfold State.restrict at hev
    exact (List.mem_filter.mp hev).2
  · intro t
    constructor
    · intro ht
      simp [setupEventListeners, bind, Eff.bind, present, ht, pure]
    · intro ht
      unfold State.has at ht
      simp [setupEventListeners, bind, Eff.bind, present, ht, emit_eq]

/-- C8, witness: the blank page without the first text target and without the
history container. -/
theorem display_tolerates_absent_elements_witness :
    (generateNewPrediction demoHost (.error .network) (.error .network)
      (startState.restrict withoutTwo)).1 = .done () :=
  ((display_tolerates_absent_elements withoutTwo demoHost startState).2.2.2.2.1
    (.error .network) (.error .network) rfl rfl).1

/-- C9, counterexample: both requests succeed and the label is still
`ERROR - TRY AGAIN`. The POST answers with the mock prediction and the history
request with `{predictions: [null]}`; neither request fails, the rendering of
the history throws, and `predictionHistory`, empty before, has already been
replaced by the non-empty array. -/
theorem both_requests_succeed_yet_error_label :
    requestFails (okResponse (.obj [("prediction", mockPrediction)])) = false ∧
    requestFails (okResponse nullHistory) = false ∧
    (generateNewPrediction demoHost (okResponse (.obj [("prediction", mockPrediction)]))
      (okResponse nullHistory) startState).2.text .generate_btn = some "ERROR - TRY AGAIN" ∧
    historyIsEmpty startState.predictionHistory = .ok true ∧
    historyIsEmpty (generateNewPrediction demoHost
      (okResponse (.obj [("prediction", mockPrediction)]))
      (okResponse nullHistory) startState).2.predictionHistory = .ok false := by
  decide!

/-- C9, amended. In `generateNewPrediction` on a page with the button: when the
POST succeeds with a prediction `P` whose percentages can be computed and the
history request fails (transport, status not ok, body that does not decode),
the outcome is a mix: `currentPrediction` is `P` and the five text targets show
the percentages of `P`, `predictionHistory` and the history container keep
their prior value, and the label is `ERROR - TRY AGAIN`. The label is
`PREDICTION UPDATED` if and only if both requests succeed, the `prediction` and
`predictions` fields of the two bodies can be read, and both
`updatePredictionDisplay` and `updateHistoryDisplay` return normally on them;
otherwise it is `ERROR - TRY AGAIN`, so for a failed request of either. With
payloads of the documented shape (a prediction that is falsy or has five
numeric fields; a history that is missing or an array of records) the label is
`PREDICTION UPDATED` as soon as both requests succeed. Once the POST step is
through and the history request has succeeded, both variables hold the fields
of the responses, also when the rendering of the history then throws. -/
theorem generateNewPrediction_label_and_slots (h : Host)
    (post history : Except JSError Response) (s : State) (hs : s.has .generate_btn) :
    (∀ (data P : JSValue) (x : JSNumber × JSNumber × JSNumber × JSNumber × JSNumber),
      post = .ok ⟨true, .ok data⟩ → getProp data "prediction" = .ok P → truthy P = true →
      predictionPercents h P = .ok x → requestFails history = true →
      (generateNewPrediction h post history s).2.currentPrediction = P ∧
      (generateNewPrediction h post history s).2.text .playoff_prob
        = (s.text .playoff_prob).map (fun _ => percentText h x.1) ∧
      (generateNewPrediction h post history s).2.text .division_prob
        = (s.text .division_prob).map (fun _ => percentText h x.2.1) ∧
      (generateNewPrediction h post history s).2.text .conference_prob
        = (s.text .conference_prob).map (fun _ => percentText h x.2.2.1) ∧
      (generateNewPrediction h post history s).2.text .superbowl_prob
        = (s.text .superbowl_prob).map (fun _ => percentText h x.2.2.2.1) ∧
      (generateNewPrediction h post history s).2.text .confidence
        = (s.text .confidence).map (fun _ => percentText h x.2.2.2.2) ∧
      (generateNewPrediction h post history s).2.predictionHistory = s.predictionHistory ∧
      (generateNewPrediction h post history s).2.dom .history_list = s.dom .history_list ∧
      (generateNewPrediction h post history s).2.text .generate_btn
        = some "ERROR - TRY AGAIN") ∧
    ((generateNewPrediction h post history s).2.text .generate_btn = some "PREDICTION UPDATED"
      ↔ ∃ data P data2 H, post = .ok ⟨true, .ok data⟩ ∧ getProp data "prediction" = .ok P ∧
          (updatePredictionDisplay h P s).1 = .done () ∧
          history = .ok ⟨true, .ok data2⟩ ∧ getProp data2 "predictions" = .ok H ∧
          (updateHistoryDisplay h H s).1 = .done ()) ∧
    ((generateNewPrediction h post history s).2.text .generate_btn = some "PREDICTION UPDATED" ∨
      (generateNewPrediction h post history s).2.text .generate_btn
        = some "ERROR - TRY AGAIN") ∧
    (requestFails post = true ∨ requestFails history = true →
      (generateNewPrediction h post history s).2.text .generate_btn
        = some "ERROR - TRY AGAIN") ∧
    (∀ (data P data2 H : JSValue),
      post = .ok ⟨true, .ok data⟩ → getProp data "prediction" = .ok P →
      (truthy P = false ∨ ∃ n1 n2 n3 n4 n5 : JSNumber,
        getProp P "playoff_probability" = .ok (.num n1) ∧
        getProp P "division_probability" = .ok (.num n2) ∧
        getProp P "conference_probability" = .ok (.num n3) ∧
        getProp P "superbowl_probability" = .ok (.num n4) ∧
        getProp P "confidence_score" = .ok (.num n5)) →
      history = .ok ⟨true, .ok data2⟩ → getProp data2 "predictions" = .ok H →
      (H = .undefined ∨ H = .null ∨
        ∃ preds recs, H = .arr preds ∧ List.Forall₂ IsRecord preds recs) →
      (generateNewPrediction h post history s).2.text .generate_btn
        = some "PREDICTION UPDATED") ∧
    (∀ (data P data2 H : JSValue),
      post = .ok ⟨true, .ok data⟩ → getProp data "prediction" = .ok P →
      (updatePredictionDisplay h P s).1 = .done () →
      history = .ok ⟨true, .ok data2⟩ → getProp data2 "predictions" = .ok H →
      (generateNewPrediction h post history s).2.currentPrediction = P ∧
      (generateNewPrediction h post history s).2.predictionHistory = H ∧
      ((updateHistoryDisplay h H s).1 ≠ .done () →
        (generateNewPrediction h post history s).2.text .generate_btn
          = some "ERROR - TRY AGAIN")) := by
  obtain ⟨hyes, hno⟩ := generateNewPrediction_label h post history s hs
  have hpostfail : requestFails post = true → ¬ PostSucceeds h post := by
    rintro hf ⟨data, P, h1, _⟩
    subst h1
    cases hf
  have hhistfail : requestFails history = true → ¬ HistorySucceeds h s history := by
    rintro hf ⟨data, P, h1, _⟩
    subst h1
    cases hf
  have hboth : (PostSucceeds h post ∧ HistorySucceeds h s history) ↔
      ∃ data P data2 H, post = .ok ⟨true, .ok data⟩ ∧ getProp data "prediction" = .ok P ∧
        (updatePredictionDisplay h P s).1 = .done () ∧
        history = .ok ⟨true, .ok data2⟩ ∧ getProp data2 "predictions" = .ok H ∧
        (updateHistoryDisplay h H s).1 = .done () := by
    rw [postSucceeds_iff h post s, historySucceeds_iff h history s]
    constructor
    · rintro ⟨⟨data, P, h1, h2, h3⟩, ⟨data2, H, h4, h5, h6⟩⟩
      exact ⟨data, P, data2, H, h1, h2, h3, h4, h5, h6⟩
    · rintro ⟨data, P, data2, H, h1, h2, h3, h4, h5, h6⟩
      exact ⟨⟨data, P, h1, h2, h3⟩, ⟨data2, H, h4, h5, h6⟩⟩
  refine ⟨?_, ?_, ?_, ?_, ?_, ?_⟩
  · intro data P x hpost hP ht hx hfail
    have hlabel := hno (fun hboth => hhistfail hfail hboth.2)
    obtain ⟨e, he⟩ := (requestFails_iff "Failed to fetch history" history).1 hfail
    have hfield : (responseData "Failed to generate prediction" post
        >>= (getProp · "prediction")) = .ok P := by
      subst hpost
      exact hP
    have hupd := updatePredictionDisplay_eq h P { s.startGenerate with currentPrediction := P }
    simp only [ht, Bool.true_eq_false, if_false, hx] at hupd
    have hgen := generateNewPrediction_eq h post history s hs
    rw [hfield] at hgen
    simp only [hupd, loadPredictionHistory_failed h history _ e he] at hgen
    refine ⟨?_, ?_, ?_, ?_, ?_, ?_, ?_, ?_, hlabel⟩
    · rw [hgen]
      refine ((showError_slots _ e).1).trans ?_
      simp only [State.log_currentPrediction]
      exact (showPercents_slots _ h x).1
    all_goals rw [hgen]
    · rw [text_of_dom (showError_dom _ _ _ (by decide))]
      simp only [State.log_text, showPercents_text]
      exact congrArg _ (text_of_dom (startGenerate_dom s _ (by decide)))
    · rw [text_of_dom (showError_dom _ _ _ (by decide))]
      simp only [State.log_text, showPercents_text]
      exact congrArg _ (text_of_dom (startGenerate_dom s _ (by decide)))
    · rw [text_of_dom (showError_dom _ _ _ (by decide))]
      simp only [State.log_text, showPercents_text]
      exact congrArg _ (text_of_dom (startGenerate_dom s _ (by decide)))
    · rw [text_of_dom (showError_dom _ _ _ (by decide))]
      simp only [State.log_text, showPercents_text]
      exact congrArg _ (text_of_dom (startGenerate_dom s _ (by decide)))
    · rw [text_of_dom (showError_dom _ _ _ (by decide))]
      simp only [State.log_text, showPercents_text]
      exact congrArg _ (text_of_dom (startGenerate_dom s _ (by decide)))
    · have h1 := (showError_slots (((State.showPercents
        { s.startGenerate with currentPrediction := P } h x).log
          (.request "GET" (API_URL ++ "/predictions/history?limit=10"))).log
          (.consoleError "Error loading history:" e)) e).2
      rw [h1]
      simp only [State.log_predictionHistory]
      rw [(showPercents_slots _ h x).2]
      exact (startGenerate_slots s).2
    · rw [showError_dom _ _ _ (by decide)]
      simp only [State.log_dom]
      rw [showPercents_dom _ _ _ _ (by decide)]
      exact startGenerate_dom s _ (by decide)
  · rw [← hboth]
    constructor
    · intro hl
      by_contra hneg
      rw [hno hneg] at hl
      simp at hl
    · exact hyes
  · by_cases hb : PostSucceeds h post ∧ HistorySucceeds h s history
    · exact Or.inl (hyes hb)
    · exact Or.inr (hno hb)
  · intro hfail
    apply hno
    rintro ⟨h1, h2⟩
    rcases hfail with hf | hf
    · exact hpostfail hf h1
    · exact hhistfail hf h2
  · intro data P data2 H hpost hP hshape hhist hH hrecs
    apply hyes
    rw [hboth]
    refine ⟨data, P, data2, H, hpost, hP, ?_, hhist, hH, updateHistoryDisplay_records h H s hrecs⟩
    rcases hshape with hf | ⟨n1, n2, n3, n4, n5, g1, g2, g3, g4, g5⟩
    · exact (updatePredictionDisplay_done_iff h P s).2 (Or.inl hf)
    · exact updatePredictionDisplay_numbers h P s n1 n2 n3 n4 n5 g1 g2 g3 g4 g5
  · intro data P data2 H hpost hP hdone hhist hH
    obtain ⟨hc, hp⟩ := generateNewPrediction_assigned h post history s hs data P data2 H
      hpost hP hdone hhist hH
    refine ⟨hc, hp, fun hthrow => hno ?_⟩
    rw [hboth]
    rintro ⟨data', P', data2', H', _, _, _, h4, h5, h6⟩
    have hsame : H' = H := by
      rw [hhist] at h4
      injection h4 with h4
      injection h4 with _ h4
      injection h4 with h4
      subst h4
      rw [hH] at h5
      injection h5 with h5
      exact h5.symm
    subst hsame
    exact hthrow h6

/-- C9, witness: the amended theorem at a POST that answers with the mock
prediction and a history request that fails in transport. -/
theorem generateNewPrediction_label_and_slots_witness :
    (generateNewPrediction demoHost (okResponse (.obj [("prediction", mockPrediction)]))
      (.error .network) startState).2.currentPrediction = mockPrediction :=
  ((generateNewPrediction_label_and_slots demoHost
    (okResponse (.obj [("prediction", mockPrediction)])) (.error .network) startState rfl).1
    (.obj [("prediction", mockPrediction)]) mockPrediction
    (.fin 42, .fin 28, .fin 12, .fin 6, .fin 73) rfl rfl rfl
    (predictionPercents_mock demoHost) rfl).1


/-- C10. `showMockData` leaves `currentPrediction` and `predictionHistory` as
they were, for every prior state. So after a run of `initializeApp` on a page
with all targets in which the prediction load succeeded with `P` and the stats
or the history request failed, the page shows the mock data set while
`currentPrediction` is `P` and `predictionHistory` has its prior value; and in
every run `predictionHistory` ends as it was or as the `predictions` field of
the decoded history response. -/
theorem showMockData_keeps_slots (h : Host) (clock : Nat → Int) (s : State) :
    SameSlots s (showMockData h clock s).2 ∧
    (∀ (r1 r2 r3 : Except JSError Response) (data P : JSValue),
      (∀ id, s.has id) →
      r1 = .ok ⟨true, .ok data⟩ → getProp data "prediction" = .ok P →
      (loadCurrentPrediction h r1 s).1 = .done () →
      requestFails r2 = true ∨ requestFails r3 = true →
      (initializeApp h clock r1 r2 r3 s).1 = .done () ∧
      ShowsMock (initializeApp h clock r1 r2 r3 s).2 h clock ∧
      (initializeApp h clock r1 r2 r3 s).2.currentPrediction = P ∧
      (initializeApp h clock r1 r2 r3 s).2.predictionHistory = s.predictionHistory) ∧
    (∀ (r1 r2 r3 : Except JSError Response),
      (initializeApp h clock r1 r2 r3 s).2.predictionHistory = s.predictionHistory ∨
      ∃ data, r3 = .ok ⟨true, .ok data⟩ ∧ getProp data "predictions"
        = .ok (initializeApp h clock r1 r2 r3 s).2.predictionHistory) := by
  refine ⟨showMockData_respects frame_sameSlots h clock s, ?_,
    fun r1 r2 r3 => (initializeApp_slots h clock r1 r2 r3 s).2.1⟩
  intro r1 r2 r3 data P hall hr1 hP hdone hfail
  obtain ⟨hcur, _, hprior⟩ := initializeApp_slots h clock r1 r2 r3 s
  obtain ⟨e, he⟩ := loadAll_fails h r1 r2 r3 s (Or.inr hfail)
  have hpage := loadAll_respects frame_samePage (fun _ _ _ => rfl) (fun _ _ _ => rfl) h r1 r2 r3 s
  have hhas : ∀ id, ((loadAll h r1 r2 r3 s).2.log
      (.consoleError "Error initializing app:" e)).has id :=
    fun id => (samePage_has hpage id).2 (hall id)
  have hcurP : (loadCurrentPrediction h r1 s).2.currentPrediction = P := by
    have hload := loadCurrentPrediction_eq h r1 s
    have hfield : (responseData "Failed to fetch prediction" r1 >>= (getProp · "prediction"))
        = .ok P := by
      subst hr1
      exact hP
    rw [hfield] at hload
    simp only at hload
    have hfr := updatePredictionDisplay_respects frame_sameSlots h P
      { s.log (.request "GET" (API_URL ++ "/predictions/current")) with currentPrediction := P }
    rcases hu : updatePredictionDisplay h P
      { s.log (.request "GET" (API_URL ++ "/predictions/current")) with currentPrediction := P }
      with ⟨o, s2⟩
    rw [hu] at hfr hload
    obtain ⟨hc, _⟩ := hfr
    simp only at hc
    cases o with
    | done a => rw [hload]; exact hc
    | thrown e2 => rw [hload]; exact hc
  refine ⟨?_, ?_, hcur.trans hcurP, hprior hdone hfail⟩
  · rw [initializeApp_of_thrown h clock r1 r2 r3 s e he (hall _)]
  · rw [initializeApp_of_thrown h clock r1 r2 r3 s e he (hall _)]
    unfold ShowsMock
    simp only [showMock_text, showMock_html, text_of_has _ _ (hhas _), html_of_has _ _ (hhas _)]
    exact ⟨trivial, trivial, trivial, trivial, trivial, trivial, trivial, trivial, trivial,
      trivial⟩


/-- C10, witness: the theorem at a concrete input. -/
theorem showMockData_keeps_slots_witness :
    (initializeApp demoHost (fun _ => 0) (okResponse (.obj [("prediction", mockPrediction)]))
      (.error .network) (okResponse .null) startState).2.currentPrediction = mockPrediction :=
  ((showMockData_keeps_slots demoHost (fun _ => 0) startState).2.1
    (okResponse (.obj [("prediction", mockPrediction)])) (.error .network) (okResponse .null)
    (.obj [("prediction", mockPrediction)]) mockPrediction (fun _ => rfl) rfl rfl
    (by decide!) (Or.inl rfl)).2.2.1

end Cowboys
